import Mathlib

/-!
# Revelations Engine: fence synchronisation and frame recording

A shallow embedding of `RevEngine/RevEngineMain.cpp`, with the two small
headers `Core/RevUtils.h` (`CalcConstantBufferByteSize`) and
`D3D/RevD3DTypes.h` (`RevModelData`).

* The host side is the class `RevEngineMain`: its relevant members are the
  fields of `Engine`, and every member function is a function on `Engine`
  that keeps the member function's name.
* Every call the engine makes into Direct3D 12 / DXGI / Win32 is appended to
  `Engine.trace`, in program order, so orderings can be read off the trace.
* The device side is a FIFO queue (`Gpu`): `ExecuteCommandLists` and
  `ID3D12CommandQueue::Signal` append an item, the GPU retires items from the
  head, a retired signal item stores its value in the fence.  How far the GPU
  has got when the host reads the fence is not determined by the program, so
  the operations that read it take the number `k` of items the GPU has
  retired in the meantime as an argument.
* `UINT64` values are natural numbers reduced modulo `2 ^ 64` where the code
  does arithmetic on them.
* The helper classes of `nv_helpers_dx12` and the scene classes are not part
  of these sources; what the engine needs of them is taken from the
  specification, in definitions whose comment says so.
* The views written into the shader-visible heap, the contents copied into
  the per-instance constant buffers, the static pointer `s_instance`, the
  resource states along the recorded commands and the list of steps of
  `OnInit` with the members each one reads are modelled next to the engine
  state, each from the function of the source that the definition names.
* A `HRESULT` failure of a Direct3D call is outside the model (the calls
  succeed); the ways an operation can fail to return a state are in
  `Fault`: the exceptions the engine throws itself, and an infinite wait.
-/

namespace RevEngine

/-! ## Data model -/

/-- Number of values of a `UINT64`. -/
def UINT64_RANGE : Nat := 2 ^ 64

/-- Number of values of a `uint32_t` / `UINT`. -/
def UINT32_RANGE : Nat := 2 ^ 32

/-- Back-buffer count, `RevEngineMain::FrameCount`. -/
def FrameCount : Nat := 2

/-- Value of `D3D12_RAYTRACING_TIER_1_0` in `d3d12.h`. -/
def D3D12_RAYTRACING_TIER_1_0 : Nat := 10

/-- Value of `D3D12_RAYTRACING_SHADER_TABLE_BYTE_ALIGNMENT` in `d3d12.h`: the
alignment Direct3D 12 asks of the start address of a shader table. -/
def D3D12_RAYTRACING_SHADER_TABLE_BYTE_ALIGNMENT : Nat := 64

/-- Value of `D3D12_RAYTRACING_SHADER_RECORD_BYTE_ALIGNMENT` in `d3d12.h`: the
alignment of a shader record, to which entry sizes are rounded. -/
def D3D12_RAYTRACING_SHADER_RECORD_BYTE_ALIGNMENT : Nat := 32

/-- The members of `D3D12_RESOURCE_STATES` the engine names. -/
inductive ResourceState
  | PRESENT
  | RENDER_TARGET
  | COPY_SOURCE
  | COPY_DEST
  | UNORDERED_ACCESS
  deriving DecidableEq, Repr

/-- The resources the frame recording transitions and copies. -/
inductive Resource
  | m_renderTargets (frameIndex : Nat)
  | m_outputResource
  deriving DecidableEq, Repr

/-- The two shader-visible descriptor heaps. -/
inductive DescriptorHeap
  | m_constHeap
  | m_srvUavHeap
  deriving DecidableEq, Repr

/-- The fields of `D3D12_DISPATCH_RAYS_DESC` that `PopulateCommandList`
assigns (the callable table stays zero-initialised). -/
structure DispatchRaysDesc where
  RayGenerationShaderRecord_StartAddress : Nat
  RayGenerationShaderRecord_SizeInBytes : Nat
  MissShaderTable_StartAddress : Nat
  MissShaderTable_SizeInBytes : Nat
  MissShaderTable_StrideInBytes : Nat
  HitGroupTable_StartAddress : Nat
  HitGroupTable_SizeInBytes : Nat
  HitGroupTable_StrideInBytes : Nat
  Width : Nat
  Height : Nat
  Depth : Nat
  deriving DecidableEq, Repr

/-- The fields of `D3D12_RESOURCE_DESC` that `CreateRaytracingOutputBuffer`
sets to something that depends on the window, with the state the resource is
created in. -/
structure OutputTexture where
  Width : Nat
  Height : Nat
  DepthOrArraySize : Nat
  state : ResourceState
  deriving DecidableEq, Repr

/-- The three buffers of `AccelerationStructureBuffers`, each by its size
in bytes. -/
structure AccelerationStructureBuffers where
  pScratch : Nat
  pResult : Nat
  pInstanceDesc : Nat
  deriving DecidableEq, Repr

/-- What the shader-binding-table helper `m_sbtHelper` reports through its
getters (`nv_helpers_dx12::ShaderBindingTableGenerator`, whose source is not
part of `RevEngineMain.cpp`): the three section sizes and the two entry
sizes that `PopulateCommandList` reads. -/
structure SbtHelper where
  GetRayGenSectionSize : Nat
  GetMissSectionSize : Nat
  GetMissEntrySize : Nat
  GetHitGroupSectionSize : Nat
  GetHitGroupEntrySize : Nat
  deriving DecidableEq, Repr

/-- The shader export and hit-group names the engine uses (the wide string
literals `L"RayGen"`, `L"Miss"`, `L"ClosestHit"`, `L"PlaneClosestHit"`,
`L"HitGroup"`, `L"PlaneHitGroup"`). -/
inductive ProgramName
  | RayGen
  | Miss
  | ClosestHit
  | PlaneClosestHit
  | HitGroup
  | PlaneHitGroup
  deriving DecidableEq, Repr

/-- One entry of a shader-binding-table section: the program name and the
root arguments (GPU addresses) handed to `Add...Program`. -/
structure SBTEntry where
  m_entryPoint : ProgramName
  m_inputData : List Nat
  deriving DecidableEq, Repr

/-- Modelled from the spec: the state of the SBT generator
(`nv_helpers_dx12::ShaderBindingTableGenerator`, whose source is not part of
`RevEngineMain.cpp`), "an ordered sequence of three sections: ray-generation,
miss, hit-group", each "a sequence of entries". -/
structure ShaderBindingTableGenerator where
  m_rayGen : List SBTEntry
  m_miss : List SBTEntry
  m_hitGroup : List SBTEntry
  deriving DecidableEq, Repr

/-- Modelled from the spec: the sizes the SBT layout is built from, that of
the shader identifier ("fixed size, queried from the compiled ray-tracing
pipeline"), that of one root-argument pointer, and the alignment entry sizes
are rounded up to. -/
structure SbtLayout where
  progIdSize : Nat
  rootArgumentSize : Nat
  alignment : Nat
  deriving DecidableEq, Repr

/-- The three local root signatures of the ray-tracing pipeline. -/
inductive RootSignature
  | m_rayGenSignature
  | m_missSignature
  | m_hitSignature
  deriving DecidableEq, Repr

/-- What `CreateRaytracingPipeline` registers with the pipeline generator:
the symbols exported by each library, the hit groups (name, closest-hit
symbol) and the root-signature associations (signature, symbols). -/
structure RayTracingPipeline where
  libraries : List (List ProgramName)
  hitGroups : List (ProgramName × ProgramName)
  rootSignatureAssociations : List (RootSignature × List ProgramName)
  deriving DecidableEq, Repr

/-- A command recorded into `m_commandList`. -/
inductive Cmd
  | SetGraphicsRootSignature
  | RSSetViewports
  | RSSetScissorRects
  | ResourceBarrier (resource : Resource) (before after : ResourceState)
  | OMSetRenderTargets (frameIndex : Nat)
  | ClearDepthStencilView
  | SetDescriptorHeaps (heap : DescriptorHeap)
  | SetGraphicsRootDescriptorTable (heap : DescriptorHeap)
  | IASetPrimitiveTopology
  | ClearRenderTargetView (frameIndex : Nat)
  | DrawInstance (index : Nat)
  | SetPipelineState1
  | DispatchRays (desc : DispatchRaysDesc)
  | CopyResource (dst src : Resource)
  | BuildBottomLevelAS (model : Nat)
  | BuildTopLevelAS (buffers : AccelerationStructureBuffers)
  deriving DecidableEq, Repr

/-- The two Win32 events the fence code waits on: the member `m_fenceEvent`
and the local `eventHandle` of `FlushCommandQueue`. -/
inductive EventHandle
  | m_fenceEvent
  | eventHandle
  deriving DecidableEq, Repr

/-- Objects the initialisation creates. -/
inductive Object
  | m_device
  | m_commandQueue
  | m_swapChain
  | m_rtvHeap
  | renderTargetView (n : Nat)
  | m_commandAllocator
  | m_dsvHeap
  | m_depthStencil
  | m_rootSignature
  | m_pipelineState
  | m_commandList
  | m_fence
  | m_scene
  | scratchBuffer (size : Nat)
  | resultBuffer (size : Nat)
  | instanceDescBuffer (size : Nat)
  | m_rayGenSignature
  | m_missSignature
  | m_hitSignature
  | m_rtStateObject
  | m_rtStateObjectProps
  | perInstanceConstantBuffer (i : Nat)
  | m_outputResource
  | m_cameraBuffer
  | m_constHeap
  | m_srvUavHeap
  | m_sbtStorage (size : Nat)
  deriving DecidableEq, Repr

/-- A call of the engine into Direct3D 12, DXGI or Win32, or into one of its
own helpers whose effect on the GPU is not modelled further. -/
inductive Call
  | create (object : Object)
  | CreateEvent
  | CreateEventEx
  | AllocatorReset
  | ListReset
  | record (cmd : Cmd)
  | ListClose
  | ExecuteCommandLists
  | Present
  | Signal (value : Nat)
  | GetCompletedValue (result : Nat)
  | SetEventOnCompletion (value : Nat) (event : EventHandle)
  | WaitForSingleObject (event : EventHandle)
  | CloseHandle (event : EventHandle)
  | GetCurrentBackBufferIndex
  | CheckFeatureSupport
  | ShaderManagerInitialize
  | AddAllInstancesToSBT
  | ComputeASBufferSizes
  | SbtReset
  | AddRayGenerationProgram (entry : SBTEntry)
  | AddMissProgram (entry : SBTEntry)
  | AddHitGroup (entry : SBTEntry)
  | ComputeSBTSize
  | SbtGenerate (sbtBuffer : Nat) (pipeline : RayTracingPipeline)
  | CameraUpdate
  | MapCameraBuffer
  deriving DecidableEq, Repr

/-- An item of the command queue. -/
inductive GpuItem
  | execute (commands : List Cmd)
  | signal (value : Nat)
  deriving DecidableEq, Repr

/-- The device side: the fence value (`ID3D12Fence::GetCompletedValue`), the
queue of submitted items that have not been retired yet, oldest first, and
the command lists that have finished executing. -/
structure Gpu where
  completed : Nat
  pending : List GpuItem
  retired : List (List Cmd)
  deriving DecidableEq, Repr

/-- Why an operation does not return a state. -/
inductive Fault
  | featureQueryFailed
  | raytracingNotSupported
  | couldNotAllocateSbt
  | unknownProgramName
  | indexOutOfRange
  | blockedForever
  deriving DecidableEq, Repr

/-- Result of an operation that may throw or wait for ever. -/
abbrev Run (α : Type) : Type := Except Fault α

/-- The kinds of descriptor range (`D3D12_DESCRIPTOR_RANGE_TYPE`) the engine
declares, which are also the kinds of view it writes into a heap. -/
inductive DescriptorRangeType
  | UAV
  | SRV
  | CBV
  deriving DecidableEq, Repr

/-- One range handed to `RootSignatureGenerator::AddHeapRangesParameter`, in
the order of the tuple in the source: base shader register, number of
descriptors, register space, range type, offset in descriptors from the
start of the table. -/
structure HeapRange where
  BaseShaderRegister : Nat
  NumDescriptors : Nat
  RegisterSpace : Nat
  RangeType : DescriptorRangeType
  OffsetInDescriptorsFromTableStart : Nat
  deriving DecidableEq, Repr

/-- A view written into a descriptor heap: an unordered-access view of a
resource (`m_outputResource.Get()`, absent while the member is null), a
shader-resource view of an acceleration structure (the result buffer of
`m_topLevelASBuffers`), or a constant-buffer view of a buffer with its
`SizeInBytes`. -/
inductive DescriptorView
  | UnorderedAccessView (resource : Option OutputTexture)
  | ShaderResourceView (accelerationStructure : Option AccelerationStructureBuffers)
  | ConstantBufferView (buffer : Object) (SizeInBytes : Nat)
  deriving DecidableEq, Repr

/-- Type `XMVECTOR`: four floats. The components are kept in tenths, the
literals of the source being `0.0f`, `0.4f`, `0.7f` and `1.0f` only
(0, 4, 7 and 10). -/
structure XMVECTOR where
  x : Nat
  y : Nat
  z : Nat
  w : Nat
  deriving DecidableEq, Repr

/-- Value of `sizeof(XMVECTOR)`. -/
def sizeofXMVECTOR : Nat := 16

/-- Value of `sizeof(XMMATRIX)`: four `XMVECTOR` rows. -/
def sizeofXMMATRIX : Nat := 64

/-- What the machine and the scene hand to the engine. -/
structure Platform where
  width : Nat
  height : Nat
  rasterDefault : Bool
  backBufferIndex : Nat
  featureQueryOk : Bool
  RaytracingTier : Nat
  modelCount : Nat
  instanceCount : Nat
  topLevelSizes : AccelerationStructureBuffers
  sbtHelper : SbtHelper
  sbtStorage : Option Nat
  srvUavHeapStart : Nat
  perInstanceAddresses : List Nat
  sbtLayout : SbtLayout
  srvUavHeapCpuStart : Nat
  descriptorIncrement : Nat
  deriving DecidableEq, Repr

/-- The members of `RevEngineMain` the modelled functions read or write,
with the command list contents, the swap chain position, the device side and
the trace of calls. -/
structure Engine where
  m_width : Nat
  m_height : Nat
  m_isRasterizationActive : Bool
  m_frameIndex : Nat
  m_fenceValue : Nat
  m_topLevelASBuffers : Option AccelerationStructureBuffers
  m_outputResource : Option OutputTexture
  m_sbtHelper : SbtHelper
  m_sbtStorage : Nat
  sbtSections : ShaderBindingTableGenerator
  m_rtStateObjectProps : RayTracingPipeline
  m_srvUavHeap : Nat
  m_perInstanceConstantBuffers : List Nat
  instanceCount : Nat
  swapChainIndex : Nat
  commandList : List Cmd
  recording : Bool
  gpu : Gpu
  trace : List Call
  m_cameraBufferSize : Nat
  srvUavHeapNumDescriptors : Nat
  srvUavHeapViews : List (Nat × DescriptorView)
  perInstanceData : List (Option (List XMVECTOR))
  deriving DecidableEq, Repr

/-! ## The device side -/

/-- The GPU retires the oldest pending item, if there is one. -/
def Gpu.step (g : Gpu) : Gpu :=
  match g.pending with
  | [] => g
  | GpuItem.execute commands :: rest =>
      { g with pending := rest, retired := g.retired ++ [commands] }
  | GpuItem.signal value :: rest =>
      { g with pending := rest, completed := value }

/-- The GPU retires `k` items (fewer when the queue runs empty). -/
def Gpu.run : Nat → Gpu → Gpu
  | 0, g => g
  | k + 1, g => Gpu.run k g.step

/-- The state in which an event registered for `value` fires while the GPU
works through `pending`: the first state whose fence value is at least
`value`; `none` when the queue runs empty before that. -/
def Gpu.fireAt (value : Nat) : List GpuItem → Nat → List (List Cmd) → Option Gpu
  | [], completed, retired =>
      if value ≤ completed then some ⟨completed, [], retired⟩ else none
  | item :: rest, completed, retired =>
      if value ≤ completed then some ⟨completed, item :: rest, retired⟩
      else
        match item with
        | GpuItem.execute commands => Gpu.fireAt value rest completed (retired ++ [commands])
        | GpuItem.signal v => Gpu.fireAt value rest v retired

/-- Blocking wait of the host for the fence to reach `value`. -/
def Gpu.waitFor (value : Nat) (g : Gpu) : Option Gpu :=
  Gpu.fireAt value g.pending g.completed g.retired

/-- Whether a submitted command list has not finished executing. -/
def Gpu.busy (g : Gpu) : Bool :=
  g.pending.any fun item =>
    match item with
    | GpuItem.execute _ => true
    | GpuItem.signal _ => false

/-- The command lists among the items of a queue, oldest first. -/
def executed : List GpuItem → List (List Cmd)
  | [] => []
  | GpuItem.execute commands :: rest => commands :: executed rest
  | GpuItem.signal _ :: rest => executed rest

/-- A fence value lies above everything the fence has been or is still going
to be set to: above its current value and above every queued signal. -/
def Gpu.below (value : Nat) (g : Gpu) : Prop :=
  g.completed < value ∧ ∀ x, GpuItem.signal x ∈ g.pending → x < value

/-- The device at the moment the host reads the fence after it has queued the
signal of `value`: the signal is at the end of the queue and the GPU has
retired `k` items since. -/
def Gpu.afterSignal (value k : Nat) (g : Gpu) : Gpu :=
  Gpu.run k { g with pending := g.pending ++ [GpuItem.signal value] }

/-- The queue with a command list submitted at its end. -/
def Gpu.submit (commands : List Cmd) (g : Gpu) : Gpu :=
  { g with pending := g.pending ++ [GpuItem.execute commands] }

/-- The calls of the `if (GetCompletedValue() < value)` block that follows a
signal, given the fence value read: nothing when the value has been
reached, else the registration of the event for `value` and the wait. -/
def waitCalls (value read : Nat) (event : EventHandle) : List Call :=
  if read < value then
    [Call.SetEventOnCompletion value event, Call.WaitForSingleObject event]
  else []

/-- The calls of the `if (GetCompletedValue() < m_fenceValue)` block of
`FlushCommandQueue`, given the fence value read. -/
def flushCalls (value read : Nat) : List Call :=
  if read < value then
    [Call.CreateEventEx] ++ waitCalls value read EventHandle.eventHandle ++
      [Call.CloseHandle EventHandle.eventHandle]
  else []

/-! ## Host-side primitives -/

/-- Append a call to the trace. -/
def Engine.log (c : Call) (e : Engine) : Engine :=
  { e with trace := e.trace ++ [c] }

/-- Method call `m_commandList-><cmd>(...)`: the command is recorded. -/
def Engine.recordCmd (c : Cmd) (e : Engine) : Engine :=
  { e with commandList := e.commandList ++ [c], trace := e.trace ++ [Call.record c] }

/-- Call of `m_commandList->Reset(...)`. -/
def Engine.listReset (e : Engine) : Engine :=
  { e with commandList := [], recording := true, trace := e.trace ++ [Call.ListReset] }

/-- Call of `m_commandList->Close()`. -/
def Engine.listClose (e : Engine) : Engine :=
  { e with recording := false, trace := e.trace ++ [Call.ListClose] }

/-- Call of `m_commandQueue->ExecuteCommandLists(1, {m_commandList})`. -/
def Engine.executeCommandLists (e : Engine) : Engine :=
  { e with
    gpu := { e.gpu with pending := e.gpu.pending ++ [GpuItem.execute e.commandList] },
    trace := e.trace ++ [Call.ExecuteCommandLists] }

/-- Call of `m_commandQueue->Signal(m_fence.Get(), value)`. -/
def Engine.signal (value : Nat) (e : Engine) : Engine :=
  { e with
    gpu := { e.gpu with pending := e.gpu.pending ++ [GpuItem.signal value] },
    trace := e.trace ++ [Call.Signal value] }

/-- The GPU retires `k` items while the host runs on. -/
def Engine.gpuProgress (k : Nat) (e : Engine) : Engine :=
  { e with gpu := e.gpu.run k }

/-- Call of `m_fence->SetEventOnCompletion(value, event)` followed by
`WaitForSingleObject(event, INFINITE)`: the host resumes in the state
in which the event fires. -/
def Engine.waitOnEvent (value : Nat) (event : EventHandle) (e : Engine) : Run Engine :=
  match e.gpu.waitFor value with
  | none => Except.error Fault.blockedForever
  | some g =>
      Except.ok { e with
        gpu := g,
        trace := e.trace ++
          [Call.SetEventOnCompletion value event, Call.WaitForSingleObject event] }

/-- Call of `m_swapChain->Present(1, 0)`: the swap chain moves on to its next
back buffer. -/
def Engine.present (e : Engine) : Engine :=
  { e with
    swapChainIndex := (e.swapChainIndex + 1) % FrameCount,
    trace := e.trace ++ [Call.Present] }

/-- The values passed to `ID3D12CommandQueue::Signal`, in call order. -/
def signalled : List Call → List Nat
  | [] => []
  | Call.Signal value :: rest => value :: signalled rest
  | _ :: rest => signalled rest

/-- The commands recorded into the command list, in call order. -/
def recorded : List Call → List Cmd
  | [] => []
  | Call.record c :: rest => c :: recorded rest
  | _ :: rest => recorded rest

/-- Several commands recorded one after the other. -/
def Engine.recordAll (cs : List Cmd) (e : Engine) : Engine :=
  { e with commandList := e.commandList ++ cs, trace := e.trace ++ cs.map Call.record }

/-! ## The shader-binding-table generator and the pipeline -/

/-- Modelled from the spec: `Reset()` "clears all three section entry
lists". -/
def ShaderBindingTableGenerator.Reset (_ : ShaderBindingTableGenerator) :
    ShaderBindingTableGenerator :=
  ⟨[], [], []⟩

/-- Modelled from the spec: `AddRayGenerationProgram(name, rootArguments)`
"appends one entry to the corresponding section in call order". -/
def ShaderBindingTableGenerator.AddRayGenerationProgram (entryPoint : ProgramName)
    (inputData : List Nat) (g : ShaderBindingTableGenerator) : ShaderBindingTableGenerator :=
  { g with m_rayGen := g.m_rayGen ++ [⟨entryPoint, inputData⟩] }

/-- Modelled from the spec: `AddMissProgram(name, rootArguments)` appends one
entry to the miss section. -/
def ShaderBindingTableGenerator.AddMissProgram (entryPoint : ProgramName)
    (inputData : List Nat) (g : ShaderBindingTableGenerator) : ShaderBindingTableGenerator :=
  { g with m_miss := g.m_miss ++ [⟨entryPoint, inputData⟩] }

/-- Modelled from the spec: `AddHitGroup(name, rootArguments)` appends one
entry to the hit-group section. -/
def ShaderBindingTableGenerator.AddHitGroup (entryPoint : ProgramName)
    (inputData : List Nat) (g : ShaderBindingTableGenerator) : ShaderBindingTableGenerator :=
  { g with m_hitGroup := g.m_hitGroup ++ [⟨entryPoint, inputData⟩] }

/-- Rounding up to a multiple of the alignment, as the helper macro
`ROUND_UP(v, powerOf2Alignment)` does for a power of two:
`(v + alignment - 1) & ~(alignment - 1)`, written with a division. -/
def roundUp (v alignment : Nat) : Nat :=
  (v + alignment - 1) / alignment * alignment

/-- Modelled from the spec: the size of an entry, "shader-identifier bytes
+ zero or more root-argument pointers". -/
def SbtLayout.entrySize (l : SbtLayout) (entry : SBTEntry) : Nat :=
  l.progIdSize + l.rootArgumentSize * entry.m_inputData.length

/-- The largest entry size of a section (0 for an empty section). -/
def SbtLayout.maxEntrySize (l : SbtLayout) : List SBTEntry → Nat
  | [] => 0
  | entry :: rest => max (l.entrySize entry) (l.maxEntrySize rest)

/-- Modelled from the spec: the stride of a section, "the maximum entry size
in that section, rounded up to the GPU table alignment". -/
def SbtLayout.stride (l : SbtLayout) (entries : List SBTEntry) : Nat :=
  roundUp (l.maxEntrySize entries) l.alignment

/-- Modelled from the spec: `ComputeSize()`, "for each section, entry_count ×
max(entry_size_in_section), sizes then rounded to table alignment; returns
total buffer size needed". -/
def ShaderBindingTableGenerator.ComputeSBTSize (l : SbtLayout)
    (g : ShaderBindingTableGenerator) : Nat :=
  g.m_rayGen.length * l.stride g.m_rayGen
    + g.m_miss.length * l.stride g.m_miss
    + g.m_hitGroup.length * l.stride g.m_hitGroup

/-- The names for which the compiled pipeline has a shader identifier: the
symbols its libraries export and its hit groups. -/
def RayTracingPipeline.identifiers (pipeline : RayTracingPipeline) : List ProgramName :=
  pipeline.libraries.flatten ++ pipeline.hitGroups.map Prod.fst

/-- The program names of all entries, section by section. -/
def ShaderBindingTableGenerator.programNames (g : ShaderBindingTableGenerator) :
    List ProgramName :=
  (g.m_rayGen ++ g.m_miss ++ g.m_hitGroup).map SBTEntry.m_entryPoint

/-- Modelled from the spec: `Generate(destinationBuffer, lookup)` looks every
entry's shader identifier up "by program name from the compiled pipeline";
an "unknown program name at lookup time is a fatal configuration error".
The bytes written to the buffer are not part of this embedding. -/
def ShaderBindingTableGenerator.Generate (g : ShaderBindingTableGenerator)
    (pipeline : RayTracingPipeline) : Run Unit :=
  if g.programNames.all fun name => decide (name ∈ pipeline.identifiers) then Except.ok ()
  else Except.error Fault.unknownProgramName

/-- Call of `m_sbtHelper.Reset()`. -/
def Engine.sbtReset (e : Engine) : Engine :=
  { e with sbtSections := e.sbtSections.Reset, trace := e.trace ++ [Call.SbtReset] }

/-- Call of `m_sbtHelper.AddRayGenerationProgram(name, args)`. -/
def Engine.sbtAddRayGenerationProgram (name : ProgramName) (args : List Nat) (e : Engine) :
    Engine :=
  { e with
    sbtSections := e.sbtSections.AddRayGenerationProgram name args
    trace := e.trace ++ [Call.AddRayGenerationProgram ⟨name, args⟩] }

/-- Call of `m_sbtHelper.AddMissProgram(name, args)`. -/
def Engine.sbtAddMissProgram (name : ProgramName) (args : List Nat) (e : Engine) : Engine :=
  { e with
    sbtSections := e.sbtSections.AddMissProgram name args
    trace := e.trace ++ [Call.AddMissProgram ⟨name, args⟩] }

/-- Call of `m_sbtHelper.AddHitGroup(name, args)`. -/
def Engine.sbtAddHitGroup (name : ProgramName) (args : List Nat) (e : Engine) : Engine :=
  { e with
    sbtSections := e.sbtSections.AddHitGroup name args
    trace := e.trace ++ [Call.AddHitGroup ⟨name, args⟩] }

/-- Call of `m_sbtHelper.ComputeSBTSize()`: the value returned and the state
after the call, in which the helper's getters report its sizes. -/
def Engine.sbtComputeSBTSize (p : Platform) (e : Engine) : Nat × Engine :=
  (e.sbtSections.ComputeSBTSize p.sbtLayout,
   { e with m_sbtHelper := p.sbtHelper }.log Call.ComputeSBTSize)

/-- The loop `for (int i = 0; i < 3; ++i)` of `CreateShaderBindingTable` over
the given values of `i`: one `HitGroup` entry per index, with the GPU address
of `m_perInstanceConstantBuffers[i]` as its root argument; an index outside
the vector is a fault. -/
def addInstanceHitGroups : List Nat → Engine → Run Engine
  | [], e => Except.ok e
  | i :: rest, e =>
      match e.m_perInstanceConstantBuffers.get? i with
      | none => Except.error Fault.indexOutOfRange
      | some address =>
          addInstanceHitGroups rest (e.sbtAddHitGroup ProgramName.HitGroup [address])

/-- The calls of the helper's `Generate` in a trace, each with the buffer and
the pipeline it was given. -/
def generateCalls : List Call → List (Nat × RayTracingPipeline)
  | [] => []
  | Call.SbtGenerate sbtBuffer pipeline :: rest => (sbtBuffer, pipeline) :: generateCalls rest
  | _ :: rest => generateCalls rest

/-- The three sections `CreateShaderBindingTable` fills in, given the GPU
handle of the shader-visible heap and the addresses of the three
per-instance constant buffers. -/
def engineTable (heapPointer a0 a1 a2 : Nat) : ShaderBindingTableGenerator :=
  { m_rayGen := [⟨ProgramName.RayGen, [heapPointer]⟩]
    m_miss := [⟨ProgramName.Miss, []⟩]
    m_hitGroup :=
      [⟨ProgramName.HitGroup, [a0]⟩, ⟨ProgramName.HitGroup, [a1]⟩,
       ⟨ProgramName.HitGroup, [a2]⟩, ⟨ProgramName.PlaneHitGroup, []⟩] }

/-! ## Member functions of `RevEngineMain` -/

/-- Accessor `RevEngineMain::GetWidth`. -/
def GetWidth (e : Engine) : Nat := e.m_width

/-- Accessor `RevEngineMain::GetHeight`. -/
def GetHeight (e : Engine) : Nat := e.m_height

/-- The constructor: window size and raster default are copied; nothing has
been created or submitted yet. -/
def construct (p : Platform) : Engine :=
  { m_width := p.width
    m_height := p.height
    m_isRasterizationActive := p.rasterDefault
    m_frameIndex := 0
    m_fenceValue := 0
    m_topLevelASBuffers := none
    m_outputResource := none
    m_sbtHelper := ⟨0, 0, 0, 0, 0⟩
    m_sbtStorage := 0
    sbtSections := ⟨[], [], []⟩
    m_rtStateObjectProps := ⟨[], [], []⟩
    m_srvUavHeap := 0
    m_perInstanceConstantBuffers := []
    instanceCount := 0
    swapChainIndex := p.backBufferIndex
    commandList := []
    recording := false
    gpu := ⟨0, [], []⟩
    trace := []
    m_cameraBufferSize := 0
    srvUavHeapNumDescriptors := 0
    srvUavHeapViews := []
    perInstanceData := [] }

/-- Function `RevEngineMain::WaitForPreviousFrame`: signal the current
`m_fenceValue`, increment it, and wait for the signalled value unless the
fence has reached it already. -/
def WaitForPreviousFrame (k : Nat) (e : Engine) : Run Engine := do
  let fence := e.m_fenceValue
  let e := e.signal fence
  let e := { e with m_fenceValue := (e.m_fenceValue + 1) % UINT64_RANGE }
  let e := e.gpuProgress k
  let e := e.log (Call.GetCompletedValue e.gpu.completed)
  let e ←
    if e.gpu.completed < fence then e.waitOnEvent fence EventHandle.m_fenceEvent
    else pure e
  pure ({ e with m_frameIndex := e.swapChainIndex }.log Call.GetCurrentBackBufferIndex)

/-- Function `RevEngineMain::FlushCommandQueue`: increment `m_fenceValue`,
signal the new value, and wait for it unless the fence has reached it. -/
def FlushCommandQueue (k : Nat) (e : Engine) : Run Engine := do
  let e := { e with m_fenceValue := (e.m_fenceValue + 1) % UINT64_RANGE }
  let e := e.signal e.m_fenceValue
  let e := e.gpuProgress k
  let e := e.log (Call.GetCompletedValue e.gpu.completed)
  if e.gpu.completed < e.m_fenceValue then
    let e := e.log Call.CreateEventEx
    let e ← e.waitOnEvent e.m_fenceValue EventHandle.eventHandle
    pure (e.log (Call.CloseHandle EventHandle.eventHandle))
  else pure e

/-- Function `RevEngineMain::CheckRaytracingSupport`. -/
def CheckRaytracingSupport (p : Platform) (e : Engine) : Run Engine :=
  let e := e.log Call.CheckFeatureSupport
  if !p.featureQueryOk then Except.error Fault.featureQueryFailed
  else if p.RaytracingTier < D3D12_RAYTRACING_TIER_1_0 then
    Except.error Fault.raytracingNotSupported
  else Except.ok e

/-- Modelled from the spec: `RevScene::DrawScene` (its source is not in
`RevEngineMain.cpp`) "issues per-instance draw calls": one draw command per
scene instance, in instance order. -/
def DrawScene (e : Engine) : List Cmd :=
  (List.range e.instanceCount).map Cmd.DrawInstance

/-- The `D3D12_DISPATCH_RAYS_DESC` that `PopulateCommandList` fills in on the
ray-traced path.  The section sizes are held in `uint32_t` locals, the start
addresses are `UINT64` sums. -/
def dispatchRaysDesc (e : Engine) : DispatchRaysDesc :=
  let rayGenerationSectionSizeInBytes := e.m_sbtHelper.GetRayGenSectionSize % UINT32_RANGE
  let missSectionSizeInBytes := e.m_sbtHelper.GetMissSectionSize % UINT32_RANGE
  let hitGroupsSectionSize := e.m_sbtHelper.GetHitGroupSectionSize % UINT32_RANGE
  { RayGenerationShaderRecord_StartAddress := e.m_sbtStorage
    RayGenerationShaderRecord_SizeInBytes := rayGenerationSectionSizeInBytes
    MissShaderTable_StartAddress :=
      (e.m_sbtStorage + rayGenerationSectionSizeInBytes) % UINT64_RANGE
    MissShaderTable_SizeInBytes := missSectionSizeInBytes
    MissShaderTable_StrideInBytes := e.m_sbtHelper.GetMissEntrySize
    HitGroupTable_StartAddress :=
      ((e.m_sbtStorage + rayGenerationSectionSizeInBytes) % UINT64_RANGE
        + missSectionSizeInBytes) % UINT64_RANGE
    HitGroupTable_SizeInBytes := hitGroupsSectionSize
    HitGroupTable_StrideInBytes := e.m_sbtHelper.GetHitGroupEntrySize
    Width := GetWidth e
    Height := GetHeight e
    Depth := 1 }

/-- The commands of the `if (m_isRasterizationActive)` branch of
`PopulateCommandList`. -/
def rasterCommands (e : Engine) : List Cmd :=
  [ Cmd.ClearDepthStencilView,
    Cmd.SetDescriptorHeaps DescriptorHeap.m_constHeap,
    Cmd.SetGraphicsRootDescriptorTable DescriptorHeap.m_constHeap,
    Cmd.IASetPrimitiveTopology,
    Cmd.ClearRenderTargetView e.m_frameIndex ] ++ DrawScene e

/-- The commands of the `else` branch of `PopulateCommandList`. -/
def raytraceCommands (e : Engine) : List Cmd :=
  [ Cmd.SetDescriptorHeaps DescriptorHeap.m_srvUavHeap,
    Cmd.ResourceBarrier Resource.m_outputResource
      ResourceState.COPY_SOURCE ResourceState.UNORDERED_ACCESS,
    Cmd.SetPipelineState1,
    Cmd.DispatchRays (dispatchRaysDesc e),
    Cmd.ResourceBarrier Resource.m_outputResource
      ResourceState.UNORDERED_ACCESS ResourceState.COPY_SOURCE,
    Cmd.ResourceBarrier (Resource.m_renderTargets e.m_frameIndex)
      ResourceState.RENDER_TARGET ResourceState.COPY_DEST,
    Cmd.CopyResource (Resource.m_renderTargets e.m_frameIndex) Resource.m_outputResource,
    Cmd.ResourceBarrier (Resource.m_renderTargets e.m_frameIndex)
      ResourceState.COPY_DEST ResourceState.RENDER_TARGET ]

/-- All commands `PopulateCommandList` records between `Reset` and `Close`,
in program order. -/
def frameCommands (e : Engine) : List Cmd :=
  [ Cmd.SetGraphicsRootSignature,
    Cmd.RSSetViewports,
    Cmd.RSSetScissorRects,
    Cmd.ResourceBarrier (Resource.m_renderTargets e.m_frameIndex)
      ResourceState.PRESENT ResourceState.RENDER_TARGET,
    Cmd.OMSetRenderTargets e.m_frameIndex ]
  ++ (if e.m_isRasterizationActive then rasterCommands e else raytraceCommands e)
  ++ [ Cmd.ResourceBarrier (Resource.m_renderTargets e.m_frameIndex)
        ResourceState.RENDER_TARGET ResourceState.PRESENT ]

/-- Function `RevEngineMain::PopulateCommandList`: reset the allocator and
the list, record the frame, close the list. -/
def PopulateCommandList (e : Engine) : Engine :=
  let e := e.log Call.AllocatorReset
  let e := e.listReset
  let e := e.recordAll (frameCommands e)
  e.listClose

/-- Function `RevEngineMain::OnRender`. -/
def OnRender (k : Nat) (e : Engine) : Run Engine :=
  let e := PopulateCommandList e
  let e := e.executeCommandLists
  let e := e.present
  WaitForPreviousFrame k e

/-- Function `RevEngineMain::OnDestroy`. -/
def OnDestroy (k : Nat) (e : Engine) : Run Engine := do
  let e ← WaitForPreviousFrame k e
  pure (e.log (Call.CloseHandle EventHandle.m_fenceEvent))

/-- Function `RevEngineMain::OnKeyUp`, for the space key or another one. -/
def OnKeyUp (isSpace : Bool) (e : Engine) : Engine :=
  if isSpace then { e with m_isRasterizationActive := !e.m_isRasterizationActive } else e

/-! ## Initialisation -/

/-- Function `RevEngineMain::LoadPipeline`: device, queue, swap chain, render
target views, command allocator and depth buffer. -/
def LoadPipeline (e : Engine) : Engine :=
  let e := e.log (Call.create Object.m_device)
  let e := e.log (Call.create Object.m_commandQueue)
  let e := e.log (Call.create Object.m_swapChain)
  let e := { e with m_frameIndex := e.swapChainIndex }.log Call.GetCurrentBackBufferIndex
  let e := e.log (Call.create Object.m_rtvHeap)
  let e := { e with
    trace := e.trace ++ (List.range FrameCount).map fun n => Call.create (Object.renderTargetView n) }
  let e := e.log (Call.create Object.m_commandAllocator)
  let e := e.log (Call.create Object.m_dsvHeap)
  e.log (Call.create Object.m_depthStencil)

/-- Function `RevEngineMain::LoadAssets`: root signature, pipeline state,
the command list (created in the recording state), the fence (created with
value 0), `m_fenceValue = 1`, the fence event, and a first
`WaitForPreviousFrame`. -/
def LoadAssets (k : Nat) (e : Engine) : Run Engine := do
  let e := e.log (Call.create Object.m_rootSignature)
  let e := e.log (Call.create Object.m_pipelineState)
  let e := { e with commandList := [], recording := true }.log (Call.create Object.m_commandList)
  let e := { e with gpu := { e.gpu with completed := 0 } }.log (Call.create Object.m_fence)
  let e := { e with m_fenceValue := 1 }
  let e := e.log Call.CreateEvent
  let e ← WaitForPreviousFrame k e
  pure (e.log Call.ShaderManagerInitialize)

/-- Function `RevEngineMain::CreateTopLevelAS`: gather the instances, query
the three sizes, create the three buffers, record the build. -/
def CreateTopLevelAS (p : Platform) (e : Engine) : Engine :=
  let e := e.log Call.AddAllInstancesToSBT
  let e := e.log Call.ComputeASBufferSizes
  let scratchSize := p.topLevelSizes.pScratch
  let resultSize := p.topLevelSizes.pResult
  let instanceDescSize := p.topLevelSizes.pInstanceDesc
  let e := e.log (Call.create (Object.scratchBuffer scratchSize))
  let e := e.log (Call.create (Object.resultBuffer resultSize))
  let e := e.log (Call.create (Object.instanceDescBuffer instanceDescSize))
  let buffers : AccelerationStructureBuffers := ⟨scratchSize, resultSize, instanceDescSize⟩
  let e := { e with m_topLevelASBuffers := some buffers }
  e.recordCmd (Cmd.BuildTopLevelAS buffers)

/-- Modelled from the spec: `RevModelManager::GenerateAccelerationBuffersAllModels`
(its source is not in `RevEngineMain.cpp`); the BLAS builder "records a build
command into the active command list", one per model. -/
def GenerateAccelerationBuffersAllModels (p : Platform) : List Cmd :=
  (List.range p.modelCount).map Cmd.BuildBottomLevelAS

/-- The commands `CreateAccelerationStructures` records: the bottom-level
builds, then the top-level build with the three buffers of the queried
sizes. -/
def accelerationCommands (p : Platform) : List Cmd :=
  GenerateAccelerationBuffersAllModels p ++
    [Cmd.BuildTopLevelAS
      ⟨p.topLevelSizes.pScratch, p.topLevelSizes.pResult, p.topLevelSizes.pInstanceDesc⟩]

/-- Function `RevEngineMain::CreateAccelerationStructures`: record the
builds, close and submit the list, increment `m_fenceValue`, signal it, wait
for it on `m_fenceEvent`, reset the list. -/
def CreateAccelerationStructures (p : Platform) (e : Engine) : Run Engine := do
  let e := { e with instanceCount := p.instanceCount }.log (Call.create Object.m_scene)
  let e := e.recordAll (GenerateAccelerationBuffersAllModels p)
  let e := CreateTopLevelAS p e
  let e := e.listClose
  let e := e.executeCommandLists
  let e := { e with m_fenceValue := (e.m_fenceValue + 1) % UINT64_RANGE }
  let e := e.signal e.m_fenceValue
  let e ← e.waitOnEvent e.m_fenceValue EventHandle.m_fenceEvent
  pure e.listReset

/-- The libraries, hit groups and root-signature associations that
`CreateRaytracingPipeline` hands to the pipeline generator. -/
def enginePipeline : RayTracingPipeline :=
  { libraries :=
      [[ProgramName.RayGen], [ProgramName.Miss],
       [ProgramName.ClosestHit, ProgramName.PlaneClosestHit]]
    hitGroups :=
      [(ProgramName.HitGroup, ProgramName.ClosestHit),
       (ProgramName.PlaneHitGroup, ProgramName.PlaneClosestHit)]
    rootSignatureAssociations :=
      [(RootSignature.m_rayGenSignature, [ProgramName.RayGen]),
       (RootSignature.m_missSignature, [ProgramName.Miss]),
       (RootSignature.m_hitSignature, [ProgramName.HitGroup, ProgramName.PlaneHitGroup])] }

/-- Function `RevEngineMain::CreateRaytracingPipeline`. -/
def CreateRaytracingPipeline (e : Engine) : Engine :=
  let e := e.log (Call.create Object.m_rayGenSignature)
  let e := e.log (Call.create Object.m_missSignature)
  let e := e.log (Call.create Object.m_hitSignature)
  let e := e.log (Call.create Object.m_rtStateObject)
  { e with m_rtStateObjectProps := enginePipeline }.log (Call.create Object.m_rtStateObjectProps)

/-- Function `RevEngineMain::CreateRayGenSignature`: the ranges of the one
heap-ranges parameter of the ray-generation root signature. -/
def CreateRayGenSignature : List HeapRange :=
  [⟨0, 1, 0, DescriptorRangeType.UAV, 0⟩,
   ⟨0, 1, 0, DescriptorRangeType.SRV, 1⟩,
   ⟨0, 1, 0, DescriptorRangeType.CBV, 2⟩]

/-- The local array `bufferData` of `CreatePerInstanceConstantBuffers`. -/
def bufferData : List XMVECTOR :=
  [⟨10, 0, 0, 10⟩, ⟨10, 4, 0, 10⟩, ⟨10, 7, 0, 10⟩,
   ⟨0, 10, 0, 10⟩, ⟨0, 10, 4, 10⟩, ⟨0, 10, 7, 10⟩,
   ⟨0, 0, 10, 10⟩, ⟨4, 0, 10, 10⟩, ⟨7, 0, 10, 10⟩]

/-- The source side of `memcpy(pData, &table[first], byteCount)`: the
elements the copy reads, or `none` when the bytes read do not all lie inside
the array. -/
def readElements (table : List XMVECTOR) (first byteCount : Nat) : Option (List XMVECTOR) :=
  if first * sizeofXMVECTOR + byteCount ≤ table.length * sizeofXMVECTOR then
    some ((table.drop first).take (byteCount / sizeofXMVECTOR))
  else none

/-- Function `RevEngineMain::CreatePerInstanceConstantBuffers`: the vector is
resized to 3 and each element gets a new buffer of `sizeof(XMVECTOR) * 3`
bytes, whose GPU address the machine chooses and which is filled from
`&bufferData[i * 3]`. -/
def CreatePerInstanceConstantBuffers (p : Platform) (e : Engine) : Engine :=
  let bufferSize := (sizeofXMVECTOR * 3) % UINT32_RANGE
  { e with
    m_perInstanceConstantBuffers := (List.range 3).map fun i => p.perInstanceAddresses.getD i 0
    perInstanceData := (List.range 3).map fun i => readElements bufferData (i * 3) bufferSize
    trace := e.trace ++ (List.range 3).map fun i => Call.create (Object.perInstanceConstantBuffer i) }

/-- Function `RevEngineMain::CreateRaytracingOutputBuffer`: a 2D texture of
the window size, one array slice, created in the copy-source state. -/
def CreateRaytracingOutputBuffer (e : Engine) : Engine :=
  let resDesc : OutputTexture :=
    { DepthOrArraySize := 1
      Width := GetWidth e
      Height := GetHeight e
      state := ResourceState.COPY_SOURCE }
  { e with m_outputResource := some resDesc }.log (Call.create Object.m_outputResource)

/-- Function `RevEngineMain::CreateCameraBuffer`: the size is that of four
matrices; the buffer and the heap of the raster path are created. -/
def CreateCameraBuffer (e : Engine) : Engine :=
  let nbMatrix := 4
  let e := { e with m_cameraBufferSize := (nbMatrix * sizeofXMMATRIX) % UINT32_RANGE }
  (e.log (Call.create Object.m_cameraBuffer)).log (Call.create Object.m_constHeap)

/-- A `Create*View` call of the device on the shader-visible heap: the view
is written at the CPU handle given. -/
def Engine.writeView (handle : Nat) (view : DescriptorView) (e : Engine) : Engine :=
  { e with srvUavHeapViews := e.srvUavHeapViews ++ [(handle, view)] }

/-- The view the shader-visible heap holds at a CPU handle: the one written
there last. -/
def Engine.descriptorAt (e : Engine) (handle : Nat) : Option DescriptorView :=
  e.srvUavHeapViews.reverse.lookup handle

/-- The kind of a view. -/
def DescriptorView.kind : DescriptorView → DescriptorRangeType
  | DescriptorView.UnorderedAccessView _ => DescriptorRangeType.UAV
  | DescriptorView.ShaderResourceView _ => DescriptorRangeType.SRV
  | DescriptorView.ConstantBufferView _ _ => DescriptorRangeType.CBV

/-- Function `RevEngineMain::CreateShaderResourceHeap`: a heap of 3
descriptors; the UAV of the output image at the start of the heap, the SRV
of the top-level acceleration structure one increment further, the CBV of
the camera buffer one more increment further (`srvHandle.ptr` is a 64-bit
unsigned value). -/
def CreateShaderResourceHeap (p : Platform) (e : Engine) : Engine :=
  let e := { e with
    m_srvUavHeap := p.srvUavHeapStart
    srvUavHeapNumDescriptors := 3
    srvUavHeapViews := [] }.log (Call.create Object.m_srvUavHeap)
  let srvHandle := p.srvUavHeapCpuStart
  let e := e.writeView srvHandle (DescriptorView.UnorderedAccessView e.m_outputResource)
  let srvHandle := (srvHandle + p.descriptorIncrement) % UINT64_RANGE
  let e := e.writeView srvHandle (DescriptorView.ShaderResourceView e.m_topLevelASBuffers)
  let srvHandle := (srvHandle + p.descriptorIncrement) % UINT64_RANGE
  e.writeView srvHandle
    (DescriptorView.ConstantBufferView Object.m_cameraBuffer e.m_cameraBufferSize)

/-- Function `RevEngineMain::CreateShaderBindingTable`: reset the helper, add
the programs, compute the size, allocate the buffer (an exception when there
is none), generate the table. -/
def CreateShaderBindingTable (p : Platform) (e : Engine) : Run Engine := do
  let e := e.sbtReset
  let heapPointer := e.m_srvUavHeap
  let e := e.sbtAddRayGenerationProgram ProgramName.RayGen [heapPointer]
  let e := e.sbtAddMissProgram ProgramName.Miss []
  let e ← addInstanceHitGroups (List.range 3) e
  let e := e.sbtAddHitGroup ProgramName.PlaneHitGroup []
  let computed := e.sbtComputeSBTSize p
  let sbtSize := computed.1 % UINT32_RANGE
  let e := computed.2
  match p.sbtStorage with
  | none => Except.error Fault.couldNotAllocateSbt
  | some address =>
      let e := { e with m_sbtStorage := address }.log (Call.create (Object.m_sbtStorage sbtSize))
      match e.sbtSections.Generate e.m_rtStateObjectProps with
      | Except.error f => Except.error f
      | Except.ok _ => Except.ok (e.log (Call.SbtGenerate address e.m_rtStateObjectProps))

/-- Function `RevEngineMain::UpdateCameraBuffer`. -/
def UpdateCameraBuffer (e : Engine) : Engine :=
  e.log Call.MapCameraBuffer

/-- Function `RevEngineMain::OnInit`. -/
def OnInit (p : Platform) (k : Nat) (e : Engine) : Run Engine := do
  let e := LoadPipeline e
  let e ← LoadAssets k e
  let e ← CheckRaytracingSupport p e
  let e ← CreateAccelerationStructures p e
  let e := e.listClose
  let e := CreateRaytracingPipeline e
  let e := CreatePerInstanceConstantBuffers p e
  let e := CreateRaytracingOutputBuffer e
  let e := CreateCameraBuffer e
  let e := CreateShaderResourceHeap p e
  let e ← CreateShaderBindingTable p e
  let e := e.log Call.CameraUpdate
  pure (UpdateCameraBuffer e)

/-! ## Lifecycle -/

/-- What the application does with the engine between `OnInit` and
`OnDestroy`; `k` is how many queue items the GPU retires before the host
reads the fence in that operation. -/
inductive Op
  | render (k : Nat)
  | flush (k : Nat)
  | keyUp (isSpace : Bool)
  deriving DecidableEq, Repr

/-- One lifecycle operation. -/
def Op.apply : Op → Engine → Run Engine
  | Op.render k, e => OnRender k e
  | Op.flush k, e => FlushCommandQueue k e
  | Op.keyUp isSpace, e => Except.ok (OnKeyUp isSpace e)

/-- A sequence of lifecycle operations, left to right. -/
def runOps : List Op → Engine → Run Engine
  | [], e => Except.ok e
  | op :: rest, e =>
      match op.apply e with
      | Except.error f => Except.error f
      | Except.ok e1 => runOps rest e1

/-- The whole life of an engine: construction, `OnInit`, the operations,
`OnDestroy`. -/
def lifecycle (p : Platform) (k0 : Nat) (ops : List Op) (kEnd : Nat) : Run Engine := do
  let e ← OnInit p k0 (construct p)
  let e ← runOps ops e
  OnDestroy kEnd e

/-- A machine with ray-tracing support, an 800 x 600 window and a small
scene, used to run the model on. -/
def samplePlatform : Platform :=
  { width := 800
    height := 600
    rasterDefault := false
    backBufferIndex := 0
    featureQueryOk := true
    RaytracingTier := 10
    modelCount := 2
    instanceCount := 4
    topLevelSizes := ⟨4096, 8192, 256⟩
    sbtHelper := ⟨64, 32, 32, 256, 64⟩
    sbtStorage := some 65536
    srvUavHeapStart := 4096
    perInstanceAddresses := [131072, 131328, 131584]
    sbtLayout := ⟨32, 8, 32⟩
    srvUavHeapCpuStart := 8192
    descriptorIncrement := 32 }

/-- A state with work in the queue that no wait has covered, as the first
frame leaves it behind: the fence holds 3, a command list and the signal
of 3 are still queued, and `m_fenceValue` is 4. -/
def stalledEngine : Engine :=
  { construct samplePlatform with
    m_fenceValue := 4
    gpu := ⟨3, [GpuItem.execute [Cmd.SetPipelineState1], GpuItem.signal 3], []⟩ }

/-- The engine on the sample machine once the top-level acceleration
structure buffers, the output image and the camera buffer have been
created. -/
def sampleHeapEngine : Engine :=
  CreateCameraBuffer (CreateRaytracingOutputBuffer
    (CreateTopLevelAS samplePlatform (construct samplePlatform)))

/-! ## `RevUtils` and `RevModelData` -/

/-- The `int` constant `~255` converted to `UINT` for the `&` with an
unsigned operand: all bits set except the low eight. -/
def NOT_255 : Nat := UINT32_RANGE - 1 - 255

/-- Function `RevUtils::CalcConstantBufferByteSize`:
`(byteSize + 255) & ~255` in `UINT` arithmetic. -/
def CalcConstantBufferByteSize (byteSize : Nat) : Nat :=
  ((byteSize + 255) % UINT32_RANGE) &&& NOT_255

/-- Conversion of an integer value to `int` (32 bits, two's complement). -/
def toInt32 (z : Int) : Int :=
  (z + 2 ^ 31) % 2 ^ 32 - 2 ^ 31

/-- Value of `sizeof(UINT)`. -/
def sizeofUINT : Nat := 4

/-- The `sizeof` of the two vertex structs, `RevVertexPosCol` and
`RevVertexPosTexNormBiTan`, which are declared in `Core/RevModelTypes.h`. -/
structure VertexSizes where
  sizeofRevVertexPosCol : Nat
  sizeofRevVertexPosTexNormBiTan : Nat

/-- The data members of `RevModelData` the accessors read; the two vertex
types are those of `Core/RevModelTypes.h`. -/
structure RevModelData (RevVertexPosCol RevVertexPosTexNormBiTan : Type) where
  m_vertexes : List RevVertexPosCol
  m_staticVertexes : List RevVertexPosTexNormBiTan
  m_indices : List Nat

/-- Accessor `RevModelData::GetNumVertexes`; the `size_t` is returned as
`int`. -/
def RevModelData.GetNumVertexes {A B : Type} (d : RevModelData A B) : Int :=
  if d.m_vertexes.length > 0 then toInt32 d.m_vertexes.length
  else toInt32 d.m_staticVertexes.length

/-- Accessor `RevModelData::GetVertexStride`; the `sizeof` is returned as
`int`. -/
def RevModelData.GetVertexStride {A B : Type} (sz : VertexSizes) (d : RevModelData A B) : Int :=
  if d.m_vertexes.length > 0 then toInt32 sz.sizeofRevVertexPosCol
  else toInt32 sz.sizeofRevVertexPosTexNormBiTan

/-- Accessor `RevModelData::GetModelVertexSize`: the product of two `int`. -/
def RevModelData.GetModelVertexSize {A B : Type} (sz : VertexSizes) (d : RevModelData A B) : Int :=
  toInt32 (d.GetNumVertexes * d.GetVertexStride sz)

/-- Accessor `RevModelData::GetModelIndexSize`: a `size_t` product returned
as `int`. -/
def RevModelData.GetModelIndexSize {A B : Type} (d : RevModelData A B) : Int :=
  toInt32 (((d.m_indices.length * sizeofUINT) % UINT64_RANGE : Nat) : Int)

/-- Accessor `RevModelData::GetData` (both overloads): the array whose
`data()` is returned. -/
def RevModelData.GetData {A B : Type} (d : RevModelData A B) : List A ⊕ List B :=
  if d.m_vertexes.length > 0 then Sum.inl d.m_vertexes
  else Sum.inr d.m_staticVertexes

/-- Length in bytes of a vertex array. -/
def byteLength {A B : Type} (sz : VertexSizes) : List A ⊕ List B → Nat
  | Sum.inl vertexes => vertexes.length * sz.sizeofRevVertexPosCol
  | Sum.inr vertexes => vertexes.length * sz.sizeofRevVertexPosTexNormBiTan

/-! ## Resource states along the recorded commands -/

/-- The state each back buffer and the ray-tracing output image is in, as it
is followed along a stream of recorded commands. -/
structure ResourceStates where
  m_renderTargets : Nat → ResourceState
  m_outputResource : ResourceState

/-- The tracked state of a resource. -/
def ResourceStates.get (t : ResourceStates) : Resource → ResourceState
  | Resource.m_renderTargets frameIndex => t.m_renderTargets frameIndex
  | Resource.m_outputResource => t.m_outputResource

/-- The tracked states after one resource has changed state. -/
def ResourceStates.set (t : ResourceStates) : Resource → ResourceState → ResourceStates
  | Resource.m_renderTargets frameIndex, state =>
      { t with m_renderTargets := fun n => if n = frameIndex then state else t.m_renderTargets n }
  | Resource.m_outputResource, state => { t with m_outputResource := state }

/-- One recorded command against the tracked states: a transition needs the
resource in its before-state and moves it to its after-state, `DispatchRays`
needs the output image in `UNORDERED_ACCESS`, `CopyResource` needs the source
in `COPY_SOURCE` and the destination in `COPY_DEST`; `none` when the command
does not find the state it needs. -/
def ResourceStates.step (t : ResourceStates) : Cmd → Option ResourceStates
  | Cmd.ResourceBarrier resource before after =>
      if t.get resource = before then some (t.set resource after) else none
  | Cmd.DispatchRays _ =>
      if t.m_outputResource = ResourceState.UNORDERED_ACCESS then some t else none
  | Cmd.CopyResource dst src =>
      if t.get src = ResourceState.COPY_SOURCE ∧ t.get dst = ResourceState.COPY_DEST then some t
      else none
  | _ => some t

/-- A stream of recorded commands against the tracked states. -/
def ResourceStates.run : List Cmd → ResourceStates → Option ResourceStates
  | [], t => some t
  | c :: rest, t =>
      match t.step c with
      | none => none
      | some t1 => ResourceStates.run rest t1

/-- The states before the first frame: the swap chain hands out its back
buffers in `PRESENT`, and the output image is in the state it was created
in. -/
def initialResourceStates (output : OutputTexture) : ResourceStates :=
  { m_renderTargets := fun _ => ResourceState.PRESENT
    m_outputResource := output.state }

/-! ## The singleton slot -/

/-- The static pointer `RevEngineMain::s_instance` and the heap behind it:
the pointer (`none` for `nullptr`), the instances that `new` has allocated
and `delete` has not freed, and the number of instances allocated so far.
An instance is named by its allocation number. -/
structure SingletonSlot where
  s_instance : Option Nat
  live : List Nat
  allocations : Nat
  deriving DecidableEq, Repr

/-- The static initialiser `s_instance = nullptr`. -/
def SingletonSlot.initial : SingletonSlot :=
  { s_instance := none, live := [], allocations := 0 }

/-- Function `RevEngineMain::Construct`: the pointer it returns and the slot
afterwards. A non-null `s_instance` is returned as it is; otherwise a new
instance is allocated and stored. -/
def Construct (s : SingletonSlot) : Nat × SingletonSlot :=
  match s.s_instance with
  | some pointer => (pointer, s)
  | none =>
      (s.allocations,
       { s_instance := some s.allocations
         live := s.allocations :: s.live
         allocations := s.allocations + 1 })

/-- Function `RevEngineMain::Destroy`: nothing for a null `s_instance`,
otherwise `delete(s_instance)`, with no assignment to `s_instance`; `none`
when the object deleted is not live any more (a second `delete` of the same
object, undefined in C++). -/
def Destroy (s : SingletonSlot) : Option SingletonSlot :=
  match s.s_instance with
  | none => some s
  | some pointer =>
      if pointer ∈ s.live then some { s with live := s.live.erase pointer } else none

/-- Function `RevEngineMain::Get`. -/
def Get (s : SingletonSlot) : Option Nat :=
  s.s_instance

/-- A call on the singleton interface. -/
inductive SingletonCall
  | Construct
  | Destroy
  | Get
  deriving DecidableEq, Repr

/-- One call on the slot. -/
def SingletonSlot.call (s : SingletonSlot) : SingletonCall → Option SingletonSlot
  | SingletonCall.Construct => some (Construct s).2
  | SingletonCall.Destroy => Destroy s
  | SingletonCall.Get => some s

/-- A sequence of calls on the slot, from the left. -/
def SingletonSlot.calls : List SingletonCall → SingletonSlot → Option SingletonSlot
  | [], s => some s
  | c :: rest, s =>
      match s.call c with
      | none => none
      | some s1 => SingletonSlot.calls rest s1

/-- The slot as the specification describes it: after a sequence of calls an
instance is held exactly when some `Construct` has been called with no
`Destroy` after it. -/
def constructedWithNoDestroyAfter : List SingletonCall → Bool
  | [] => false
  | SingletonCall.Construct :: rest =>
      !rest.contains SingletonCall.Destroy || constructedWithNoDestroyAfter rest
  | _ :: rest => constructedWithNoDestroyAfter rest

/-! ## The steps of `OnInit` and the objects they need -/

/-- The statements of `OnInit`, in the order of the source. -/
inductive InitStep
  | LoadPipeline
  | LoadAssets
  | CheckRaytracingSupport
  | CreateAccelerationStructures
  | CloseCommandList
  | CreateRaytracingPipeline
  | CreatePerInstanceConstantBuffers
  | CreateRaytracingOutputBuffer
  | CreateCameraBuffer
  | CreateShaderResourceHeap
  | CreateShaderBindingTable
  | CameraUpdate
  | UpdateCameraBuffer
  deriving DecidableEq, Repr

/-- The body of `OnInit` as a list of steps. -/
def initSteps : List InitStep :=
  [InitStep.LoadPipeline, InitStep.LoadAssets, InitStep.CheckRaytracingSupport,
   InitStep.CreateAccelerationStructures, InitStep.CloseCommandList,
   InitStep.CreateRaytracingPipeline, InitStep.CreatePerInstanceConstantBuffers,
   InitStep.CreateRaytracingOutputBuffer, InitStep.CreateCameraBuffer,
   InitStep.CreateShaderResourceHeap, InitStep.CreateShaderBindingTable,
   InitStep.CameraUpdate, InitStep.UpdateCameraBuffer]

/-- What one step of `OnInit` does to the engine. -/
def runStep (p : Platform) (k : Nat) : InitStep → Engine → Run Engine
  | InitStep.LoadPipeline, e => Except.ok (LoadPipeline e)
  | InitStep.LoadAssets, e => LoadAssets k e
  | InitStep.CheckRaytracingSupport, e => CheckRaytracingSupport p e
  | InitStep.CreateAccelerationStructures, e => CreateAccelerationStructures p e
  | InitStep.CloseCommandList, e => Except.ok e.listClose
  | InitStep.CreateRaytracingPipeline, e => Except.ok (CreateRaytracingPipeline e)
  | InitStep.CreatePerInstanceConstantBuffers, e =>
      Except.ok (CreatePerInstanceConstantBuffers p e)
  | InitStep.CreateRaytracingOutputBuffer, e => Except.ok (CreateRaytracingOutputBuffer e)
  | InitStep.CreateCameraBuffer, e => Except.ok (CreateCameraBuffer e)
  | InitStep.CreateShaderResourceHeap, e => Except.ok (CreateShaderResourceHeap p e)
  | InitStep.CreateShaderBindingTable, e => CreateShaderBindingTable p e
  | InitStep.CameraUpdate, e => Except.ok (e.log Call.CameraUpdate)
  | InitStep.UpdateCameraBuffer, e => Except.ok (UpdateCameraBuffer e)

/-- A list of steps one after the other; the first exception ends the run. -/
def runSteps (p : Platform) (k : Nat) : List InitStep → Engine → Run Engine
  | [], e => Except.ok e
  | s :: rest, e =>
      match runStep p k s e with
      | Except.error f => Except.error f
      | Except.ok e1 => runSteps p k rest e1

/-- The objects a trace has created, in order. -/
def created : List Call → List Object
  | [] => []
  | Call.create object :: rest => object :: created rest
  | _ :: rest => created rest

/-- The members a step of `OnInit` dereferences, or hands to the device,
that it does not create itself: `m_device->`, `m_commandQueue->`,
`m_swapChain->` and `m_commandAllocator.Get()` in `LoadAssets` and its
`WaitForPreviousFrame`; `m_device->` in the steps that create resources;
`m_commandList->`, `m_commandQueue->`, `m_fence->`, `m_commandAllocator.Get()`
and `m_pipelineState.Get()` in `CreateAccelerationStructures`;
`m_outputResource.Get()`, `m_topLevelASBuffers.pResult->` and
`m_cameraBuffer->` in `CreateShaderResourceHeap`; `m_srvUavHeap->`,
`m_perInstanceConstantBuffers[i]->` and `m_rtStateObjectProps.Get()` in
`CreateShaderBindingTable`; `m_cameraBuffer->` in `UpdateCameraBuffer`. -/
def stepReads (p : Platform) : InitStep → List Object
  | InitStep.LoadPipeline => []
  | InitStep.LoadAssets =>
      [Object.m_device, Object.m_commandAllocator, Object.m_commandQueue, Object.m_swapChain]
  | InitStep.CheckRaytracingSupport => [Object.m_device]
  | InitStep.CreateAccelerationStructures =>
      [Object.m_device, Object.m_commandList, Object.m_commandQueue, Object.m_fence,
       Object.m_commandAllocator, Object.m_pipelineState]
  | InitStep.CloseCommandList => [Object.m_commandList]
  | InitStep.CreateRaytracingPipeline => [Object.m_device]
  | InitStep.CreatePerInstanceConstantBuffers => [Object.m_device]
  | InitStep.CreateRaytracingOutputBuffer => [Object.m_device]
  | InitStep.CreateCameraBuffer => [Object.m_device]
  | InitStep.CreateShaderResourceHeap =>
      [Object.m_device, Object.m_outputResource, Object.resultBuffer p.topLevelSizes.pResult,
       Object.m_cameraBuffer]
  | InitStep.CreateShaderBindingTable =>
      [Object.m_srvUavHeap, Object.perInstanceConstantBuffer 0,
       Object.perInstanceConstantBuffer 1, Object.perInstanceConstantBuffer 2,
       Object.m_device, Object.m_rtStateObjectProps]
  | InitStep.CameraUpdate => []
  | InitStep.UpdateCameraBuffer => [Object.m_cameraBuffer]

/-- The members a step of `OnInit` creates that a later step reads. -/
def stepCreates (p : Platform) : InitStep → List Object
  | InitStep.LoadPipeline =>
      [Object.m_device, Object.m_commandQueue, Object.m_swapChain, Object.m_commandAllocator]
  | InitStep.LoadAssets => [Object.m_pipelineState, Object.m_commandList, Object.m_fence]
  | InitStep.CreateAccelerationStructures => [Object.resultBuffer p.topLevelSizes.pResult]
  | InitStep.CreateRaytracingPipeline => [Object.m_rtStateObjectProps]
  | InitStep.CreatePerInstanceConstantBuffers =>
      [Object.perInstanceConstantBuffer 0, Object.perInstanceConstantBuffer 1,
       Object.perInstanceConstantBuffer 2]
  | InitStep.CreateRaytracingOutputBuffer => [Object.m_outputResource]
  | InitStep.CreateCameraBuffer => [Object.m_cameraBuffer]
  | InitStep.CreateShaderResourceHeap => [Object.m_srvUavHeap]
  | _ => []

/-- Whether every step of a list finds the objects it reads among those
at hand, each step adding what it creates. -/
def dependenciesMet (p : Platform) : List Object → List InitStep → Bool
  | _, [] => true
  | atHand, s :: rest =>
      (stepReads p s).all (fun object => decide (object ∈ atHand)) &&
        dependenciesMet p (atHand ++ stepCreates p s) rest

/-! ## The queue: how a wait ends -/

theorem executed_append (q r : List GpuItem) : executed (q ++ r) = executed q ++ executed r := by
  induction q with
  | nil => rfl
  | cons item rest ih => cases item <;> simp [executed, ih]

/-- A wait returns in a state whose fence value is at least the awaited one. -/
theorem fireAt_reached (value : Nat) (pending : List GpuItem) :
    ∀ (completed : Nat) (retired : List (List Cmd)) (g : Gpu),
      Gpu.fireAt value pending completed retired = some g → value ≤ g.completed := by
  induction pending with
  | nil =>
      intro completed retired g h
      unfold Gpu.fireAt at h
      split at h
      · cases h; assumption
      · cases h
  | cons item rest ih =>
      intro completed retired g h
      unfold Gpu.fireAt at h
      split at h
      · cases h; assumption
      · cases item with
        | execute commands => exact ih _ _ _ h
        | signal v => exact ih _ _ _ h

/-- A wait for a value whose signal closes the queue does return. -/
theorem fireAt_returns (value : Nat) (q : List GpuItem) :
    ∀ (completed : Nat) (retired : List (List Cmd)),
      ∃ g, Gpu.fireAt value (q ++ [GpuItem.signal value]) completed retired = some g := by
  induction q with
  | nil =>
      intro completed retired
      by_cases h : value ≤ completed
      · simp [Gpu.fireAt, h]
      · simp [Gpu.fireAt, h]
  | cons item rest ih =>
      intro completed retired
      by_cases h : value ≤ completed
      · simp [Gpu.fireAt, h]
      · cases item with
        | execute commands =>
            obtain ⟨g, hg⟩ := ih completed (retired ++ [commands])
            exact ⟨g, by simpa [Gpu.fireAt, h] using hg⟩
        | signal v =>
            obtain ⟨g, hg⟩ := ih v retired
            exact ⟨g, by simpa [Gpu.fireAt, h] using hg⟩

/-- A wait for a value above everything queued before its signal ends when
that signal retires: the queue is empty and every command list has run. -/
theorem fireAt_drains (value : Nat) (q : List GpuItem) :
    ∀ (completed : Nat) (retired : List (List Cmd)),
      completed < value → (∀ x, GpuItem.signal x ∈ q → x < value) →
      Gpu.fireAt value (q ++ [GpuItem.signal value]) completed retired
        = some ⟨value, [], retired ++ executed q⟩ := by
  induction q with
  | nil =>
      intro completed retired hc _
      have h : ¬ value ≤ completed := Nat.not_le.mpr hc
      simp [Gpu.fireAt, h, executed]
  | cons item rest ih =>
      intro completed retired hc hq
      have h : ¬ value ≤ completed := Nat.not_le.mpr hc
      cases item with
      | execute commands =>
          have hrest : ∀ x, GpuItem.signal x ∈ rest → x < value :=
            fun x hx => hq x (List.mem_cons_of_mem _ hx)
          simp [Gpu.fireAt, h, executed, ih completed (retired ++ [commands]) hc hrest]
      | signal v =>
          have hv : v < value := hq v (List.mem_cons_self _ _)
          have hrest : ∀ x, GpuItem.signal x ∈ rest → x < value :=
            fun x hx => hq x (List.mem_cons_of_mem _ hx)
          simp [Gpu.fireAt, h, executed, ih v retired hv hrest]

/-- While the GPU works on a queue closed by the signal of `value`, either
that signal is still the last item, or the queue is empty and the fence
holds `value`. -/
theorem run_keeps_last (value : Nat) (k : Nat) :
    ∀ (g : Gpu) (q : List GpuItem), g.pending = q ++ [GpuItem.signal value] →
      (∃ q1, (g.run k).pending = q1 ++ [GpuItem.signal value]) ∨
      ((g.run k).pending = [] ∧ (g.run k).completed = value) := by
  induction k with
  | zero => intro g q h; exact Or.inl ⟨q, h⟩
  | succ k ih =>
      intro g q h
      cases q with
      | nil =>
          have hs : g.step = { g with pending := [], completed := value } := by
            simp [Gpu.step, h]
          right
          have hrun : ∀ n (g1 : Gpu), g1.pending = [] → g1.run n = g1 := by
            intro n
            induction n with
            | zero => intro g1 _; rfl
            | succ n ihn =>
                intro g1 h1
                have : g1.step = g1 := by simp [Gpu.step, h1]
                simp [Gpu.run, this, ihn g1 h1]
          simp [Gpu.run, hs, hrun]
      | cons item rest =>
          cases item with
          | execute commands =>
              have hs : g.step.pending = rest ++ [GpuItem.signal value] := by
                simp [Gpu.step, h]
              simpa [Gpu.run] using ih g.step rest hs
          | signal v =>
              have hs : g.step.pending = rest ++ [GpuItem.signal value] := by
                simp [Gpu.step, h]
              simpa [Gpu.run] using ih g.step rest hs

theorem run_of_empty (n : Nat) : ∀ g : Gpu, g.pending = [] → g.run n = g := by
  induction n with
  | zero => intro g _; rfl
  | succ n ih =>
      intro g h
      have hs : g.step = g := by simp [Gpu.step, h]
      simp [Gpu.run, hs, ih g h]

/-- When the signalled value lies above everything queued before it, the
host continues, with or without a wait, in the state in which the queue is
empty and every command list submitted before has run. -/
theorem run_then_wait_drains (value : Nat) (k : Nat) :
    ∀ (g : Gpu) (q : List GpuItem), g.pending = q ++ [GpuItem.signal value] →
      g.completed < value → (∀ x, GpuItem.signal x ∈ q → x < value) →
      ((g.run k).completed < value →
          (g.run k).waitFor value = some ⟨value, [], g.retired ++ executed q⟩) ∧
      (¬ (g.run k).completed < value → g.run k = ⟨value, [], g.retired ++ executed q⟩) := by
  induction k with
  | zero =>
      intro g q h hc hq
      refine ⟨fun _ => ?_, fun hn => absurd hc hn⟩
      simp only [Gpu.run, Gpu.waitFor, h]
      exact fireAt_drains value q g.completed g.retired hc hq
  | succ k ih =>
      intro g q h hc hq
      cases q with
      | nil =>
          have hs : g.step = ⟨value, [], g.retired⟩ := by simp [Gpu.step, h]
          have hr : g.run (k + 1) = ⟨value, [], g.retired⟩ := by
            simp [Gpu.run, hs, run_of_empty]
          refine ⟨fun hlt => ?_, fun _ => ?_⟩
          · rw [hr] at hlt; exact absurd hlt (Nat.lt_irrefl _)
          · simp [hr, executed]
      | cons item rest =>
          have hrest : ∀ x, GpuItem.signal x ∈ rest → x < value :=
            fun x hx => hq x (List.mem_cons_of_mem _ hx)
          cases item with
          | execute commands =>
              have hp : g.step.pending = rest ++ [GpuItem.signal value] := by simp [Gpu.step, h]
              have hcs : g.step.completed = g.completed := by simp [Gpu.step, h]
              have hrs : g.step.retired = g.retired ++ [commands] := by simp [Gpu.step, h]
              have := ih g.step rest hp (by rw [hcs]; exact hc) hrest
              simpa [Gpu.run, hrs, executed] using this
          | signal v =>
              have hp : g.step.pending = rest ++ [GpuItem.signal value] := by simp [Gpu.step, h]
              have hcs : g.step.completed = v := by simp [Gpu.step, h]
              have hrs : g.step.retired = g.retired := by simp [Gpu.step, h]
              have := ih g.step rest hp (by rw [hcs]; exact hq v (List.mem_cons_self _ _)) hrest
              simpa [Gpu.run, hrs, executed] using this

/-- A wait that follows the signal of the awaited value returns, however far
the GPU has got. -/
theorem afterSignal_wait_returns (value k : Nat) (g : Gpu) :
    (g.afterSignal value k).completed < value →
      ∃ g1, (g.afterSignal value k).waitFor value = some g1 := by
  intro hlt
  have h := run_keeps_last value k { g with pending := g.pending ++ [GpuItem.signal value] }
    g.pending rfl
  rcases h with ⟨q1, hq1⟩ | ⟨_, hc⟩
  · unfold Gpu.afterSignal at *
    unfold Gpu.waitFor
    rw [hq1]
    exact fireAt_returns value q1 _ _
  · unfold Gpu.afterSignal at hlt
    rw [hc] at hlt
    exact absurd hlt (Nat.lt_irrefl _)

/-- The device after the fence check that follows a signal. -/
theorem afterSignal_settles (value k : Nat) (g : Gpu) :
    ∃ g1, some g1 =
        (if (g.afterSignal value k).completed < value
          then (g.afterSignal value k).waitFor value
          else some (g.afterSignal value k)) ∧
      value ≤ g1.completed := by
  by_cases hlt : (g.afterSignal value k).completed < value
  · obtain ⟨g1, hg1⟩ := afterSignal_wait_returns value k g hlt
    refine ⟨g1, by simp [hlt, hg1], ?_⟩
    exact fireAt_reached value _ _ _ g1 hg1
  · exact ⟨_, by simp [hlt], Nat.not_lt.mp hlt⟩

/-! ## What the fence operations do -/

/-- Effect of `WaitForPreviousFrame` on every state: it returns, and its
result is the state with the counter incremented, the frame index
refreshed, the device settled and the calls appended. -/
theorem WaitForPreviousFrame_effect (k : Nat) (e : Engine) :
    ∃ g1, some g1 =
        (if (e.gpu.afterSignal e.m_fenceValue k).completed < e.m_fenceValue
          then (e.gpu.afterSignal e.m_fenceValue k).waitFor e.m_fenceValue
          else some (e.gpu.afterSignal e.m_fenceValue k)) ∧
      e.m_fenceValue ≤ g1.completed ∧
      WaitForPreviousFrame k e = Except.ok
        { e with
          m_fenceValue := (e.m_fenceValue + 1) % UINT64_RANGE
          m_frameIndex := e.swapChainIndex
          gpu := g1
          trace := e.trace ++
            [Call.Signal e.m_fenceValue,
             Call.GetCompletedValue (e.gpu.afterSignal e.m_fenceValue k).completed] ++
            waitCalls e.m_fenceValue (e.gpu.afterSignal e.m_fenceValue k).completed
              EventHandle.m_fenceEvent ++
            [Call.GetCurrentBackBufferIndex] } := by
  obtain ⟨g1, hg1, hreach⟩ := afterSignal_settles e.m_fenceValue k e.gpu
  refine ⟨g1, hg1, hreach, ?_⟩
  by_cases hlt : (e.gpu.afterSignal e.m_fenceValue k).completed < e.m_fenceValue
  · simp only [hlt, if_true] at hg1
    have hlt2 : (Gpu.run k { e.gpu with pending := e.gpu.pending ++ [GpuItem.signal e.m_fenceValue] }).completed
        < e.m_fenceValue := hlt
    have hg2 : (Gpu.run k { e.gpu with pending := e.gpu.pending ++ [GpuItem.signal e.m_fenceValue] }).waitFor
        e.m_fenceValue = some g1 := hg1.symm
    simp [WaitForPreviousFrame, Engine.signal, Engine.gpuProgress, Engine.log, Engine.waitOnEvent,
      waitCalls, Gpu.afterSignal, hlt2, hg2, bind, Except.bind, pure, Except.pure]
  · simp only [hlt, if_false] at hg1
    have hlt2 : ¬ (Gpu.run k { e.gpu with pending := e.gpu.pending ++ [GpuItem.signal e.m_fenceValue] }).completed
        < e.m_fenceValue := hlt
    have hg2 : g1 = Gpu.run k { e.gpu with pending := e.gpu.pending ++ [GpuItem.signal e.m_fenceValue] } :=
      Option.some.inj hg1
    simp [WaitForPreviousFrame, Engine.signal, Engine.gpuProgress, Engine.log,
      waitCalls, Gpu.afterSignal, hlt2, hg2, bind, Except.bind, pure, Except.pure]

/-- The device after the fence check when the signalled value lies above
everything the fence has seen: the queue is empty. -/
theorem afterSignal_settles_drained (value k : Nat) (g : Gpu) (h : g.below value) :
    (if (g.afterSignal value k).completed < value
      then (g.afterSignal value k).waitFor value
      else some (g.afterSignal value k))
      = some ⟨value, [], g.retired ++ executed g.pending⟩ := by
  have hd := run_then_wait_drains value k
    { g with pending := g.pending ++ [GpuItem.signal value] } g.pending rfl h.1 h.2
  by_cases hlt : (g.afterSignal value k).completed < value
  · simp only [hlt, if_true]
    exact hd.1 hlt
  · simp only [hlt, if_false]
    exact congrArg some (hd.2 hlt)

/-- Effect of `FlushCommandQueue` on every state. -/
theorem FlushCommandQueue_effect (k : Nat) (e : Engine) :
    ∃ g1, some g1 =
        (if (e.gpu.afterSignal ((e.m_fenceValue + 1) % UINT64_RANGE) k).completed
              < (e.m_fenceValue + 1) % UINT64_RANGE
          then (e.gpu.afterSignal ((e.m_fenceValue + 1) % UINT64_RANGE) k).waitFor
              ((e.m_fenceValue + 1) % UINT64_RANGE)
          else some (e.gpu.afterSignal ((e.m_fenceValue + 1) % UINT64_RANGE) k)) ∧
      (e.m_fenceValue + 1) % UINT64_RANGE ≤ g1.completed ∧
      FlushCommandQueue k e = Except.ok
        { e with
          m_fenceValue := (e.m_fenceValue + 1) % UINT64_RANGE
          gpu := g1
          trace := e.trace ++
            [Call.Signal ((e.m_fenceValue + 1) % UINT64_RANGE),
             Call.GetCompletedValue
               (e.gpu.afterSignal ((e.m_fenceValue + 1) % UINT64_RANGE) k).completed] ++
            flushCalls ((e.m_fenceValue + 1) % UINT64_RANGE)
              (e.gpu.afterSignal ((e.m_fenceValue + 1) % UINT64_RANGE) k).completed } := by
  generalize hv : (e.m_fenceValue + 1) % UINT64_RANGE = v
  obtain ⟨g1, hg1, hreach⟩ := afterSignal_settles v k e.gpu
  refine ⟨g1, hg1, hreach, ?_⟩
  by_cases hlt : (e.gpu.afterSignal v k).completed < v
  · simp only [hlt, if_true] at hg1
    have hlt2 : (Gpu.run k { e.gpu with pending := e.gpu.pending ++ [GpuItem.signal v] }).completed
        < v := hlt
    have hg2 : (Gpu.run k { e.gpu with pending := e.gpu.pending ++ [GpuItem.signal v] }).waitFor
        v = some g1 := hg1.symm
    simp [FlushCommandQueue, Engine.signal, Engine.gpuProgress, Engine.log, Engine.waitOnEvent,
      flushCalls, waitCalls, Gpu.afterSignal, hv, hlt2, hg2, bind, Except.bind, pure, Except.pure]
  · simp only [hlt, if_false] at hg1
    have hlt2 : ¬ (Gpu.run k { e.gpu with pending := e.gpu.pending ++ [GpuItem.signal v] }).completed
        < v := hlt
    have hg2 : g1 = Gpu.run k { e.gpu with pending := e.gpu.pending ++ [GpuItem.signal v] } :=
      Option.some.inj hg1
    simp [FlushCommandQueue, Engine.signal, Engine.gpuProgress, Engine.log,
      flushCalls, waitCalls, Gpu.afterSignal, hv, hlt2, hg2, bind, Except.bind, pure, Except.pure]

/-- Effect of `CreateAccelerationStructures` on every state: it returns (the
wait is for a value whose signal is queued), in the state the wait ends in. -/
theorem CreateAccelerationStructures_effect (p : Platform) (e : Engine) :
    ∃ g1,
      some g1 = Gpu.waitFor ((e.m_fenceValue + 1) % UINT64_RANGE)
        { e.gpu with pending := e.gpu.pending ++
            [GpuItem.execute (e.commandList ++ accelerationCommands p),
             GpuItem.signal ((e.m_fenceValue + 1) % UINT64_RANGE)] } ∧
      (e.m_fenceValue + 1) % UINT64_RANGE ≤ g1.completed ∧
      CreateAccelerationStructures p e = Except.ok
        { e with
          instanceCount := p.instanceCount
          m_topLevelASBuffers := some
            ⟨p.topLevelSizes.pScratch, p.topLevelSizes.pResult, p.topLevelSizes.pInstanceDesc⟩
          m_fenceValue := (e.m_fenceValue + 1) % UINT64_RANGE
          commandList := []
          recording := true
          gpu := g1
          trace := e.trace ++ [Call.create Object.m_scene] ++
            (GenerateAccelerationBuffersAllModels p).map Call.record ++
            [Call.AddAllInstancesToSBT, Call.ComputeASBufferSizes,
             Call.create (Object.scratchBuffer p.topLevelSizes.pScratch),
             Call.create (Object.resultBuffer p.topLevelSizes.pResult),
             Call.create (Object.instanceDescBuffer p.topLevelSizes.pInstanceDesc),
             Call.record (Cmd.BuildTopLevelAS
               ⟨p.topLevelSizes.pScratch, p.topLevelSizes.pResult, p.topLevelSizes.pInstanceDesc⟩),
             Call.ListClose, Call.ExecuteCommandLists,
             Call.Signal ((e.m_fenceValue + 1) % UINT64_RANGE),
             Call.SetEventOnCompletion ((e.m_fenceValue + 1) % UINT64_RANGE) EventHandle.m_fenceEvent,
             Call.WaitForSingleObject EventHandle.m_fenceEvent,
             Call.ListReset] } := by
  generalize hv : (e.m_fenceValue + 1) % UINT64_RANGE = v
  obtain ⟨g1, hg1⟩ := fireAt_returns v
    (e.gpu.pending ++ [GpuItem.execute (e.commandList ++ accelerationCommands p)])
    e.gpu.completed e.gpu.retired
  have hreach := fireAt_reached v _ _ _ g1 hg1
  simp only [List.append_assoc, List.singleton_append] at hg1
  refine ⟨g1, by simp [Gpu.waitFor, hg1], hreach, ?_⟩
  have hg2 : Gpu.waitFor v
      { e.gpu with pending := e.gpu.pending ++
          [GpuItem.execute (e.commandList ++ (GenerateAccelerationBuffersAllModels p ++
            [Cmd.BuildTopLevelAS
              ⟨p.topLevelSizes.pScratch, p.topLevelSizes.pResult, p.topLevelSizes.pInstanceDesc⟩])),
           GpuItem.signal v] } = some g1 := by
    simpa [Gpu.waitFor] using hg1
  simp [CreateAccelerationStructures, CreateTopLevelAS, Engine.signal, Engine.log,
    Engine.recordCmd, Engine.recordAll, Engine.listClose, Engine.listReset,
    Engine.executeCommandLists, Engine.waitOnEvent, accelerationCommands, hv, hg2,
    bind, Except.bind, pure, Except.pure]

/-- `WaitForPreviousFrame` when the value it signals lies above everything
the fence has seen: the queue is empty when it returns. -/
theorem WaitForPreviousFrame_drained (k : Nat) (e : Engine) (h : e.gpu.below e.m_fenceValue) :
    WaitForPreviousFrame k e = Except.ok
      { e with
        m_fenceValue := (e.m_fenceValue + 1) % UINT64_RANGE
        m_frameIndex := e.swapChainIndex
        gpu := ⟨e.m_fenceValue, [], e.gpu.retired ++ executed e.gpu.pending⟩
        trace := e.trace ++
          [Call.Signal e.m_fenceValue,
           Call.GetCompletedValue (e.gpu.afterSignal e.m_fenceValue k).completed] ++
          waitCalls e.m_fenceValue (e.gpu.afterSignal e.m_fenceValue k).completed
            EventHandle.m_fenceEvent ++
          [Call.GetCurrentBackBufferIndex] } := by
  obtain ⟨g1, hg1, _, heq⟩ := WaitForPreviousFrame_effect k e
  rw [afterSignal_settles_drained _ _ _ h] at hg1
  cases hg1
  exact heq

/-- `FlushCommandQueue` when the value it signals lies above everything the
fence has seen: the queue is empty when it returns. -/
theorem FlushCommandQueue_drained (k : Nat) (e : Engine)
    (h : e.gpu.below ((e.m_fenceValue + 1) % UINT64_RANGE)) :
    FlushCommandQueue k e = Except.ok
      { e with
        m_fenceValue := (e.m_fenceValue + 1) % UINT64_RANGE
        gpu := ⟨(e.m_fenceValue + 1) % UINT64_RANGE, [], e.gpu.retired ++ executed e.gpu.pending⟩
        trace := e.trace ++
          [Call.Signal ((e.m_fenceValue + 1) % UINT64_RANGE),
           Call.GetCompletedValue
             (e.gpu.afterSignal ((e.m_fenceValue + 1) % UINT64_RANGE) k).completed] ++
          flushCalls ((e.m_fenceValue + 1) % UINT64_RANGE)
            (e.gpu.afterSignal ((e.m_fenceValue + 1) % UINT64_RANGE) k).completed } := by
  obtain ⟨g1, hg1, _, heq⟩ := FlushCommandQueue_effect k e
  rw [afterSignal_settles_drained _ _ _ h] at hg1
  cases hg1
  exact heq

/-- The wait of `CreateAccelerationStructures` when the value it signals lies
above everything the fence has seen: it ends with the queue empty and the
build list executed. -/
theorem accelerationWait_drained (p : Platform) (e : Engine)
    (h : e.gpu.below ((e.m_fenceValue + 1) % UINT64_RANGE)) :
    Gpu.waitFor ((e.m_fenceValue + 1) % UINT64_RANGE)
        { e.gpu with pending := e.gpu.pending ++
            [GpuItem.execute (e.commandList ++ accelerationCommands p),
             GpuItem.signal ((e.m_fenceValue + 1) % UINT64_RANGE)] }
      = some ⟨(e.m_fenceValue + 1) % UINT64_RANGE, [],
          e.gpu.retired ++ executed e.gpu.pending ++ [e.commandList ++ accelerationCommands p]⟩ := by
  have hq : ∀ x, GpuItem.signal x ∈
      e.gpu.pending ++ [GpuItem.execute (e.commandList ++ accelerationCommands p)] →
      x < (e.m_fenceValue + 1) % UINT64_RANGE := by
    intro x hx
    rcases List.mem_append.mp hx with hx | hx
    · exact h.2 x hx
    · simp at hx
  have hd := fireAt_drains ((e.m_fenceValue + 1) % UINT64_RANGE)
    (e.gpu.pending ++ [GpuItem.execute (e.commandList ++ accelerationCommands p)])
    e.gpu.completed e.gpu.retired h.1 hq
  simpa [Gpu.waitFor, executed_append, executed] using hd

theorem signalled_append (s t : List Call) : signalled (s ++ t) = signalled s ++ signalled t := by
  induction s with
  | nil => rfl
  | cons c rest ih => cases c <;> simp [signalled, ih]

theorem recorded_append (s t : List Call) : recorded (s ++ t) = recorded s ++ recorded t := by
  induction s with
  | nil => rfl
  | cons c rest ih => cases c <;> simp [recorded, ih]

theorem recorded_map_record (cs : List Cmd) : recorded (cs.map Call.record) = cs := by
  induction cs with
  | nil => rfl
  | cons c rest ih => simp [recorded, ih]

theorem signalled_map_record (cs : List Cmd) : signalled (cs.map Call.record) = [] := by
  induction cs with
  | nil => rfl
  | cons c rest ih => simp [signalled, ih]

theorem signalled_waitCalls (value read : Nat) (event : EventHandle) :
    signalled (waitCalls value read event) = [] := by
  unfold waitCalls
  split <;> simp [signalled]

theorem signalled_flushCalls (value read : Nat) : signalled (flushCalls value read) = [] := by
  unfold flushCalls
  split <;> simp [signalled, signalled_append, signalled_waitCalls]

theorem recorded_waitCalls (value read : Nat) (event : EventHandle) :
    recorded (waitCalls value read event) = [] := by
  unfold waitCalls
  split <;> simp [recorded]

theorem LoadAssets_effect (k : Nat) (e : Engine) (h : e.gpu.pending = []) :
    ∃ e1, LoadAssets k e = Except.ok e1 ∧
      e1.gpu = ⟨1, [], e.gpu.retired⟩ ∧ e1.m_fenceValue = 2 ∧
      signalled e1.trace = signalled e.trace ++ [1] ∧
      e1.m_width = e.m_width ∧ e1.m_height = e.m_height ∧
      e1.m_isRasterizationActive = e.m_isRasterizationActive ∧
      e1.m_frameIndex = e.swapChainIndex ∧ e1.swapChainIndex = e.swapChainIndex ∧
      e1.commandList = [] ∧ recorded e1.trace = recorded e.trace := by
  unfold LoadAssets
  simp only [bind, Except.bind, pure, Except.pure]
  rw [WaitForPreviousFrame_drained]
  · refine ⟨_, rfl, ?_⟩
    simp [Engine.log, h, executed, signalled_append, signalled, signalled_waitCalls, UINT64_RANGE,
      recorded_append, recorded, recorded_waitCalls]
  · simp [Engine.log, Gpu.below, h]

theorem signalled_map_create (f : Nat → Object) (l : List Nat) :
    signalled (l.map fun n => Call.create (f n)) = [] := by
  induction l with
  | nil => rfl
  | cons c rest ih => simp [signalled, ih]

theorem recorded_map_create (f : Nat → Object) (l : List Nat) :
    recorded (l.map fun n => Call.create (f n)) = [] := by
  induction l with
  | nil => rfl
  | cons c rest ih => simp [recorded, ih]

theorem CreateShaderBindingTable_effect (p : Platform) (e : Engine) (a a0 a1 a2 : Nat)
    (rest : List Nat)
    (hs : p.sbtStorage = some a) (hb : e.m_perInstanceConstantBuffers = a0 :: a1 :: a2 :: rest)
    (hp : e.m_rtStateObjectProps = enginePipeline) :
    CreateShaderBindingTable p e = Except.ok
      { e with
        sbtSections := engineTable e.m_srvUavHeap a0 a1 a2
        m_sbtHelper := p.sbtHelper
        m_sbtStorage := a
        trace := e.trace ++
          [Call.SbtReset,
           Call.AddRayGenerationProgram ⟨ProgramName.RayGen, [e.m_srvUavHeap]⟩,
           Call.AddMissProgram ⟨ProgramName.Miss, []⟩,
           Call.AddHitGroup ⟨ProgramName.HitGroup, [a0]⟩,
           Call.AddHitGroup ⟨ProgramName.HitGroup, [a1]⟩,
           Call.AddHitGroup ⟨ProgramName.HitGroup, [a2]⟩,
           Call.AddHitGroup ⟨ProgramName.PlaneHitGroup, []⟩,
           Call.ComputeSBTSize,
           Call.create (Object.m_sbtStorage
             ((engineTable e.m_srvUavHeap a0 a1 a2).ComputeSBTSize p.sbtLayout % UINT32_RANGE)),
           Call.SbtGenerate a enginePipeline] } := by
  simp [CreateShaderBindingTable, addInstanceHitGroups, List.range, List.range.loop,
    Engine.sbtReset, Engine.sbtAddRayGenerationProgram, Engine.sbtAddMissProgram,
    Engine.sbtAddHitGroup, Engine.sbtComputeSBTSize, Engine.log,
    ShaderBindingTableGenerator.Reset,
    ShaderBindingTableGenerator.AddRayGenerationProgram,
    ShaderBindingTableGenerator.AddMissProgram, ShaderBindingTableGenerator.AddHitGroup,
    ShaderBindingTableGenerator.Generate, ShaderBindingTableGenerator.programNames,
    RayTracingPipeline.identifiers, enginePipeline, engineTable, hs, hb, hp,
    bind, Except.bind, pure, Except.pure]

theorem OnInit_effect (p : Platform) (k a : Nat) (hq : p.featureQueryOk = true)
    (ht : D3D12_RAYTRACING_TIER_1_0 ≤ p.RaytracingTier) (hs : p.sbtStorage = some a) :
    ∃ e, OnInit p k (construct p) = Except.ok e ∧
      e.m_width = p.width ∧ e.m_height = p.height ∧
      e.m_isRasterizationActive = p.rasterDefault ∧
      e.m_frameIndex = p.backBufferIndex ∧ e.swapChainIndex = p.backBufferIndex ∧
      e.m_fenceValue = 3 ∧ e.gpu = ⟨3, [], [accelerationCommands p]⟩ ∧
      signalled e.trace = [1, 3] ∧
      e.m_outputResource = some ⟨p.width, p.height, 1, ResourceState.COPY_SOURCE⟩ ∧
      e.m_sbtStorage = a ∧ e.m_sbtHelper = p.sbtHelper ∧
      e.instanceCount = p.instanceCount ∧ e.recording = false ∧
      recorded e.trace = accelerationCommands p ∧
      e.sbtSections = engineTable p.srvUavHeapStart (p.perInstanceAddresses.getD 0 0)
        (p.perInstanceAddresses.getD 1 0) (p.perInstanceAddresses.getD 2 0) ∧
      e.m_rtStateObjectProps = enginePipeline := by
  obtain ⟨e1, h1, hg, hf, hsig, hw, hh, hr, hfi, hsw, hcl, hrec⟩ :=
    LoadAssets_effect k (LoadPipeline (construct p)) (by simp [LoadPipeline, Engine.log, construct])
  have hc : CheckRaytracingSupport p e1 = Except.ok (e1.log Call.CheckFeatureSupport) := by
    simp [CheckRaytracingSupport, hq, Nat.not_lt.mpr ht]
  obtain ⟨g1, hg1, _, h2⟩ := CreateAccelerationStructures_effect p (e1.log Call.CheckFeatureSupport)
  have hb : (e1.log Call.CheckFeatureSupport).gpu.below
      (((e1.log Call.CheckFeatureSupport).m_fenceValue + 1) % UINT64_RANGE) := by
    simp [Engine.log, Gpu.below, hg, hf, UINT64_RANGE]
  rw [accelerationWait_drained p _ hb] at hg1
  cases hg1
  unfold OnInit
  simp only [bind, Except.bind, pure, Except.pure, h1, hc, h2]
  rw [CreateShaderBindingTable_effect p _ a (p.perInstanceAddresses.getD 0 0)
    (p.perInstanceAddresses.getD 1 0) (p.perInstanceAddresses.getD 2 0) [] hs
    (by simp [CreateShaderResourceHeap, Engine.writeView, CreateCameraBuffer, CreateRaytracingOutputBuffer,
      CreatePerInstanceConstantBuffers, Engine.log, List.range, List.range.loop])
    (by simp [CreateShaderResourceHeap, Engine.writeView, CreateCameraBuffer, CreateRaytracingOutputBuffer,
      CreatePerInstanceConstantBuffers, CreateRaytracingPipeline, Engine.log])]
  simp [Engine.log, Engine.listClose, CreateRaytracingPipeline,
    CreatePerInstanceConstantBuffers, CreateRaytracingOutputBuffer, CreateCameraBuffer,
    CreateShaderResourceHeap, Engine.writeView, UpdateCameraBuffer, GetWidth, GetHeight,
    hg, hf, hw, hh, hr, hfi, hsw, hcl, hsig, hrec, executed,
    signalled_append, signalled, signalled_map_record, signalled_map_create,
    recorded_append, recorded, recorded_map_record,
    recorded_map_create, accelerationCommands,
    UINT64_RANGE, LoadPipeline, construct]

theorem PopulateCommandList_effect (e : Engine) :
    PopulateCommandList e =
      { e with
        commandList := frameCommands e
        recording := false
        trace := e.trace ++ [Call.AllocatorReset, Call.ListReset] ++
          (frameCommands e).map Call.record ++ [Call.ListClose] } := by
  have hfc : frameCommands (e.log Call.AllocatorReset).listReset = frameCommands e := rfl
  simp only [PopulateCommandList, hfc]
  simp [Engine.log, Engine.listReset, Engine.listClose, Engine.recordAll]

theorem OnRender_effect (k : Nat) (e : Engine) :
    ∃ g1, some g1 =
        (if (((e.gpu.submit (frameCommands e)).afterSignal e.m_fenceValue k).completed < e.m_fenceValue)
          then ((e.gpu.submit (frameCommands e)).afterSignal e.m_fenceValue k).waitFor e.m_fenceValue
          else some ((e.gpu.submit (frameCommands e)).afterSignal e.m_fenceValue k)) ∧
      e.m_fenceValue ≤ g1.completed ∧
      OnRender k e = Except.ok
        { e with
          commandList := frameCommands e
          recording := false
          swapChainIndex := (e.swapChainIndex + 1) % FrameCount
          m_frameIndex := (e.swapChainIndex + 1) % FrameCount
          m_fenceValue := (e.m_fenceValue + 1) % UINT64_RANGE
          gpu := g1
          trace := e.trace ++ [Call.AllocatorReset, Call.ListReset] ++
            (frameCommands e).map Call.record ++
            [Call.ListClose, Call.ExecuteCommandLists, Call.Present,
             Call.Signal e.m_fenceValue,
             Call.GetCompletedValue
               ((e.gpu.submit (frameCommands e)).afterSignal e.m_fenceValue k).completed] ++
            waitCalls e.m_fenceValue
              ((e.gpu.submit (frameCommands e)).afterSignal e.m_fenceValue k).completed
              EventHandle.m_fenceEvent ++
            [Call.GetCurrentBackBufferIndex] } := by
  obtain ⟨g1, hg1, hreach, heq⟩ := WaitForPreviousFrame_effect k
    ((PopulateCommandList e).executeCommandLists.present)
  rw [PopulateCommandList_effect] at hg1 hreach heq
  refine ⟨g1, ?_, ?_, ?_⟩
  · simpa [Engine.executeCommandLists, Engine.present, Gpu.submit] using hg1
  · simpa [Engine.executeCommandLists, Engine.present] using hreach
  · unfold OnRender
    rw [PopulateCommandList_effect, heq]
    simp [Engine.executeCommandLists, Engine.present, Gpu.submit]


/-! ## The claims -/

/-- C1 (evaluation of the code where the claim fails): on every machine
with ray-tracing support and at every GPU speed, `OnInit` followed by the
first `OnRender` passes the values 1, 3, 3 to `Signal`:
`CreateAccelerationStructures` increments before it signals and leaves
`m_fenceValue` at the value it signalled, `WaitForPreviousFrame` signals
`m_fenceValue` before it increments, so the value 3 is signalled twice and
the sequence is not strictly increasing. -/
theorem first_render_repeats_fence_value (p : Platform) (k0 k a : Nat)
    (hq : p.featureQueryOk = true) (ht : D3D12_RAYTRACING_TIER_1_0 ≤ p.RaytracingTier)
    (hs : p.sbtStorage = some a) :
    ∃ e0 e1, OnInit p k0 (construct p) = Except.ok e0 ∧ OnRender k e0 = Except.ok e1 ∧
      signalled e1.trace = [1, 3, 3] ∧ ¬ List.Pairwise (· < ·) (signalled e1.trace) := by
  obtain ⟨e0, h0, _, _, _, _, _, hf, _, hsig, _⟩ := OnInit_effect p k0 a hq ht hs
  obtain ⟨g1, _, _, h1⟩ := OnRender_effect k e0
  refine ⟨e0, _, h0, h1, ?_⟩
  have hs1 : signalled (e0.trace ++ [Call.AllocatorReset, Call.ListReset] ++
      (frameCommands e0).map Call.record ++
      [Call.ListClose, Call.ExecuteCommandLists, Call.Present, Call.Signal e0.m_fenceValue,
       Call.GetCompletedValue
         ((e0.gpu.submit (frameCommands e0)).afterSignal e0.m_fenceValue k).completed] ++
      waitCalls e0.m_fenceValue
        ((e0.gpu.submit (frameCommands e0)).afterSignal e0.m_fenceValue k).completed
        EventHandle.m_fenceEvent ++
      [Call.GetCurrentBackBufferIndex]) = [1, 3, 3] := by
    simp [signalled_append, signalled, signalled_map_record, signalled_waitCalls, hsig, hf]
  exact ⟨hs1, by rw [hs1]; decide⟩

/-- C1, on the sample machine with a GPU that retires nothing by itself. -/
theorem first_render_repeats_fence_value_witness :
    ∃ e0 e1, OnInit samplePlatform 0 (construct samplePlatform) = Except.ok e0 ∧
      OnRender 0 e0 = Except.ok e1 ∧
      signalled e1.trace = [1, 3, 3] ∧ ¬ List.Pairwise (· < ·) (signalled e1.trace) :=
  first_render_repeats_fence_value samplePlatform 0 0 65536 rfl (by decide) rfl


/-- C2 (evaluation of the code where the claim fails): on every machine with
ray-tracing support, when the GPU retires nothing between the submission and
the fence read, the first `OnRender` after `OnInit` returns without a wait
(the fence already holds 3, the value it signals) while the command list it
submitted is still in the queue; the next `PopulateCommandList` then resets
the command allocator with that list pending. -/
theorem first_frame_not_awaited (p : Platform) (k0 a : Nat)
    (hq : p.featureQueryOk = true) (ht : D3D12_RAYTRACING_TIER_1_0 ≤ p.RaytracingTier)
    (hs : p.sbtStorage = some a) :
    ∃ e0 e1, OnInit p k0 (construct p) = Except.ok e0 ∧ OnRender 0 e0 = Except.ok e1 ∧
      e1.gpu.completed = 3 ∧
      e1.gpu.pending = [GpuItem.execute (frameCommands e0), GpuItem.signal 3] ∧
      e1.gpu.busy = true ∧
      e1.trace = e0.trace ++ [Call.AllocatorReset, Call.ListReset] ++
        (frameCommands e0).map Call.record ++
        [Call.ListClose, Call.ExecuteCommandLists, Call.Present, Call.Signal 3,
         Call.GetCompletedValue 3, Call.GetCurrentBackBufferIndex] ∧
      (PopulateCommandList e1).gpu.busy = true := by
  obtain ⟨e0, h0, _, _, _, _, _, hf, hg, _⟩ := OnInit_effect p k0 a hq ht hs
  obtain ⟨g1, hg1, _, h1⟩ := OnRender_effect 0 e0
  have hread : (e0.gpu.submit (frameCommands e0)).afterSignal e0.m_fenceValue 0
      = ⟨3, [GpuItem.execute (frameCommands e0), GpuItem.signal 3], [accelerationCommands p]⟩ := by
    simp [Gpu.afterSignal, Gpu.submit, Gpu.run, hg, hf]
  rw [hread] at hg1 h1
  simp only [hf, Nat.lt_irrefl, if_false] at hg1
  cases hg1
  refine ⟨e0, _, h0, h1, ?_⟩
  simp [hf, waitCalls, Gpu.busy, PopulateCommandList_effect]

/-- C2, on the sample machine. -/
theorem first_frame_not_awaited_witness :
    ∃ e0 e1, OnInit samplePlatform 0 (construct samplePlatform) = Except.ok e0 ∧
      OnRender 0 e0 = Except.ok e1 ∧ e1.gpu.busy = true ∧
      (PopulateCommandList e1).gpu.busy = true := by
  obtain ⟨e0, e1, h0, h1, _, _, hb, _, hb2⟩ :=
    first_frame_not_awaited samplePlatform 0 65536 rfl (by decide) rfl
  exact ⟨e0, e1, h0, h1, hb, hb2⟩

/-- C3: for every state and every GPU speed, `WaitForPreviousFrame` and
`FlushCommandQueue` return; after the signal they read the fence, and if its
value is at least the value just signalled they make no further fence call
and leave the device as it is, otherwise they register an event for exactly
the signalled value and resume in the state in which that event fires
(`waitCalls`, `Gpu.waitFor`).  Either way the fence value is at least the
signalled value on return. -/
theorem fence_wait_contract (k : Nat) (e : Engine) :
    (∃ e1, WaitForPreviousFrame k e = Except.ok e1 ∧
      e1.trace = e.trace ++
        [Call.Signal e.m_fenceValue,
         Call.GetCompletedValue (e.gpu.afterSignal e.m_fenceValue k).completed] ++
        (if (e.gpu.afterSignal e.m_fenceValue k).completed < e.m_fenceValue then
          [Call.SetEventOnCompletion e.m_fenceValue EventHandle.m_fenceEvent,
           Call.WaitForSingleObject EventHandle.m_fenceEvent]
         else []) ++
        [Call.GetCurrentBackBufferIndex] ∧
      some e1.gpu =
        (if (e.gpu.afterSignal e.m_fenceValue k).completed < e.m_fenceValue
          then (e.gpu.afterSignal e.m_fenceValue k).waitFor e.m_fenceValue
          else some (e.gpu.afterSignal e.m_fenceValue k)) ∧
      e.m_fenceValue ≤ e1.gpu.completed) ∧
    (∃ e1, FlushCommandQueue k e = Except.ok e1 ∧
      e1.trace = e.trace ++
        [Call.Signal e1.m_fenceValue,
         Call.GetCompletedValue (e.gpu.afterSignal e1.m_fenceValue k).completed] ++
        (if (e.gpu.afterSignal e1.m_fenceValue k).completed < e1.m_fenceValue then
          [Call.CreateEventEx,
           Call.SetEventOnCompletion e1.m_fenceValue EventHandle.eventHandle,
           Call.WaitForSingleObject EventHandle.eventHandle,
           Call.CloseHandle EventHandle.eventHandle]
         else []) ∧
      some e1.gpu =
        (if (e.gpu.afterSignal e1.m_fenceValue k).completed < e1.m_fenceValue
          then (e.gpu.afterSignal e1.m_fenceValue k).waitFor e1.m_fenceValue
          else some (e.gpu.afterSignal e1.m_fenceValue k)) ∧
      e1.m_fenceValue ≤ e1.gpu.completed) := by
  constructor
  · obtain ⟨g1, hg1, hreach, heq⟩ := WaitForPreviousFrame_effect k e
    refine ⟨_, heq, ?_, hg1, hreach⟩
    simp only [waitCalls]
  · obtain ⟨g1, hg1, hreach, heq⟩ := FlushCommandQueue_effect k e
    refine ⟨_, heq, ?_, hg1, hreach⟩
    simp only [flushCalls, waitCalls]
    split <;> simp


/-- C4 (counterexample): in the state `OnInit` leaves on the sample machine
the counter is 3; `WaitForPreviousFrame` signals 3, not 4, and the counter is
4 afterwards, not the signalled value. -/
theorem WaitForPreviousFrame_signals_before_increment :
    ∃ e0 e1, OnInit samplePlatform 0 (construct samplePlatform) = Except.ok e0 ∧
      WaitForPreviousFrame 0 e0 = Except.ok e1 ∧
      e0.m_fenceValue = 3 ∧
      signalled e1.trace = signalled e0.trace ++ [3] ∧
      e1.m_fenceValue = 4 ∧
      signalled e1.trace ≠ signalled e0.trace ++ [e0.m_fenceValue + 1] ∧
      e1.m_fenceValue ≠ 3 := by
  obtain ⟨e0, h0, _, _, _, _, _, hf, _, _⟩ :=
    OnInit_effect samplePlatform 0 65536 rfl (by decide) rfl
  obtain ⟨g1, _, _, h1⟩ := WaitForPreviousFrame_effect 0 e0
  refine ⟨e0, _, h0, h1, hf, ?_, ?_, ?_, ?_⟩
  · simp [signalled_append, signalled, signalled_waitCalls, hf]
  · simp [hf, UINT64_RANGE]
  · simp [signalled_append, signalled, signalled_waitCalls, hf]
  · simp [hf, UINT64_RANGE]

/-- C4 (amended): for every state, `FlushCommandQueue` and
`CreateAccelerationStructures` return having signalled exactly one value,
the counter plus one (as a `UINT64`), which is the counter's value
afterwards; `WaitForPreviousFrame` returns having signalled exactly one
value, the counter's value at entry, and the counter is that value plus one
(as a `UINT64`) afterwards. -/
theorem fence_signal_and_increment (p : Platform) (k : Nat) (e : Engine) :
    (∃ e1, FlushCommandQueue k e = Except.ok e1 ∧
      signalled e1.trace = signalled e.trace ++ [(e.m_fenceValue + 1) % UINT64_RANGE] ∧
      e1.m_fenceValue = (e.m_fenceValue + 1) % UINT64_RANGE) ∧
    (∃ e1, CreateAccelerationStructures p e = Except.ok e1 ∧
      signalled e1.trace = signalled e.trace ++ [(e.m_fenceValue + 1) % UINT64_RANGE] ∧
      e1.m_fenceValue = (e.m_fenceValue + 1) % UINT64_RANGE) ∧
    (∃ e1, WaitForPreviousFrame k e = Except.ok e1 ∧
      signalled e1.trace = signalled e.trace ++ [e.m_fenceValue] ∧
      e1.m_fenceValue = (e.m_fenceValue + 1) % UINT64_RANGE) := by
  refine ⟨?_, ?_, ?_⟩
  · obtain ⟨g1, _, _, h1⟩ := FlushCommandQueue_effect k e
    exact ⟨_, h1, by simp [signalled_append, signalled, signalled_flushCalls], rfl⟩
  · obtain ⟨g1, _, _, h1⟩ := CreateAccelerationStructures_effect p e
    exact ⟨_, h1, by simp [signalled_append, signalled, signalled_map_record], rfl⟩
  · obtain ⟨g1, _, _, h1⟩ := WaitForPreviousFrame_effect k e
    exact ⟨_, h1, by simp [signalled_append, signalled, signalled_waitCalls], rfl⟩

/-- C5: for every state and GPU speed `FlushCommandQueue` returns; it signals
the incremented counter and the only event it registers is for that same
value; and when that value lies above the fence's value and above every
value whose signal is still queued, the queue is empty on return: every
command list submitted before the call has been executed. -/
theorem FlushCommandQueue_signal_then_wait (k : Nat) (e : Engine) :
    ∃ e1, FlushCommandQueue k e = Except.ok e1 ∧
      e1.m_fenceValue = (e.m_fenceValue + 1) % UINT64_RANGE ∧
      e1.trace = e.trace ++
        [Call.Signal e1.m_fenceValue,
         Call.GetCompletedValue (e.gpu.afterSignal e1.m_fenceValue k).completed] ++
        flushCalls e1.m_fenceValue (e.gpu.afterSignal e1.m_fenceValue k).completed ∧
      (∀ x event, Call.SetEventOnCompletion x event ∈
          flushCalls e1.m_fenceValue (e.gpu.afterSignal e1.m_fenceValue k).completed →
        x = e1.m_fenceValue) ∧
      (e.gpu.below e1.m_fenceValue →
        e1.gpu.completed = e1.m_fenceValue ∧ e1.gpu.pending = [] ∧ e1.gpu.busy = false ∧
        e1.gpu.retired = e.gpu.retired ++ executed e.gpu.pending) := by
  obtain ⟨g1, hg1, _, h1⟩ := FlushCommandQueue_effect k e
  refine ⟨_, h1, rfl, rfl, ?_, ?_⟩
  · intro x event hx
    simp only [flushCalls, waitCalls] at hx
    split at hx
    · simp at hx; exact hx.1
    · simp at hx
  · intro hb
    have hb1 : e.gpu.below ((e.m_fenceValue + 1) % UINT64_RANGE) := hb
    rw [afterSignal_settles_drained _ _ _ hb1] at hg1
    cases hg1
    simp [Gpu.busy]

/-- C5, on a state with a command list and a signal of 3 in the queue and the
counter at 4: the flush signals 5 and returns with the queue empty. -/
theorem FlushCommandQueue_signal_then_wait_witness :
    stalledEngine.gpu.below 5 ∧
    ∃ e1, FlushCommandQueue 0 stalledEngine = Except.ok e1 ∧ e1.m_fenceValue = 5 ∧
      e1.gpu.pending = [] ∧ e1.gpu.retired = [[Cmd.SetPipelineState1]] := by
  have hb : stalledEngine.gpu.below 5 := by
    simp [Gpu.below, stalledEngine, construct]
  obtain ⟨e1, h1, hf, _, _, hd⟩ := FlushCommandQueue_signal_then_wait 0 stalledEngine
  have hf5 : e1.m_fenceValue = 5 := by rw [hf]; decide
  rw [hf5] at hd
  obtain ⟨_, hp, _, hr⟩ := hd hb
  exact ⟨hb, e1, h1, hf5, hp, by rw [hr]; decide⟩


/-- C6: on every machine with ray-tracing support, `OnInit` reaches
`CreateAccelerationStructures` in a state in which every value signalled so
far is below 3; the function records the builds, closes and submits the
list, signals 3, registers `m_fenceEvent` for 3, waits, and only then resets
the list; when it returns the queue is empty and the list with the builds has
been executed.  `OnInit` returns in that same device state, and no ray
dispatch has been recorded until then. -/
theorem acceleration_build_retired (p : Platform) (k0 a : Nat)
    (hq : p.featureQueryOk = true) (ht : D3D12_RAYTRACING_TIER_1_0 ≤ p.RaytracingTier)
    (hs : p.sbtStorage = some a) :
    ∃ e0 e e1 e2,
      LoadAssets k0 (LoadPipeline (construct p)) = Except.ok e0 ∧
      CheckRaytracingSupport p e0 = Except.ok e ∧
      CreateAccelerationStructures p e = Except.ok e1 ∧
      OnInit p k0 (construct p) = Except.ok e2 ∧
      e1.trace = e.trace ++ [Call.create Object.m_scene] ++
        (GenerateAccelerationBuffersAllModels p).map Call.record ++
        [Call.AddAllInstancesToSBT, Call.ComputeASBufferSizes,
         Call.create (Object.scratchBuffer p.topLevelSizes.pScratch),
         Call.create (Object.resultBuffer p.topLevelSizes.pResult),
         Call.create (Object.instanceDescBuffer p.topLevelSizes.pInstanceDesc),
         Call.record (Cmd.BuildTopLevelAS
           ⟨p.topLevelSizes.pScratch, p.topLevelSizes.pResult, p.topLevelSizes.pInstanceDesc⟩),
         Call.ListClose, Call.ExecuteCommandLists,
         Call.Signal 3,
         Call.SetEventOnCompletion 3 EventHandle.m_fenceEvent,
         Call.WaitForSingleObject EventHandle.m_fenceEvent,
         Call.ListReset] ∧
      (∀ x ∈ signalled e.trace, x < 3) ∧
      e1.gpu = ⟨3, [], [accelerationCommands p]⟩ ∧
      e2.gpu = ⟨3, [], [accelerationCommands p]⟩ ∧
      (∀ d, Cmd.DispatchRays d ∉ recorded e2.trace) := by
  obtain ⟨e0, h0, hg, hf, hsig, _, _, _, _, _, hcl, _⟩ :=
    LoadAssets_effect k0 (LoadPipeline (construct p)) (by simp [LoadPipeline, Engine.log, construct])
  have hc : CheckRaytracingSupport p e0 = Except.ok (e0.log Call.CheckFeatureSupport) := by
    simp [CheckRaytracingSupport, hq, Nat.not_lt.mpr ht]
  obtain ⟨g1, hg1, _, h1⟩ := CreateAccelerationStructures_effect p (e0.log Call.CheckFeatureSupport)
  have hb : (e0.log Call.CheckFeatureSupport).gpu.below
      (((e0.log Call.CheckFeatureSupport).m_fenceValue + 1) % UINT64_RANGE) := by
    simp [Engine.log, Gpu.below, hg, hf, UINT64_RANGE]
  rw [accelerationWait_drained p _ hb] at hg1
  cases hg1
  obtain ⟨e2, h2, _, _, _, _, _, _, hg2, _, _, _, _, _, _, hrec, _⟩ :=
    OnInit_effect p k0 a hq ht hs
  refine ⟨e0, _, _, e2, h0, hc, h1, h2, ?_, ?_, ?_, hg2, ?_⟩
  · simp [Engine.log, hf, UINT64_RANGE]
  · intro x hx
    have : signalled (e0.log Call.CheckFeatureSupport).trace = [1] := by
      simp [Engine.log, signalled_append, signalled, hsig, LoadPipeline, construct,
        signalled_map_create]
    rw [this] at hx
    simp at hx
    omega
  · simp [Engine.log, hg, hf, hcl, executed, UINT64_RANGE, LoadPipeline, construct]
  · intro d hd
    rw [hrec] at hd
    simp [accelerationCommands, GenerateAccelerationBuffersAllModels] at hd

/-- C6, on the sample machine. -/
theorem acceleration_build_retired_witness :
    ∃ e2, OnInit samplePlatform 0 (construct samplePlatform) = Except.ok e2 ∧
      e2.gpu = ⟨3, [], [accelerationCommands samplePlatform]⟩ := by
  obtain ⟨_, _, _, e2, _, _, _, h2, _, _, _, hg2, _⟩ :=
    acceleration_build_retired samplePlatform 0 65536 rfl (by decide) rfl
  exact ⟨e2, h2, hg2⟩


theorem count_execute_map_record (cs : List Cmd) :
    List.count Call.ExecuteCommandLists (cs.map Call.record) = 0 := by
  induction cs with
  | nil => rfl
  | cons c rest ih => simp [List.count_cons, ih]

theorem count_execute_waitCalls (value read : Nat) (event : EventHandle) :
    List.count Call.ExecuteCommandLists (waitCalls value read event) = 0 := by
  unfold waitCalls
  split <;> simp [List.count_cons]

/-- C7: for every state (so on the raster and on the ray-traced path) and
every GPU speed, `OnRender` returns and the calls it makes are, in this
order: allocator reset, list reset, the recording of the frame's commands,
`Close`, `ExecuteCommandLists`, `Present`, `Signal`, and then the fence wait
of `WaitForPreviousFrame` (the read of the fence, the event registration and
wait when the value has not been reached, the back-buffer query).  No command
is recorded after `Close`, and `ExecuteCommandLists` is called once; the list
submitted holds the frame's commands. -/
theorem OnRender_step_order (k : Nat) (e : Engine) :
    ∃ e1 tail, OnRender k e = Except.ok e1 ∧
      e1.trace = e.trace ++ [Call.AllocatorReset, Call.ListReset] ++
        (frameCommands e).map Call.record ++
        [Call.ListClose, Call.ExecuteCommandLists, Call.Present, Call.Signal e.m_fenceValue] ++
        tail ∧
      tail =
        [Call.GetCompletedValue
          ((e.gpu.submit (frameCommands e)).afterSignal e.m_fenceValue k).completed] ++
        waitCalls e.m_fenceValue
          ((e.gpu.submit (frameCommands e)).afterSignal e.m_fenceValue k).completed
          EventHandle.m_fenceEvent ++
        [Call.GetCurrentBackBufferIndex] ∧
      recorded tail = [] ∧
      List.count Call.ExecuteCommandLists
        ([Call.AllocatorReset, Call.ListReset] ++ (frameCommands e).map Call.record ++
          [Call.ListClose, Call.ExecuteCommandLists, Call.Present, Call.Signal e.m_fenceValue] ++
          tail) = 1 ∧
      e1.commandList = frameCommands e ∧
      frameCommands e =
        [ Cmd.SetGraphicsRootSignature, Cmd.RSSetViewports, Cmd.RSSetScissorRects,
          Cmd.ResourceBarrier (Resource.m_renderTargets e.m_frameIndex)
            ResourceState.PRESENT ResourceState.RENDER_TARGET,
          Cmd.OMSetRenderTargets e.m_frameIndex ]
        ++ (if e.m_isRasterizationActive then rasterCommands e else raytraceCommands e)
        ++ [ Cmd.ResourceBarrier (Resource.m_renderTargets e.m_frameIndex)
              ResourceState.RENDER_TARGET ResourceState.PRESENT ] := by
  obtain ⟨g1, _, _, h1⟩ := OnRender_effect k e
  refine ⟨_, _, h1, ?_, rfl, ?_, ?_, rfl, rfl⟩
  · simp
  · simp [recorded_append, recorded, recorded_waitCalls]
  · simp [List.count_append, List.count_cons, count_execute_map_record, count_execute_waitCalls]


/-- Every sequence of lifecycle operations returns, and none of them touches
the window size, the output image or the shader binding table. -/
theorem runOps_effect (ops : List Op) :
    ∀ e0 : Engine, ∃ e, runOps ops e0 = Except.ok e ∧
      e.m_width = e0.m_width ∧ e.m_height = e0.m_height ∧
      e.m_outputResource = e0.m_outputResource ∧
      e.m_sbtStorage = e0.m_sbtStorage ∧ e.m_sbtHelper = e0.m_sbtHelper := by
  induction ops with
  | nil => intro e0; exact ⟨e0, rfl, rfl, rfl, rfl, rfl, rfl⟩
  | cons op rest ih =>
      intro e0
      cases op with
      | render k =>
          obtain ⟨g1, _, _, h1⟩ := OnRender_effect k e0
          obtain ⟨e, he, hw, hh, ho, hs, hp⟩ := ih
            { e0 with
              commandList := frameCommands e0
              recording := false
              swapChainIndex := (e0.swapChainIndex + 1) % FrameCount
              m_frameIndex := (e0.swapChainIndex + 1) % FrameCount
              m_fenceValue := (e0.m_fenceValue + 1) % UINT64_RANGE
              gpu := g1
              trace := e0.trace ++ [Call.AllocatorReset, Call.ListReset] ++
                (frameCommands e0).map Call.record ++
                [Call.ListClose, Call.ExecuteCommandLists, Call.Present,
                 Call.Signal e0.m_fenceValue,
                 Call.GetCompletedValue
                   ((e0.gpu.submit (frameCommands e0)).afterSignal e0.m_fenceValue k).completed] ++
                waitCalls e0.m_fenceValue
                  ((e0.gpu.submit (frameCommands e0)).afterSignal e0.m_fenceValue k).completed
                  EventHandle.m_fenceEvent ++
                [Call.GetCurrentBackBufferIndex] }
          exact ⟨e, by simp only [runOps, Op.apply, h1]; exact he, hw, hh, ho, hs, hp⟩
      | flush k =>
          obtain ⟨g1, _, _, h1⟩ := FlushCommandQueue_effect k e0
          obtain ⟨e, he, hw, hh, ho, hs, hp⟩ := ih
            { e0 with
              m_fenceValue := (e0.m_fenceValue + 1) % UINT64_RANGE
              gpu := g1
              trace := e0.trace ++
                [Call.Signal ((e0.m_fenceValue + 1) % UINT64_RANGE),
                 Call.GetCompletedValue
                   (e0.gpu.afterSignal ((e0.m_fenceValue + 1) % UINT64_RANGE) k).completed] ++
                flushCalls ((e0.m_fenceValue + 1) % UINT64_RANGE)
                  (e0.gpu.afterSignal ((e0.m_fenceValue + 1) % UINT64_RANGE) k).completed }
          exact ⟨e, by simp only [runOps, Op.apply, h1]; exact he, hw, hh, ho, hs, hp⟩
      | keyUp isSpace =>
          obtain ⟨e, he, hw, hh, ho, hs, hp⟩ := ih (OnKeyUp isSpace e0)
          refine ⟨e, by simp only [runOps, Op.apply]; exact he, ?_, ?_, ?_, ?_, ?_⟩
          · rw [hw]; unfold OnKeyUp; split <;> rfl
          · rw [hh]; unfold OnKeyUp; split <;> rfl
          · rw [ho]; unfold OnKeyUp; split <;> rfl
          · rw [hs]; unfold OnKeyUp; split <;> rfl
          · rw [hp]; unfold OnKeyUp; split <;> rfl

/-- C8: on the ray-traced path the commands `PopulateCommandList` records
are the fourteen listed; among them, in this order, the binding of the
shader-visible heap, the transition of the output image to unordered access,
`DispatchRays`, the transition of the output image to copy source, the copy
of the output image into the current back buffer and the transition of the
back buffer to the present state; that transition is the last command, and
the only call after its recording is `Close`. -/
theorem raytrace_recording_order (e : Engine) (h : e.m_isRasterizationActive = false) :
    (PopulateCommandList e).commandList =
      [ Cmd.SetGraphicsRootSignature, Cmd.RSSetViewports, Cmd.RSSetScissorRects,
        Cmd.ResourceBarrier (Resource.m_renderTargets e.m_frameIndex)
          ResourceState.PRESENT ResourceState.RENDER_TARGET,
        Cmd.OMSetRenderTargets e.m_frameIndex,
        Cmd.SetDescriptorHeaps DescriptorHeap.m_srvUavHeap,
        Cmd.ResourceBarrier Resource.m_outputResource
          ResourceState.COPY_SOURCE ResourceState.UNORDERED_ACCESS,
        Cmd.SetPipelineState1,
        Cmd.DispatchRays (dispatchRaysDesc e),
        Cmd.ResourceBarrier Resource.m_outputResource
          ResourceState.UNORDERED_ACCESS ResourceState.COPY_SOURCE,
        Cmd.ResourceBarrier (Resource.m_renderTargets e.m_frameIndex)
          ResourceState.RENDER_TARGET ResourceState.COPY_DEST,
        Cmd.CopyResource (Resource.m_renderTargets e.m_frameIndex) Resource.m_outputResource,
        Cmd.ResourceBarrier (Resource.m_renderTargets e.m_frameIndex)
          ResourceState.COPY_DEST ResourceState.RENDER_TARGET,
        Cmd.ResourceBarrier (Resource.m_renderTargets e.m_frameIndex)
          ResourceState.RENDER_TARGET ResourceState.PRESENT ] ∧
    List.Sublist
      [ Cmd.SetDescriptorHeaps DescriptorHeap.m_srvUavHeap,
        Cmd.ResourceBarrier Resource.m_outputResource
          ResourceState.COPY_SOURCE ResourceState.UNORDERED_ACCESS,
        Cmd.DispatchRays (dispatchRaysDesc e),
        Cmd.ResourceBarrier Resource.m_outputResource
          ResourceState.UNORDERED_ACCESS ResourceState.COPY_SOURCE,
        Cmd.CopyResource (Resource.m_renderTargets e.m_frameIndex) Resource.m_outputResource,
        Cmd.ResourceBarrier (Resource.m_renderTargets e.m_frameIndex)
          ResourceState.RENDER_TARGET ResourceState.PRESENT ]
      (PopulateCommandList e).commandList ∧
    (PopulateCommandList e).commandList.getLast? =
      some (Cmd.ResourceBarrier (Resource.m_renderTargets e.m_frameIndex)
        ResourceState.RENDER_TARGET ResourceState.PRESENT) ∧
    (PopulateCommandList e).trace =
      e.trace ++ [Call.AllocatorReset, Call.ListReset] ++
        ((PopulateCommandList e).commandList.dropLast).map Call.record ++
        [Call.record (Cmd.ResourceBarrier (Resource.m_renderTargets e.m_frameIndex)
          ResourceState.RENDER_TARGET ResourceState.PRESENT),
         Call.ListClose] := by
  have hl : (PopulateCommandList e).commandList = frameCommands e := by
    rw [PopulateCommandList_effect]
  have hf : frameCommands e =
      [ Cmd.SetGraphicsRootSignature, Cmd.RSSetViewports, Cmd.RSSetScissorRects,
        Cmd.ResourceBarrier (Resource.m_renderTargets e.m_frameIndex)
          ResourceState.PRESENT ResourceState.RENDER_TARGET,
        Cmd.OMSetRenderTargets e.m_frameIndex,
        Cmd.SetDescriptorHeaps DescriptorHeap.m_srvUavHeap,
        Cmd.ResourceBarrier Resource.m_outputResource
          ResourceState.COPY_SOURCE ResourceState.UNORDERED_ACCESS,
        Cmd.SetPipelineState1,
        Cmd.DispatchRays (dispatchRaysDesc e),
        Cmd.ResourceBarrier Resource.m_outputResource
          ResourceState.UNORDERED_ACCESS ResourceState.COPY_SOURCE,
        Cmd.ResourceBarrier (Resource.m_renderTargets e.m_frameIndex)
          ResourceState.RENDER_TARGET ResourceState.COPY_DEST,
        Cmd.CopyResource (Resource.m_renderTargets e.m_frameIndex) Resource.m_outputResource,
        Cmd.ResourceBarrier (Resource.m_renderTargets e.m_frameIndex)
          ResourceState.COPY_DEST ResourceState.RENDER_TARGET,
        Cmd.ResourceBarrier (Resource.m_renderTargets e.m_frameIndex)
          ResourceState.RENDER_TARGET ResourceState.PRESENT ] := by
    simp [frameCommands, raytraceCommands, h]
  rw [hl, hf]
  refine ⟨rfl, ?_, rfl, ?_⟩
  · exact
      (List.Sublist.cons _ <| List.Sublist.cons _ <| List.Sublist.cons _ <|
        List.Sublist.cons _ <| List.Sublist.cons _ <|
        List.Sublist.cons₂ _ <| List.Sublist.cons₂ _ <| List.Sublist.cons _ <|
        List.Sublist.cons₂ _ <| List.Sublist.cons₂ _ <| List.Sublist.cons _ <|
        List.Sublist.cons₂ _ <| List.Sublist.cons _ <| List.Sublist.cons₂ _ <|
        List.Sublist.slnil)
  · rw [PopulateCommandList_effect, hf]
    simp

/-- C8, on the freshly constructed engine of the sample machine, whose
default path is the ray-traced one. -/
theorem raytrace_recording_order_witness :
    (construct samplePlatform).m_isRasterizationActive = false ∧
    (PopulateCommandList (construct samplePlatform)).commandList.getLast? =
      some (Cmd.ResourceBarrier (Resource.m_renderTargets 0)
        ResourceState.RENDER_TARGET ResourceState.PRESENT) :=
  ⟨rfl, (raytrace_recording_order (construct samplePlatform) rfl).2.2.1⟩


/-- C9: for every window size, on every machine on which `OnInit` gets
through and after every sequence of frames, flushes and key presses, the
output texture that `CreateRaytracingOutputBuffer` created has the window's
width and height and depth 1, the only `DispatchRays` a frame records
carries `Width = GetWidth()`, `Height = GetHeight()`, `Depth = 1`, these are
the texture's width, height and depth, and so the launch indices are exactly
the texels of the output image. -/
theorem dispatch_covers_output_image (p : Platform) (k0 a : Nat) (ops : List Op)
    (hq : p.featureQueryOk = true) (ht : D3D12_RAYTRACING_TIER_1_0 ≤ p.RaytracingTier)
    (hs : p.sbtStorage = some a) :
    ∃ e0 e tex, OnInit p k0 (construct p) = Except.ok e0 ∧ runOps ops e0 = Except.ok e ∧
      e.m_outputResource = some tex ∧
      tex.Width = p.width ∧ tex.Height = p.height ∧ tex.DepthOrArraySize = 1 ∧
      (∀ d, Cmd.DispatchRays d ∈ frameCommands e →
        d.Width = GetWidth e ∧ d.Height = GetHeight e ∧ d.Depth = 1 ∧
        d.Width = tex.Width ∧ d.Height = tex.Height ∧ d.Depth = tex.DepthOrArraySize ∧
        ∀ x y z, (x < d.Width ∧ y < d.Height ∧ z < d.Depth) ↔
          (x < tex.Width ∧ y < tex.Height ∧ z < tex.DepthOrArraySize)) ∧
      (e.m_isRasterizationActive = false →
        Cmd.DispatchRays (dispatchRaysDesc e) ∈ frameCommands e) := by
  obtain ⟨e0, h0, hw0, hh0, _, _, _, _, _, _, ho0, _⟩ := OnInit_effect p k0 a hq ht hs
  obtain ⟨e, he, hw, hh, ho, _, _⟩ := runOps_effect ops e0
  refine ⟨e0, e, ⟨p.width, p.height, 1, ResourceState.COPY_SOURCE⟩, h0, he,
    by rw [ho, ho0], rfl, rfl, rfl, ?_, ?_⟩
  · intro d hd
    have hdesc : d = dispatchRaysDesc e := by
      cases hr : e.m_isRasterizationActive
      · simpa [frameCommands, raytraceCommands, hr] using hd
      · simp [frameCommands, rasterCommands, DrawScene, hr] at hd
    subst hdesc
    have h1 : (dispatchRaysDesc e).Width = p.width := by
      simp [dispatchRaysDesc, GetWidth, hw, hw0]
    have h2 : (dispatchRaysDesc e).Height = p.height := by
      simp [dispatchRaysDesc, GetHeight, hh, hh0]
    have h3 : (dispatchRaysDesc e).Depth = 1 := rfl
    refine ⟨rfl, rfl, rfl, h1, h2, h3, ?_⟩
    intro x y z
    rw [h1, h2, h3]
  · intro hr
    simp [frameCommands, raytraceCommands, hr]

/-- C9, on the sample machine with one ray-traced frame, a switch to the
raster path, one raster frame and a switch back. -/
theorem dispatch_covers_output_image_witness :
    ∃ e0 e tex, OnInit samplePlatform 0 (construct samplePlatform) = Except.ok e0 ∧
      runOps [Op.render 0, Op.keyUp true, Op.render 1, Op.keyUp true] e0 = Except.ok e ∧
      e.m_outputResource = some tex ∧ tex.Width = 800 ∧ tex.Height = 600 ∧
      tex.DepthOrArraySize = 1 := by
  obtain ⟨e0, e, tex, h0, he, ho, hw, hh, hd, _⟩ :=
    dispatch_covers_output_image samplePlatform 0 65536
      [Op.render 0, Op.keyUp true, Op.render 1, Op.keyUp true] rfl (by decide) rfl
  exact ⟨e0, e, tex, h0, he, ho, hw, hh, hd⟩

/-- C10: on the ray-traced path, for every buffer address `b` and 32-bit
section sizes `r`, `m`, `h` reported by the helper such that the section
starts `b + r + m` are addresses (below `2 ^ 64`), the one `DispatchRays`
that `PopulateCommandList` records has ray-generation start `b` and size
`r`, miss start `b + r` and size `m`, hit-group start `b + r + m` and size
`h`, the helper's miss and hit-group entry sizes as strides, each section
starting where the one before it ends. -/
theorem sbt_sections_contiguous (e : Engine) (hray : e.m_isRasterizationActive = false)
    (hr : e.m_sbtHelper.GetRayGenSectionSize < UINT32_RANGE)
    (hm : e.m_sbtHelper.GetMissSectionSize < UINT32_RANGE)
    (hh : e.m_sbtHelper.GetHitGroupSectionSize < UINT32_RANGE)
    (hfit : e.m_sbtStorage + e.m_sbtHelper.GetRayGenSectionSize
      + e.m_sbtHelper.GetMissSectionSize < UINT64_RANGE) :
    ∃ d, Cmd.DispatchRays d ∈ (PopulateCommandList e).commandList ∧
      (∀ d1, Cmd.DispatchRays d1 ∈ (PopulateCommandList e).commandList → d1 = d) ∧
      d.RayGenerationShaderRecord_StartAddress = e.m_sbtStorage ∧
      d.RayGenerationShaderRecord_SizeInBytes = e.m_sbtHelper.GetRayGenSectionSize ∧
      d.MissShaderTable_StartAddress = e.m_sbtStorage + e.m_sbtHelper.GetRayGenSectionSize ∧
      d.MissShaderTable_SizeInBytes = e.m_sbtHelper.GetMissSectionSize ∧
      d.MissShaderTable_StrideInBytes = e.m_sbtHelper.GetMissEntrySize ∧
      d.HitGroupTable_StartAddress =
        e.m_sbtStorage + e.m_sbtHelper.GetRayGenSectionSize + e.m_sbtHelper.GetMissSectionSize ∧
      d.HitGroupTable_SizeInBytes = e.m_sbtHelper.GetHitGroupSectionSize ∧
      d.HitGroupTable_StrideInBytes = e.m_sbtHelper.GetHitGroupEntrySize ∧
      d.MissShaderTable_StartAddress =
        d.RayGenerationShaderRecord_StartAddress + d.RayGenerationShaderRecord_SizeInBytes ∧
      d.HitGroupTable_StartAddress =
        d.MissShaderTable_StartAddress + d.MissShaderTable_SizeInBytes := by
  have hl : (PopulateCommandList e).commandList = frameCommands e := by
    rw [PopulateCommandList_effect]
  have hr1 : e.m_sbtHelper.GetRayGenSectionSize % UINT32_RANGE
      = e.m_sbtHelper.GetRayGenSectionSize := Nat.mod_eq_of_lt hr
  have hm1 : e.m_sbtHelper.GetMissSectionSize % UINT32_RANGE
      = e.m_sbtHelper.GetMissSectionSize := Nat.mod_eq_of_lt hm
  have hh1 : e.m_sbtHelper.GetHitGroupSectionSize % UINT32_RANGE
      = e.m_sbtHelper.GetHitGroupSectionSize := Nat.mod_eq_of_lt hh
  have hfit1 : e.m_sbtStorage + e.m_sbtHelper.GetRayGenSectionSize < UINT64_RANGE := by omega
  have ha1 : (e.m_sbtStorage + e.m_sbtHelper.GetRayGenSectionSize) % UINT64_RANGE
      = e.m_sbtStorage + e.m_sbtHelper.GetRayGenSectionSize := Nat.mod_eq_of_lt hfit1
  have ha2 : (e.m_sbtStorage + e.m_sbtHelper.GetRayGenSectionSize
      + e.m_sbtHelper.GetMissSectionSize) % UINT64_RANGE
      = e.m_sbtStorage + e.m_sbtHelper.GetRayGenSectionSize
        + e.m_sbtHelper.GetMissSectionSize := Nat.mod_eq_of_lt hfit
  refine ⟨dispatchRaysDesc e, ?_, ?_, ?_⟩
  · rw [hl]; simp [frameCommands, raytraceCommands, hray]
  · intro d1 hd1
    rw [hl] at hd1
    simpa [frameCommands, raytraceCommands, hray] using hd1
  · simp only [dispatchRaysDesc, hr1, hm1, hh1, ha1, ha2]
    simp

/-- C10, on a table at address 65536 with sections of 64, 32 and 256 bytes. -/
theorem sbt_sections_contiguous_witness :
    ∃ d, Cmd.DispatchRays d ∈
        (PopulateCommandList
          { construct samplePlatform with
            m_sbtStorage := 65536, m_sbtHelper := ⟨64, 32, 32, 256, 64⟩ }).commandList ∧
      d.RayGenerationShaderRecord_StartAddress = 65536 ∧
      d.MissShaderTable_StartAddress = 65600 ∧
      d.HitGroupTable_StartAddress = 65632 := by
  obtain ⟨d, hd, _, h1, _, h2, _, _, h3, _⟩ :=
    sbt_sections_contiguous
      { construct samplePlatform with
        m_sbtStorage := 65536, m_sbtHelper := ⟨64, 32, 32, 256, 64⟩ }
      rfl (by decide) (by decide) (by decide) (by decide)
  exact ⟨d, hd, h1, h2, h3⟩


/-- C11 (counterexample): on the sample machine the table buffer is at
65536, a multiple of 64, the ray-generation section is one entry of 64
bytes, the miss section one entry of 32 bytes (both strides multiples of 32);
the hit-group table start that `PopulateCommandList` computes is 65632, which
leaves remainder 32 modulo 64. -/
theorem hit_group_table_start_misaligned :
    ∃ e d, OnInit samplePlatform 0 (construct samplePlatform) = Except.ok e ∧
      Cmd.DispatchRays d ∈ (PopulateCommandList e).commandList ∧
      e.m_sbtStorage % D3D12_RAYTRACING_SHADER_TABLE_BYTE_ALIGNMENT = 0 ∧
      e.m_sbtHelper.GetRayGenSectionSize = 1 * 64 ∧
      64 % D3D12_RAYTRACING_SHADER_RECORD_BYTE_ALIGNMENT = 0 ∧
      e.m_sbtHelper.GetMissSectionSize = 1 * 32 ∧
      32 % D3D12_RAYTRACING_SHADER_RECORD_BYTE_ALIGNMENT = 0 ∧
      e.m_sbtHelper.GetHitGroupSectionSize = 4 * 64 ∧
      d.HitGroupTable_StartAddress = 65632 ∧
      d.HitGroupTable_StartAddress % D3D12_RAYTRACING_SHADER_TABLE_BYTE_ALIGNMENT = 32 := by
  obtain ⟨e, h0, _, _, hr, _, _, _, _, _, _, hs, hp, _⟩ :=
    OnInit_effect samplePlatform 0 65536 rfl (by decide) rfl
  have hray : e.m_isRasterizationActive = false := hr
  have hl : (PopulateCommandList e).commandList = frameCommands e := by
    rw [PopulateCommandList_effect]
  refine ⟨e, dispatchRaysDesc e, h0, ?_, ?_, ?_, rfl, ?_, rfl, ?_, ?_, ?_⟩
  · rw [hl]; simp [frameCommands, raytraceCommands, hray]
  · rw [hs]; rfl
  · rw [hp]; rfl
  · rw [hp]; rfl
  · rw [hp]; rfl
  · simp only [dispatchRaysDesc, hs, hp]; rfl
  · simp only [dispatchRaysDesc, hs, hp]; rfl

/-- C11 (amended): on the ray-traced path, for every buffer address that is a
multiple of 64 and all section sizes that are an entry count times a stride
that is a multiple of 32, the miss-table and hit-group-table start addresses
of the recorded `DispatchRays` are multiples of 32; modulo 64 the miss start
is the ray-generation section size and the hit-group start is the sum of the
ray-generation and miss section sizes, so each is a multiple of 64 exactly
when that size is. -/
theorem sbt_section_starts_record_aligned (e : Engine) (nr sr nm sm : Nat)
    (hray : e.m_isRasterizationActive = false)
    (hb : e.m_sbtStorage % D3D12_RAYTRACING_SHADER_TABLE_BYTE_ALIGNMENT = 0)
    (hr : e.m_sbtHelper.GetRayGenSectionSize = nr * sr)
    (hsr : sr % D3D12_RAYTRACING_SHADER_RECORD_BYTE_ALIGNMENT = 0)
    (hm : e.m_sbtHelper.GetMissSectionSize = nm * sm)
    (hsm : sm % D3D12_RAYTRACING_SHADER_RECORD_BYTE_ALIGNMENT = 0) :
    ∃ d, Cmd.DispatchRays d ∈ (PopulateCommandList e).commandList ∧
      (∀ d1, Cmd.DispatchRays d1 ∈ (PopulateCommandList e).commandList → d1 = d) ∧
      d.MissShaderTable_StartAddress % D3D12_RAYTRACING_SHADER_RECORD_BYTE_ALIGNMENT = 0 ∧
      d.HitGroupTable_StartAddress % D3D12_RAYTRACING_SHADER_RECORD_BYTE_ALIGNMENT = 0 ∧
      d.MissShaderTable_StartAddress % D3D12_RAYTRACING_SHADER_TABLE_BYTE_ALIGNMENT =
        e.m_sbtHelper.GetRayGenSectionSize % D3D12_RAYTRACING_SHADER_TABLE_BYTE_ALIGNMENT ∧
      d.HitGroupTable_StartAddress % D3D12_RAYTRACING_SHADER_TABLE_BYTE_ALIGNMENT =
        (e.m_sbtHelper.GetRayGenSectionSize + e.m_sbtHelper.GetMissSectionSize)
          % D3D12_RAYTRACING_SHADER_TABLE_BYTE_ALIGNMENT := by
  have hl : (PopulateCommandList e).commandList = frameCommands e := by
    rw [PopulateCommandList_effect]
  have hr32 : e.m_sbtHelper.GetRayGenSectionSize % 32 = 0 := by
    rw [hr]
    exact Nat.mod_eq_zero_of_dvd (Dvd.dvd.mul_left (Nat.dvd_of_mod_eq_zero hsr) nr)
  have hm32 : e.m_sbtHelper.GetMissSectionSize % 32 = 0 := by
    rw [hm]
    exact Nat.mod_eq_zero_of_dvd (Dvd.dvd.mul_left (Nat.dvd_of_mod_eq_zero hsm) nm)
  have hb64 : e.m_sbtStorage % 64 = 0 := hb
  refine ⟨dispatchRaysDesc e, ?_, ?_, ?_⟩
  · rw [hl]; simp [frameCommands, raytraceCommands, hray]
  · intro d1 hd1
    rw [hl] at hd1
    simpa [frameCommands, raytraceCommands, hray] using hd1
  · simp only [dispatchRaysDesc, UINT64_RANGE, UINT32_RANGE,
      D3D12_RAYTRACING_SHADER_RECORD_BYTE_ALIGNMENT, D3D12_RAYTRACING_SHADER_TABLE_BYTE_ALIGNMENT]
    norm_num
    omega

/-- C11 (amended), on a table at 65536 with a ray-generation section of one
entry of 64 bytes and a miss section of one entry of 32 bytes. -/
theorem sbt_section_starts_record_aligned_witness :
    ∃ d, Cmd.DispatchRays d ∈
        (PopulateCommandList
          { construct samplePlatform with
            m_sbtStorage := 65536, m_sbtHelper := ⟨64, 32, 32, 256, 64⟩ }).commandList ∧
      d.MissShaderTable_StartAddress % D3D12_RAYTRACING_SHADER_RECORD_BYTE_ALIGNMENT = 0 ∧
      d.HitGroupTable_StartAddress % D3D12_RAYTRACING_SHADER_RECORD_BYTE_ALIGNMENT = 0 := by
  obtain ⟨d, hd, _, h1, h2, _⟩ :=
    sbt_section_starts_record_aligned
      { construct samplePlatform with
        m_sbtStorage := 65536, m_sbtHelper := ⟨64, 32, 32, 256, 64⟩ }
      1 64 1 32 rfl (by decide) rfl (by decide) rfl (by decide)
  exact ⟨d, hd, h1, h2⟩


theorem LoadPipeline_trace (e : Engine) :
    (LoadPipeline e).trace = e.trace ++
      [Call.create Object.m_device, Call.create Object.m_commandQueue,
       Call.create Object.m_swapChain, Call.GetCurrentBackBufferIndex,
       Call.create Object.m_rtvHeap, Call.create (Object.renderTargetView 0),
       Call.create (Object.renderTargetView 1), Call.create Object.m_commandAllocator,
       Call.create Object.m_dsvHeap, Call.create Object.m_depthStencil] := by
  simp [LoadPipeline, Engine.log, FrameCount, List.range, List.range.loop]

theorem LoadAssets_trace (k : Nat) (e : Engine) (h : e.gpu.pending = []) :
    ∃ e0 read, LoadAssets k e = Except.ok e0 ∧
      e0.trace = e.trace ++
        [Call.create Object.m_rootSignature, Call.create Object.m_pipelineState,
         Call.create Object.m_commandList, Call.create Object.m_fence, Call.CreateEvent,
         Call.Signal 1, Call.GetCompletedValue read] ++
        waitCalls 1 read EventHandle.m_fenceEvent ++
        [Call.GetCurrentBackBufferIndex, Call.ShaderManagerInitialize] := by
  unfold LoadAssets
  simp only [bind, Except.bind, pure, Except.pure]
  rw [WaitForPreviousFrame_drained]
  · refine ⟨_, (Gpu.afterSignal 1 k { e.gpu with completed := 0 }).completed, rfl, ?_⟩
    simp [Engine.log]
  · simp [Engine.log, Gpu.below, h]

/-- C16: `CheckRaytracingSupport` raises exactly when the feature query
fails or the reported tier is below `D3D12_RAYTRACING_TIER_1_0`, and returns
normally for every tier from 1.0 on when the query succeeds.  In `OnInit`
it is called in the state `LoadAssets` returns, and when it raises there,
`OnInit` ends with that exception: up to the throw no scene, ray-tracing
pipeline or shader binding table has been created, no command has been
recorded and the only fence signal is the one of `LoadAssets`. -/
theorem CheckRaytracingSupport_gate (p : Platform) (k : Nat) (e : Engine) :
    ((∃ f, CheckRaytracingSupport p e = Except.error f) ↔
      (p.featureQueryOk = false ∨ p.RaytracingTier < D3D12_RAYTRACING_TIER_1_0)) ∧
    ((p.featureQueryOk = true ∧ D3D12_RAYTRACING_TIER_1_0 ≤ p.RaytracingTier) ↔
      CheckRaytracingSupport p e = Except.ok (e.log Call.CheckFeatureSupport)) ∧
    (∃ e0, LoadAssets k (LoadPipeline (construct p)) = Except.ok e0 ∧
      (∀ f, CheckRaytracingSupport p e0 = Except.error f →
        OnInit p k (construct p) = Except.error f) ∧
      recorded (e0.trace ++ [Call.CheckFeatureSupport]) = [] ∧
      signalled (e0.trace ++ [Call.CheckFeatureSupport]) = [1] ∧
      (∀ c ∈ e0.trace ++ [Call.CheckFeatureSupport],
        c ≠ Call.create Object.m_scene ∧ c ≠ Call.ComputeASBufferSizes ∧
        c ≠ Call.create Object.m_rtStateObject ∧ c ≠ Call.SbtReset ∧
        c ≠ Call.ComputeSBTSize)) := by
  refine ⟨?_, ?_, ?_⟩
  · cases hq : p.featureQueryOk
    · simp [CheckRaytracingSupport, hq]
    · by_cases ht : p.RaytracingTier < D3D12_RAYTRACING_TIER_1_0
      · simp [CheckRaytracingSupport, hq, ht]
      · simp [CheckRaytracingSupport, hq, ht]
  · cases hq : p.featureQueryOk
    · simp [CheckRaytracingSupport, hq]
    · by_cases ht : p.RaytracingTier < D3D12_RAYTRACING_TIER_1_0
      · simp [CheckRaytracingSupport, hq, ht]
      · simp [CheckRaytracingSupport, hq, ht, Nat.not_lt.mp ht]
  · obtain ⟨e0, read, h0, htr⟩ := LoadAssets_trace k (LoadPipeline (construct p))
      (by simp [LoadPipeline, Engine.log, construct])
    rw [LoadPipeline_trace] at htr
    have hc : (construct p).trace = [] := rfl
    rw [hc] at htr
    refine ⟨e0, h0, ?_, ?_, ?_, ?_⟩
    · intro f hf
      unfold OnInit
      simp only [bind, Except.bind, h0, hf]
    · rw [htr]
      simp [recorded_append, recorded, recorded_waitCalls]
    · rw [htr]
      simp [signalled_append, signalled, signalled_waitCalls]
    · rw [htr]
      simp only [waitCalls]
      split <;> simp


/-- C16, on the sample machine with the tier reported as not supported (0):
`OnInit` ends with the exception of `CheckRaytracingSupport`. -/
theorem CheckRaytracingSupport_gate_witness :
    OnInit { samplePlatform with RaytracingTier := 0 } 0
        (construct { samplePlatform with RaytracingTier := 0 })
      = Except.error Fault.raytracingNotSupported := by
  obtain ⟨_, _, e0, _, himp, _⟩ :=
    CheckRaytracingSupport_gate { samplePlatform with RaytracingTier := 0 } 0
      (construct { samplePlatform with RaytracingTier := 0 })
  exact himp _ (by simp [CheckRaytracingSupport, samplePlatform, D3D12_RAYTRACING_TIER_1_0])

/-- C17: for every three sizes the sizing query returns and in every state,
`CreateTopLevelAS` first gathers the instances and queries the sizes, then
creates the scratch buffer with the scratch size, the result buffer with the
result size and the instance-descriptor buffer with the instance-descriptor
size, and only then records the build, which is given exactly these three
buffers; nothing else is recorded or created. -/
theorem CreateTopLevelAS_allocates_queried_sizes (p : Platform) (e : Engine) :
    (CreateTopLevelAS p e).trace = e.trace ++
      [Call.AddAllInstancesToSBT, Call.ComputeASBufferSizes,
       Call.create (Object.scratchBuffer p.topLevelSizes.pScratch),
       Call.create (Object.resultBuffer p.topLevelSizes.pResult),
       Call.create (Object.instanceDescBuffer p.topLevelSizes.pInstanceDesc),
       Call.record (Cmd.BuildTopLevelAS
         ⟨p.topLevelSizes.pScratch, p.topLevelSizes.pResult, p.topLevelSizes.pInstanceDesc⟩)] ∧
    (CreateTopLevelAS p e).m_topLevelASBuffers = some
      ⟨p.topLevelSizes.pScratch, p.topLevelSizes.pResult, p.topLevelSizes.pInstanceDesc⟩ ∧
    (CreateTopLevelAS p e).commandList = e.commandList ++
      [Cmd.BuildTopLevelAS
        ⟨p.topLevelSizes.pScratch, p.topLevelSizes.pResult, p.topLevelSizes.pInstanceDesc⟩] := by
  simp [CreateTopLevelAS, Engine.log, Engine.recordCmd]

/-- C20: for every state and GPU speed `OnDestroy` returns; it signals the
counter's value, registers `m_fenceEvent` for exactly that value and waits
unless the fence has reached it, and closes the event handle last; when the
signalled value lies above the fence's value and above every value whose
signal is still queued, the queue is empty when the handle is closed: every
command list submitted before has been executed. -/
theorem OnDestroy_retires_before_close (k : Nat) (e : Engine) :
    ∃ e1, OnDestroy k e = Except.ok e1 ∧
      e1.trace = e.trace ++
        [Call.Signal e.m_fenceValue,
         Call.GetCompletedValue (e.gpu.afterSignal e.m_fenceValue k).completed] ++
        waitCalls e.m_fenceValue (e.gpu.afterSignal e.m_fenceValue k).completed
          EventHandle.m_fenceEvent ++
        [Call.GetCurrentBackBufferIndex, Call.CloseHandle EventHandle.m_fenceEvent] ∧
      (∀ x event, Call.SetEventOnCompletion x event ∈
          waitCalls e.m_fenceValue (e.gpu.afterSignal e.m_fenceValue k).completed
            EventHandle.m_fenceEvent →
        x = e.m_fenceValue) ∧
      e.m_fenceValue ≤ e1.gpu.completed ∧
      (e.gpu.below e.m_fenceValue →
        e1.gpu.completed = e.m_fenceValue ∧ e1.gpu.pending = [] ∧ e1.gpu.busy = false ∧
        e1.gpu.retired = e.gpu.retired ++ executed e.gpu.pending) := by
  obtain ⟨g1, hg1, hreach, h1⟩ := WaitForPreviousFrame_effect k e
  refine ⟨_, by simp only [OnDestroy, bind, Except.bind, pure, Except.pure, h1]; rfl,
    ?_, ?_, hreach, ?_⟩
  · simp [Engine.log]
  · intro x event hx
    simp only [waitCalls] at hx
    split at hx
    · simp at hx; exact hx.1
    · simp at hx
  · intro hb
    rw [afterSignal_settles_drained _ _ _ hb] at hg1
    cases hg1
    simp [Engine.log, Gpu.busy]

/-- C20, on a state with a command list and a signal of 3 in the queue and
the counter at 4: `OnDestroy` signals 4 and the queue is empty when it closes
the handle. -/
theorem OnDestroy_retires_before_close_witness :
    stalledEngine.gpu.below stalledEngine.m_fenceValue ∧
    ∃ e1, OnDestroy 0 stalledEngine = Except.ok e1 ∧
      e1.gpu.pending = [] ∧ e1.gpu.retired = [[Cmd.SetPipelineState1]] := by
  have hb : stalledEngine.gpu.below stalledEngine.m_fenceValue := by
    simp [Gpu.below, stalledEngine, construct]
  obtain ⟨e1, h1, _, _, _, hd⟩ := OnDestroy_retires_before_close 0 stalledEngine
  obtain ⟨_, hp, _, hr⟩ := hd hb
  exact ⟨hb, e1, h1, hp, by rw [hr]; decide⟩


/-- Masking off the low eight bits of a 32-bit value. -/
theorem and_NOT_255 (x : Nat) (hx : x < UINT32_RANGE) : x &&& NOT_255 = x / 256 * 256 := by
  have hmask : NOT_255 = (2 ^ 24 - 1) <<< 8 := by decide
  have hrhs : x / 256 * 256 = (x >>> 8) <<< 8 := by
    rw [Nat.shiftLeft_eq, Nat.shiftRight_eq_div_pow]
  rw [hmask, hrhs]
  apply Nat.eq_of_testBit_eq
  intro i
  simp only [Nat.testBit_and, Nat.testBit_shiftLeft, Nat.testBit_shiftRight,
    Nat.testBit_two_pow_sub_one]
  by_cases h8 : 8 ≤ i
  · have hi : 8 + (i - 8) = i := by omega
    simp only [h8, ge_iff_le, decide_True, Bool.true_and, hi]
    by_cases h32 : i < 32
    · have : i - 8 < 24 := by omega
      simp [this]
    · have hlt : x < 2 ^ i :=
        Nat.lt_of_lt_of_le hx (Nat.pow_le_pow_right (by decide) (Nat.le_of_not_lt h32))
      simp [Nat.testBit_lt_two_pow hlt]
  · simp [h8]

theorem CalcConstantBufferByteSize_eq (byteSize : Nat) :
    CalcConstantBufferByteSize byteSize = (byteSize + 255) % 4294967296 / 256 * 256 := by
  unfold CalcConstantBufferByteSize
  rw [and_NOT_255 _ (Nat.mod_lt _ (by decide))]
  rfl

/-- C18 (counterexample): for `byteSize = 4294967295`, a 32-bit unsigned
value, `byteSize + 255` wraps and the result is 0, which is not greater
than or equal to `byteSize`. -/
theorem CalcConstantBufferByteSize_wraps :
    4294967295 < UINT32_RANGE ∧ CalcConstantBufferByteSize 4294967295 = 0 ∧
      ¬ (4294967295 ≤ CalcConstantBufferByteSize 4294967295) := by
  have h : CalcConstantBufferByteSize 4294967295 = 0 := by
    rw [CalcConstantBufferByteSize_eq]
  exact ⟨by decide, h, by rw [h]; decide⟩

/-- C18 (amended): for every `byteSize` up to `2 ^ 32 - 256` the result is
the smallest multiple of 256 that is greater than or equal to `byteSize`
(a multiple of 256, at least `byteSize`, less than 256 above it, and below
every other such multiple); 300 gives 512; for the larger 32-bit values the
sum wraps and the result is 0. -/
theorem CalcConstantBufferByteSize_rounds_up (byteSize : Nat) :
    (byteSize ≤ UINT32_RANGE - 256 →
      CalcConstantBufferByteSize byteSize % 256 = 0 ∧
      byteSize ≤ CalcConstantBufferByteSize byteSize ∧
      CalcConstantBufferByteSize byteSize - byteSize < 256 ∧
      ∀ m, m % 256 = 0 → byteSize ≤ m → CalcConstantBufferByteSize byteSize ≤ m) ∧
    (UINT32_RANGE - 256 < byteSize → byteSize < UINT32_RANGE →
      CalcConstantBufferByteSize byteSize = 0) ∧
    CalcConstantBufferByteSize 300 = 512 := by
  refine ⟨?_, ?_, ?_⟩
  · intro h
    rw [CalcConstantBufferByteSize_eq]
    simp only [UINT32_RANGE] at h
    refine ⟨by omega, by omega, by omega, ?_⟩
    intro m hm hle
    omega
  · intro h1 h2
    rw [CalcConstantBufferByteSize_eq]
    simp only [UINT32_RANGE] at h1 h2
    omega
  · rw [CalcConstantBufferByteSize_eq]

/-- C18 (amended), at 300 and at the largest value that does not wrap. -/
theorem CalcConstantBufferByteSize_rounds_up_witness :
    300 ≤ CalcConstantBufferByteSize 300 ∧
    CalcConstantBufferByteSize 4294967040 % 256 = 0 ∧
    CalcConstantBufferByteSize 4294967295 = 0 :=
  ⟨((CalcConstantBufferByteSize_rounds_up 300).1 (by decide)).2.1,
   ((CalcConstantBufferByteSize_rounds_up 4294967040).1 (by decide)).1,
   (CalcConstantBufferByteSize_rounds_up 4294967295).2.1 (by decide) (by decide)⟩


theorem toInt32_of_fits (n : Nat) (h : n < 2 ^ 31) : toInt32 (n : Int) = n := by
  unfold toInt32
  omega

/-- C19: the three accessors make the same choice, taking the
position+colour array when it is non-empty (whatever the other array holds)
and the other array otherwise; hence, when the byte length of the array
`GetData` returns fits in an `int` (the two `sizeof` being positive `int`
values), `GetModelVertexSize` is that byte length, which is 0 when both arrays
are empty; and when four times the index count fits in an `int`,
`GetModelIndexSize` is four times the index count. -/
theorem RevModelData_accessors_consistent {A B : Type} (sz : VertexSizes)
    (d : RevModelData A B)
    (h1 : 0 < sz.sizeofRevVertexPosCol ∧ sz.sizeofRevVertexPosCol < 2 ^ 31)
    (h2 : 0 < sz.sizeofRevVertexPosTexNormBiTan ∧ sz.sizeofRevVertexPosTexNormBiTan < 2 ^ 31) :
    (d.m_vertexes ≠ [] →
      d.GetData = Sum.inl d.m_vertexes ∧
      d.GetVertexStride sz = sz.sizeofRevVertexPosCol ∧
      (d.m_vertexes.length < 2 ^ 31 → d.GetNumVertexes = d.m_vertexes.length)) ∧
    (d.m_vertexes = [] →
      d.GetData = Sum.inr d.m_staticVertexes ∧
      d.GetVertexStride sz = sz.sizeofRevVertexPosTexNormBiTan ∧
      (d.m_staticVertexes.length < 2 ^ 31 → d.GetNumVertexes = d.m_staticVertexes.length)) ∧
    (byteLength sz d.GetData < 2 ^ 31 → d.GetModelVertexSize sz = byteLength sz d.GetData) ∧
    (d.m_vertexes = [] → d.m_staticVertexes = [] → d.GetModelVertexSize sz = 0) ∧
    (d.m_indices.length * 4 < 2 ^ 31 → d.GetModelIndexSize = 4 * d.m_indices.length) := by
  have hs1 := toInt32_of_fits _ h1.2
  have hs2 := toInt32_of_fits _ h2.2
  refine ⟨?_, ?_, ?_, ?_, ?_⟩
  · intro hne
    have hpos : d.m_vertexes.length > 0 := List.length_pos.mpr hne
    refine ⟨by simp [RevModelData.GetData, hpos], by simp [RevModelData.GetVertexStride, hpos, hs1],
      fun hl => ?_⟩
    simp [RevModelData.GetNumVertexes, hpos, toInt32_of_fits _ hl]
  · intro he
    refine ⟨by simp [RevModelData.GetData, he], by simp [RevModelData.GetVertexStride, he, hs2],
      fun hl => ?_⟩
    simp [RevModelData.GetNumVertexes, he, toInt32_of_fits _ hl]
  · intro hfit
    by_cases hpos : d.m_vertexes.length > 0
    · have hd : d.GetData = Sum.inl d.m_vertexes := by simp [RevModelData.GetData, hpos]
      rw [hd] at hfit ⊢
      simp only [byteLength] at hfit ⊢
      have hlen : d.m_vertexes.length < 2 ^ 31 :=
        Nat.lt_of_le_of_lt (Nat.le_mul_of_pos_right _ h1.1) hfit
      simp only [RevModelData.GetModelVertexSize, RevModelData.GetNumVertexes,
        RevModelData.GetVertexStride, hpos, if_true, hs1, toInt32_of_fits _ hlen]
      rw [← Int.natCast_mul, toInt32_of_fits _ hfit]
    · have hd : d.GetData = Sum.inr d.m_staticVertexes := by simp [RevModelData.GetData, hpos]
      rw [hd] at hfit ⊢
      simp only [byteLength] at hfit ⊢
      have hlen : d.m_staticVertexes.length < 2 ^ 31 :=
        Nat.lt_of_le_of_lt (Nat.le_mul_of_pos_right _ h2.1) hfit
      simp only [RevModelData.GetModelVertexSize, RevModelData.GetNumVertexes,
        RevModelData.GetVertexStride, hpos, if_false, hs2, toInt32_of_fits _ hlen]
      rw [← Int.natCast_mul, toInt32_of_fits _ hfit]
  · intro he hse
    simp [RevModelData.GetModelVertexSize, RevModelData.GetNumVertexes, he, hse, toInt32]
  · intro hfit
    have hlt : d.m_indices.length * sizeofUINT < UINT64_RANGE := by
      simp only [sizeofUINT, UINT64_RANGE]; omega
    simp only [RevModelData.GetModelIndexSize, Nat.mod_eq_of_lt hlt]
    have hfit2 : d.m_indices.length * sizeofUINT < 2 ^ 31 := hfit
    rw [toInt32_of_fits _ hfit2]
    simp only [sizeofUINT]
    push_cast
    omega

/-- C19, on a model with two position+colour vertices of 28 bytes, one
vertex in the other array and three indices. -/
theorem RevModelData_accessors_consistent_witness :
    (RevModelData.GetModelVertexSize ⟨28, 56⟩
        (⟨[0, 1], [7], [0, 1, 0]⟩ : RevModelData Nat Nat) = 56) ∧
    (RevModelData.GetModelIndexSize (⟨[0, 1], [7], [0, 1, 0]⟩ : RevModelData Nat Nat) = 12) := by
  have h := RevModelData_accessors_consistent ⟨28, 56⟩
    (⟨[0, 1], [7], [0, 1, 0]⟩ : RevModelData Nat Nat) (by decide) (by decide)
  exact ⟨h.2.2.1 (by decide), h.2.2.2.2 (by decide)⟩


/-- The calls `OnInit` makes after `CreateAccelerationStructures` has
returned, in order. -/
theorem OnInit_trace (p : Platform) (k a : Nat) (hq : p.featureQueryOk = true)
    (ht : D3D12_RAYTRACING_TIER_1_0 ≤ p.RaytracingTier) (hs : p.sbtStorage = some a) :
    ∃ e pre, OnInit p k (construct p) = Except.ok e ∧
      e.trace = pre ++
        [Call.ListClose,
         Call.create Object.m_rayGenSignature, Call.create Object.m_missSignature,
         Call.create Object.m_hitSignature, Call.create Object.m_rtStateObject,
         Call.create Object.m_rtStateObjectProps,
         Call.create (Object.perInstanceConstantBuffer 0),
         Call.create (Object.perInstanceConstantBuffer 1),
         Call.create (Object.perInstanceConstantBuffer 2),
         Call.create Object.m_outputResource,
         Call.create Object.m_cameraBuffer, Call.create Object.m_constHeap,
         Call.create Object.m_srvUavHeap,
         Call.SbtReset,
         Call.AddRayGenerationProgram ⟨ProgramName.RayGen, [p.srvUavHeapStart]⟩,
         Call.AddMissProgram ⟨ProgramName.Miss, []⟩,
         Call.AddHitGroup ⟨ProgramName.HitGroup, [p.perInstanceAddresses.getD 0 0]⟩,
         Call.AddHitGroup ⟨ProgramName.HitGroup, [p.perInstanceAddresses.getD 1 0]⟩,
         Call.AddHitGroup ⟨ProgramName.HitGroup, [p.perInstanceAddresses.getD 2 0]⟩,
         Call.AddHitGroup ⟨ProgramName.PlaneHitGroup, []⟩,
         Call.ComputeSBTSize,
         Call.create (Object.m_sbtStorage
           ((engineTable p.srvUavHeapStart (p.perInstanceAddresses.getD 0 0)
             (p.perInstanceAddresses.getD 1 0) (p.perInstanceAddresses.getD 2 0)).ComputeSBTSize
               p.sbtLayout % UINT32_RANGE)),
         Call.SbtGenerate a enginePipeline,
         Call.CameraUpdate, Call.MapCameraBuffer] := by
  obtain ⟨e1, h1, _⟩ :=
    LoadAssets_effect k (LoadPipeline (construct p)) (by simp [LoadPipeline, Engine.log, construct])
  have hc : CheckRaytracingSupport p e1 = Except.ok (e1.log Call.CheckFeatureSupport) := by
    simp [CheckRaytracingSupport, hq, Nat.not_lt.mpr ht]
  obtain ⟨E, hE⟩ : ∃ E, CreateAccelerationStructures p (e1.log Call.CheckFeatureSupport)
      = Except.ok E := by
    obtain ⟨g1, _, _, h2⟩ :=
      CreateAccelerationStructures_effect p (e1.log Call.CheckFeatureSupport)
    exact ⟨_, h2⟩
  unfold OnInit
  simp only [bind, Except.bind, pure, Except.pure, h1, hc, hE]
  rw [CreateShaderBindingTable_effect p _ a (p.perInstanceAddresses.getD 0 0)
    (p.perInstanceAddresses.getD 1 0) (p.perInstanceAddresses.getD 2 0) [] hs
    (by simp [CreateShaderResourceHeap, Engine.writeView, CreateCameraBuffer, CreateRaytracingOutputBuffer,
      CreatePerInstanceConstantBuffers, Engine.log, List.range, List.range.loop])
    (by simp [CreateShaderResourceHeap, Engine.writeView, CreateCameraBuffer, CreateRaytracingOutputBuffer,
      CreatePerInstanceConstantBuffers, CreateRaytracingPipeline, Engine.log])]
  refine ⟨_, E.trace, rfl, ?_⟩
  simp [Engine.log, Engine.listClose, CreateRaytracingPipeline,
    CreatePerInstanceConstantBuffers, CreateRaytracingOutputBuffer, CreateCameraBuffer,
    CreateShaderResourceHeap, Engine.writeView, UpdateCameraBuffer, List.range, List.range.loop]


/-- C12: whatever the helper's three entry lists hold before, a call of
`CreateShaderBindingTable` (with three per-instance buffers, a buffer for the
table and the engine's pipeline, so that it returns) starts with `Reset` and
leaves them equal to `engineTable` of the heap handle and the three buffer
addresses, and a second call right after the first leaves the same three
lists: no section is doubled. -/
theorem CreateShaderBindingTable_resets_first (p : Platform) (e : Engine)
    (a a0 a1 a2 : Nat) (rest : List Nat)
    (hs : p.sbtStorage = some a)
    (hb : e.m_perInstanceConstantBuffers = a0 :: a1 :: a2 :: rest)
    (hp : e.m_rtStateObjectProps = enginePipeline) :
    ∃ e1 e2 calls, CreateShaderBindingTable p e = Except.ok e1 ∧
      CreateShaderBindingTable p e1 = Except.ok e2 ∧
      e1.trace = e.trace ++ Call.SbtReset :: calls ∧
      e1.sbtSections = engineTable e.m_srvUavHeap a0 a1 a2 ∧
      e2.sbtSections = e1.sbtSections ∧
      e2.sbtSections.m_rayGen.length = 1 ∧ e2.sbtSections.m_miss.length = 1 ∧
      e2.sbtSections.m_hitGroup.length = 4 := by
  have h1 := CreateShaderBindingTable_effect p e a a0 a1 a2 rest hs hb hp
  have h2 := CreateShaderBindingTable_effect p
    { e with
      sbtSections := engineTable e.m_srvUavHeap a0 a1 a2
      m_sbtHelper := p.sbtHelper
      m_sbtStorage := a
      trace := e.trace ++
        [Call.SbtReset,
         Call.AddRayGenerationProgram ⟨ProgramName.RayGen, [e.m_srvUavHeap]⟩,
         Call.AddMissProgram ⟨ProgramName.Miss, []⟩,
         Call.AddHitGroup ⟨ProgramName.HitGroup, [a0]⟩,
         Call.AddHitGroup ⟨ProgramName.HitGroup, [a1]⟩,
         Call.AddHitGroup ⟨ProgramName.HitGroup, [a2]⟩,
         Call.AddHitGroup ⟨ProgramName.PlaneHitGroup, []⟩,
         Call.ComputeSBTSize,
         Call.create (Object.m_sbtStorage
           ((engineTable e.m_srvUavHeap a0 a1 a2).ComputeSBTSize p.sbtLayout % UINT32_RANGE)),
         Call.SbtGenerate a enginePipeline] }
    a a0 a1 a2 rest hs hb hp
  exact ⟨_, _,
    [Call.AddRayGenerationProgram ⟨ProgramName.RayGen, [e.m_srvUavHeap]⟩,
     Call.AddMissProgram ⟨ProgramName.Miss, []⟩,
     Call.AddHitGroup ⟨ProgramName.HitGroup, [a0]⟩,
     Call.AddHitGroup ⟨ProgramName.HitGroup, [a1]⟩,
     Call.AddHitGroup ⟨ProgramName.HitGroup, [a2]⟩,
     Call.AddHitGroup ⟨ProgramName.PlaneHitGroup, []⟩,
     Call.ComputeSBTSize,
     Call.create (Object.m_sbtStorage
       ((engineTable e.m_srvUavHeap a0 a1 a2).ComputeSBTSize p.sbtLayout % UINT32_RANGE)),
     Call.SbtGenerate a enginePipeline],
    h1, h2, rfl, rfl, rfl, rfl, rfl, rfl⟩

/-- C12, on a helper that already holds entries in all three sections. -/
theorem CreateShaderBindingTable_resets_first_witness :
    ∃ e1, CreateShaderBindingTable samplePlatform
        { construct samplePlatform with
          sbtSections := engineTable 1 2 3 4
          m_srvUavHeap := 4096
          m_perInstanceConstantBuffers := [131072, 131328, 131584]
          m_rtStateObjectProps := enginePipeline } = Except.ok e1 ∧
      e1.sbtSections = engineTable 4096 131072 131328 131584 := by
  obtain ⟨e1, _, _, h1, _, _, hsec, _⟩ :=
    CreateShaderBindingTable_resets_first samplePlatform
      { construct samplePlatform with
        sbtSections := engineTable 1 2 3 4
        m_srvUavHeap := 4096
        m_perInstanceConstantBuffers := [131072, 131328, 131584]
        m_rtStateObjectProps := enginePipeline }
      65536 131072 131328 131584 [] rfl rfl rfl
  exact ⟨e1, h1, hsec⟩

/-- C14: with three per-instance buffers in place, when the allocation
yields no buffer `CreateShaderBindingTable` raises its allocation error,
whatever the pipeline holds (an unknown program name, which `Generate` would
report, is not reported: `Generate` is not reached); when the allocation
yields a buffer and the pipeline is the engine's, the function returns, and
the calls it made end with `ComputeSBTSize`, the creation of the buffer and
one call of `Generate` with that buffer and the pipeline, the only call of
`Generate` it makes. -/
theorem sbt_allocation_failure_is_fatal (p : Platform) (e : Engine)
    (a0 a1 a2 : Nat) (rest : List Nat)
    (hb : e.m_perInstanceConstantBuffers = a0 :: a1 :: a2 :: rest) :
    (p.sbtStorage = none →
      CreateShaderBindingTable p e = Except.error Fault.couldNotAllocateSbt) ∧
    (∀ a, p.sbtStorage = some a → e.m_rtStateObjectProps = enginePipeline →
      ∃ e1 calls size, CreateShaderBindingTable p e = Except.ok e1 ∧
        e1.m_sbtStorage = a ∧
        e1.trace = e.trace ++ calls ++
          [Call.ComputeSBTSize, Call.create (Object.m_sbtStorage size),
           Call.SbtGenerate a e.m_rtStateObjectProps] ∧
        generateCalls calls = [] ∧
        generateCalls
          (calls ++ [Call.ComputeSBTSize, Call.create (Object.m_sbtStorage size),
            Call.SbtGenerate a e.m_rtStateObjectProps]) = [(a, e.m_rtStateObjectProps)]) := by
  constructor
  · intro hs
    simp [CreateShaderBindingTable, addInstanceHitGroups, List.range, List.range.loop,
      Engine.sbtReset, Engine.sbtAddRayGenerationProgram, Engine.sbtAddMissProgram,
      Engine.sbtAddHitGroup, Engine.sbtComputeSBTSize, Engine.log, hs, hb,
      bind, Except.bind, pure, Except.pure]
  · intro a hs hp
    have h1 := CreateShaderBindingTable_effect p e a a0 a1 a2 rest hs hb hp
    refine ⟨_,
      [Call.SbtReset,
       Call.AddRayGenerationProgram ⟨ProgramName.RayGen, [e.m_srvUavHeap]⟩,
       Call.AddMissProgram ⟨ProgramName.Miss, []⟩,
       Call.AddHitGroup ⟨ProgramName.HitGroup, [a0]⟩,
       Call.AddHitGroup ⟨ProgramName.HitGroup, [a1]⟩,
       Call.AddHitGroup ⟨ProgramName.HitGroup, [a2]⟩,
       Call.AddHitGroup ⟨ProgramName.PlaneHitGroup, []⟩],
      (engineTable e.m_srvUavHeap a0 a1 a2).ComputeSBTSize p.sbtLayout % UINT32_RANGE,
      h1, rfl, ?_, rfl, ?_⟩
    · simp [hp]
    · simp [generateCalls]

/-- C14, on the sample machine once with no buffer for the table and once
with the buffer at 65536. -/
theorem sbt_allocation_failure_is_fatal_witness :
    CreateShaderBindingTable { samplePlatform with sbtStorage := none }
        { construct samplePlatform with
          m_perInstanceConstantBuffers := [131072, 131328, 131584] }
      = Except.error Fault.couldNotAllocateSbt ∧
    ∃ e1, CreateShaderBindingTable samplePlatform
        { construct samplePlatform with
          m_perInstanceConstantBuffers := [131072, 131328, 131584]
          m_rtStateObjectProps := enginePipeline } = Except.ok e1 ∧
      e1.m_sbtStorage = 65536 := by
  constructor
  · exact (sbt_allocation_failure_is_fatal { samplePlatform with sbtStorage := none }
      { construct samplePlatform with
        m_perInstanceConstantBuffers := [131072, 131328, 131584] }
      131072 131328 131584 [] rfl).1 rfl
  · obtain ⟨e1, _, _, h1, hsto, _⟩ :=
      (sbt_allocation_failure_is_fatal samplePlatform
        { construct samplePlatform with
          m_perInstanceConstantBuffers := [131072, 131328, 131584]
          m_rtStateObjectProps := enginePipeline }
        131072 131328 131584 [] rfl).2 65536 rfl rfl
    exact ⟨e1, h1, hsto⟩


theorem roundUp_spec (v a : Nat) (ha : 0 < a) :
    a ∣ roundUp v a ∧ v ≤ roundUp v a ∧ roundUp v a < v + a := by
  unfold roundUp
  have h1 := Nat.div_add_mod (v + a - 1) a
  have h2 := Nat.mod_lt (v + a - 1) ha
  have h3 : (v + a - 1) / a * a = a * ((v + a - 1) / a) := Nat.mul_comm _ _
  refine ⟨Dvd.intro_left _ rfl, ?_, ?_⟩
  · rw [h3]
    generalize a * ((v + a - 1) / a) = q at h1
    omega
  · rw [h3]
    generalize a * ((v + a - 1) / a) = q at h1
    omega

theorem maxEntrySize_ge (l : SbtLayout) (entries : List SBTEntry) :
    ∀ entry ∈ entries, l.entrySize entry ≤ l.maxEntrySize entries := by
  induction entries with
  | nil => intro entry h; cases h
  | cons first rest ih =>
      intro entry h
      simp only [SbtLayout.maxEntrySize]
      rcases List.mem_cons.mp h with h | h
      · subst h; exact Nat.le_max_left _ _
      · exact Nat.le_trans (ih entry h) (Nat.le_max_right _ _)

theorem maxEntrySize_attained (l : SbtLayout) (entries : List SBTEntry) (h : entries ≠ []) :
    ∃ entry ∈ entries, l.entrySize entry = l.maxEntrySize entries := by
  induction entries with
  | nil => exact absurd rfl h
  | cons first rest ih =>
      simp only [SbtLayout.maxEntrySize]
      by_cases hr : rest = []
      · subst hr
        exact ⟨first, List.mem_cons_self _ _, by simp [SbtLayout.maxEntrySize]⟩
      · obtain ⟨entry, hmem, heq⟩ := ih hr
        by_cases hle : l.maxEntrySize rest ≤ l.entrySize first
        · exact ⟨first, List.mem_cons_self _ _, (Nat.max_eq_left hle).symm⟩
        · exact ⟨entry, List.mem_cons_of_mem _ hmem,
            by rw [heq]; exact (Nat.max_eq_right (Nat.le_of_not_le hle)).symm⟩

/-- C13: a second call of `ComputeSBTSize`, made on the state the first one
leaves with no entry added or removed, returns the same value; the value is
the sum over the three sections of the entry count times the section's
stride, the stride being the largest entry size of the section rounded up
to the alignment (the least multiple of the alignment that is at least
every entry size of the section); and `CreateShaderBindingTable`, holding
that value in a `uint32_t`, creates the table's buffer with exactly that
size. -/
theorem ComputeSBTSize_idempotent_formula (p : Platform) (e : Engine)
    (a a0 a1 a2 : Nat) (rest : List Nat)
    (hal : 0 < p.sbtLayout.alignment)
    (hs : p.sbtStorage = some a)
    (hb : e.m_perInstanceConstantBuffers = a0 :: a1 :: a2 :: rest)
    (hp : e.m_rtStateObjectProps = enginePipeline)
    (hfit : (engineTable e.m_srvUavHeap a0 a1 a2).ComputeSBTSize p.sbtLayout < UINT32_RANGE) :
    ((e.sbtComputeSBTSize p).2.sbtComputeSBTSize p).1 = (e.sbtComputeSBTSize p).1 ∧
    (e.sbtComputeSBTSize p).2.sbtSections = e.sbtSections ∧
    (e.sbtComputeSBTSize p).1 =
      e.sbtSections.m_rayGen.length * p.sbtLayout.stride e.sbtSections.m_rayGen
      + e.sbtSections.m_miss.length * p.sbtLayout.stride e.sbtSections.m_miss
      + e.sbtSections.m_hitGroup.length * p.sbtLayout.stride e.sbtSections.m_hitGroup ∧
    (∀ entries : List SBTEntry,
      p.sbtLayout.alignment ∣ p.sbtLayout.stride entries ∧
      (∀ entry ∈ entries, p.sbtLayout.entrySize entry ≤ p.sbtLayout.stride entries) ∧
      (entries ≠ [] → ∃ entry ∈ entries,
        p.sbtLayout.stride entries < p.sbtLayout.entrySize entry + p.sbtLayout.alignment)) ∧
    (∃ e1 calls, CreateShaderBindingTable p e = Except.ok e1 ∧
      e1.trace = e.trace ++ calls ++
        [Call.ComputeSBTSize,
         Call.create (Object.m_sbtStorage (e1.sbtSections.ComputeSBTSize p.sbtLayout)),
         Call.SbtGenerate a enginePipeline] ∧
      (∀ size, Call.create (Object.m_sbtStorage size) ∉ calls)) := by
  refine ⟨rfl, rfl, rfl, ?_, ?_⟩
  · intro entries
    obtain ⟨hdvd, hge, hlt⟩ := roundUp_spec (p.sbtLayout.maxEntrySize entries) _ hal
    refine ⟨hdvd, ?_, ?_⟩
    · intro entry hmem
      exact Nat.le_trans (maxEntrySize_ge _ _ entry hmem) hge
    · intro hne
      obtain ⟨entry, hmem, heq⟩ := maxEntrySize_attained p.sbtLayout entries hne
      exact ⟨entry, hmem, by rw [heq]; exact hlt⟩
  · have h1 := CreateShaderBindingTable_effect p e a a0 a1 a2 rest hs hb hp
    refine ⟨_,
      [Call.SbtReset,
       Call.AddRayGenerationProgram ⟨ProgramName.RayGen, [e.m_srvUavHeap]⟩,
       Call.AddMissProgram ⟨ProgramName.Miss, []⟩,
       Call.AddHitGroup ⟨ProgramName.HitGroup, [a0]⟩,
       Call.AddHitGroup ⟨ProgramName.HitGroup, [a1]⟩,
       Call.AddHitGroup ⟨ProgramName.HitGroup, [a2]⟩,
       Call.AddHitGroup ⟨ProgramName.PlaneHitGroup, []⟩], h1, ?_, ?_⟩
    · simp [Nat.mod_eq_of_lt hfit]
    · intro size
      simp

/-- C13, on the sample machine: identifiers of 32 bytes, root arguments of 8
bytes, alignment 32; the table of the engine needs 64 + 32 + 4 * 64 = 352
bytes. -/
theorem ComputeSBTSize_idempotent_formula_witness :
    (Engine.sbtComputeSBTSize samplePlatform
      { construct samplePlatform with
        sbtSections := engineTable 4096 131072 131328 131584 }).1 = 352 ∧
    ∃ e1, CreateShaderBindingTable samplePlatform
        { construct samplePlatform with
          m_srvUavHeap := 4096
          m_perInstanceConstantBuffers := [131072, 131328, 131584]
          m_rtStateObjectProps := enginePipeline } = Except.ok e1 ∧
      Call.create (Object.m_sbtStorage 352) ∈ e1.trace := by
  constructor
  · decide
  · obtain ⟨_, _, _, _, e1, calls, h1, htr, _⟩ :=
      ComputeSBTSize_idempotent_formula samplePlatform
        { construct samplePlatform with
          m_srvUavHeap := 4096
          m_perInstanceConstantBuffers := [131072, 131328, 131584]
          m_rtStateObjectProps := enginePipeline }
        65536 131072 131328 131584 [] (by decide) rfl rfl rfl (by decide)
    refine ⟨e1, h1, ?_⟩
    have hsec : e1.sbtSections = engineTable 4096 131072 131328 131584 := by
      have h2 := CreateShaderBindingTable_effect samplePlatform
        { construct samplePlatform with
          m_srvUavHeap := 4096
          m_perInstanceConstantBuffers := [131072, 131328, 131584]
          m_rtStateObjectProps := enginePipeline }
        65536 131072 131328 131584 [] rfl rfl rfl
      rw [h2] at h1
      cases h1
      rfl
    rw [htr, hsec]
    have hsize : (engineTable 4096 131072 131328 131584).ComputeSBTSize samplePlatform.sbtLayout
        = 352 := by decide
    rw [hsize]
    simp


/-- C15: on every machine on which `OnInit` gets through to the shader
binding table, the entries `CreateShaderBindingTable` adds are named
`RayGen` (ray generation), `Miss` (miss) and `HitGroup`, `HitGroup`,
`HitGroup`, `PlaneHitGroup` (hit groups); the pipeline that
`CreateRaytracingPipeline` registered exports `RayGen` and `Miss` from its
libraries, has `HitGroup` and `PlaneHitGroup` as hit groups, and associates a
root signature with each of the four names; so the lookup of `Generate`
finds every name and `OnInit` does not end with the unknown-program-name
error.  The pipeline is created before the helper is reset and the table
generated. -/
theorem sbt_names_registered (p : Platform) (k a : Nat)
    (hq : p.featureQueryOk = true) (ht : D3D12_RAYTRACING_TIER_1_0 ≤ p.RaytracingTier)
    (hs : p.sbtStorage = some a) :
    ∃ e pre mid post, OnInit p k (construct p) = Except.ok e ∧
      e.sbtSections.m_rayGen.map SBTEntry.m_entryPoint = [ProgramName.RayGen] ∧
      e.sbtSections.m_miss.map SBTEntry.m_entryPoint = [ProgramName.Miss] ∧
      e.sbtSections.m_hitGroup.map SBTEntry.m_entryPoint =
        [ProgramName.HitGroup, ProgramName.HitGroup, ProgramName.HitGroup,
         ProgramName.PlaneHitGroup] ∧
      (∀ name ∈ (e.sbtSections.m_rayGen ++ e.sbtSections.m_miss).map SBTEntry.m_entryPoint,
        name ∈ e.m_rtStateObjectProps.libraries.flatten) ∧
      (∀ name ∈ e.sbtSections.m_hitGroup.map SBTEntry.m_entryPoint,
        name ∈ e.m_rtStateObjectProps.hitGroups.map Prod.fst) ∧
      (∀ name ∈ e.sbtSections.programNames,
        ∃ association ∈ e.m_rtStateObjectProps.rootSignatureAssociations,
          name ∈ association.2) ∧
      (∀ name ∈ e.sbtSections.programNames, name ∈ e.m_rtStateObjectProps.identifiers) ∧
      e.sbtSections.Generate e.m_rtStateObjectProps = Except.ok () ∧
      e.trace = pre ++ [Call.create Object.m_rtStateObject,
        Call.create Object.m_rtStateObjectProps] ++ mid ++ [Call.SbtReset] ++ post ∧
      Call.SbtGenerate a enginePipeline ∈ post ∧
      (∀ b pl, Call.SbtGenerate b pl ∉ mid) ∧ Call.SbtReset ∉ mid := by
  obtain ⟨e, h0, _, _, _, _, _, _, _, _, _, _, _, _, _, _, hsec, hpl⟩ :=
    OnInit_effect p k a hq ht hs
  obtain ⟨e', pre, h0', htr⟩ := OnInit_trace p k a hq ht hs
  have hee : e' = e := by
    rw [h0] at h0'
    cases h0'
    rfl
  subst hee
  refine ⟨e', pre ++ [Call.ListClose, Call.create Object.m_rayGenSignature,
      Call.create Object.m_missSignature, Call.create Object.m_hitSignature],
    [Call.create (Object.perInstanceConstantBuffer 0),
     Call.create (Object.perInstanceConstantBuffer 1),
     Call.create (Object.perInstanceConstantBuffer 2),
     Call.create Object.m_outputResource,
     Call.create Object.m_cameraBuffer, Call.create Object.m_constHeap,
     Call.create Object.m_srvUavHeap],
    [Call.AddRayGenerationProgram ⟨ProgramName.RayGen, [p.srvUavHeapStart]⟩,
     Call.AddMissProgram ⟨ProgramName.Miss, []⟩,
     Call.AddHitGroup ⟨ProgramName.HitGroup, [p.perInstanceAddresses.getD 0 0]⟩,
     Call.AddHitGroup ⟨ProgramName.HitGroup, [p.perInstanceAddresses.getD 1 0]⟩,
     Call.AddHitGroup ⟨ProgramName.HitGroup, [p.perInstanceAddresses.getD 2 0]⟩,
     Call.AddHitGroup ⟨ProgramName.PlaneHitGroup, []⟩,
     Call.ComputeSBTSize,
     Call.create (Object.m_sbtStorage
       ((engineTable p.srvUavHeapStart (p.perInstanceAddresses.getD 0 0)
         (p.perInstanceAddresses.getD 1 0) (p.perInstanceAddresses.getD 2 0)).ComputeSBTSize
           p.sbtLayout % UINT32_RANGE)),
     Call.SbtGenerate a enginePipeline,
     Call.CameraUpdate, Call.MapCameraBuffer],
    h0, ?_, ?_, ?_, ?_, ?_, ?_, ?_, ?_, ?_, ?_, ?_, ?_⟩
  · rw [hsec]; rfl
  · rw [hsec]; rfl
  · rw [hsec]; rfl
  · rw [hsec, hpl]; simp [engineTable, enginePipeline]
  · rw [hsec, hpl]; simp [engineTable, enginePipeline]
  · rw [hsec, hpl]
    simp [ShaderBindingTableGenerator.programNames, engineTable, enginePipeline]
  · rw [hsec, hpl]
    simp [ShaderBindingTableGenerator.programNames, engineTable, enginePipeline,
      RayTracingPipeline.identifiers]
  · rw [hsec, hpl]
    simp [ShaderBindingTableGenerator.Generate, ShaderBindingTableGenerator.programNames,
      engineTable, enginePipeline, RayTracingPipeline.identifiers]
  · rw [htr]; simp
  · simp
  · intro b pl; simp
  · simp

/-- C15, on the sample machine. -/
theorem sbt_names_registered_witness :
    ∃ e, OnInit samplePlatform 0 (construct samplePlatform) = Except.ok e ∧
      e.sbtSections.Generate e.m_rtStateObjectProps = Except.ok () := by
  obtain ⟨e, _, _, _, h0, _, _, _, _, _, _, _, hgen, _⟩ :=
    sbt_names_registered samplePlatform 0 65536 rfl (by decide) rfl
  exact ⟨e, h0, hgen⟩


/-! ## Constant-buffer sizes, table sections, the singleton slot, resource states,
the shader-visible heap and the order of initialisation -/

/-- C25: for every 32-bit unsigned `x`, `CalcConstantBufferByteSize` gives a
32-bit value whose low 8 bits are zero (a multiple of 256), applying it again
changes nothing, and it returns `x` itself exactly when `x` is a multiple of
256; the wrap of `x + 255` modulo 2^32 is part of the function. -/
theorem CalcConstantBufferByteSize_idempotent (x : Nat) (hx : x < UINT32_RANGE) :
    CalcConstantBufferByteSize x < UINT32_RANGE ∧
      CalcConstantBufferByteSize (CalcConstantBufferByteSize x) = CalcConstantBufferByteSize x ∧
      CalcConstantBufferByteSize x &&& 255 = 0 ∧
      CalcConstantBufferByteSize x % 256 = 0 ∧
      (CalcConstantBufferByteSize x = x ↔ x % 256 = 0) := by
  have hlow : ∀ n : Nat, n &&& 255 = n % 256 := fun n =>
    Nat.and_pow_two_sub_one_eq_mod n 8
  rw [hlow]
  simp only [CalcConstantBufferByteSize_eq, UINT32_RANGE] at *
  omega

/-- C25 (witness): 300 is rounded to 512, which is a fixed point, and
4294967295 wraps to 0, which is one too. -/
theorem CalcConstantBufferByteSize_idempotent_witness :
    300 < UINT32_RANGE ∧
      (CalcConstantBufferByteSize 300 < UINT32_RANGE ∧
        CalcConstantBufferByteSize (CalcConstantBufferByteSize 300)
          = CalcConstantBufferByteSize 300 ∧
        CalcConstantBufferByteSize 300 &&& 255 = 0 ∧
        CalcConstantBufferByteSize 300 % 256 = 0 ∧
        (CalcConstantBufferByteSize 300 = 300 ↔ 300 % 256 = 0)) :=
  ⟨by decide, CalcConstantBufferByteSize_idempotent 300 (by decide)⟩


/-- C21: `CreateShaderBindingTable` leaves the helper with a ray-generation
section of exactly one entry (`RayGen`, whose one root argument is the GPU
handle of the start of the shader-visible heap), a miss section of exactly
one entry (`Miss`, no root arguments), and a hit-group section of, in this
order, three `HitGroup` entries whose one root argument is the GPU address of
per-instance constant buffer 0, 1 and 2, then one `PlaneHitGroup` entry with
no root arguments, whatever the sections held before. -/
theorem CreateShaderBindingTable_sections (p : Platform) (e : Engine) (a a0 a1 a2 : Nat)
    (hs : p.sbtStorage = some a) (hb : e.m_perInstanceConstantBuffers = [a0, a1, a2])
    (hp : e.m_rtStateObjectProps = enginePipeline) :
    ∃ e1, CreateShaderBindingTable p e = Except.ok e1 ∧
      e1.sbtSections.m_rayGen = [⟨ProgramName.RayGen, [e.m_srvUavHeap]⟩] ∧
      e1.sbtSections.m_miss = [⟨ProgramName.Miss, []⟩] ∧
      e1.sbtSections.m_hitGroup =
        [⟨ProgramName.HitGroup, [a0]⟩, ⟨ProgramName.HitGroup, [a1]⟩,
         ⟨ProgramName.HitGroup, [a2]⟩, ⟨ProgramName.PlaneHitGroup, []⟩] ∧
      e.m_perInstanceConstantBuffers.get? 0 = some a0 ∧
      e.m_perInstanceConstantBuffers.get? 1 = some a1 ∧
      e.m_perInstanceConstantBuffers.get? 2 = some a2 := by
  refine ⟨_, CreateShaderBindingTable_effect p e a a0 a1 a2 [] hs hb hp, rfl, rfl, rfl, ?_⟩
  simp [hb]

/-- C21 (witness): on the sample machine, with entries of an earlier run still
in the helper, the three sections are the ones described. -/
theorem CreateShaderBindingTable_sections_witness :
    ∃ e1, CreateShaderBindingTable samplePlatform
        { construct samplePlatform with
          m_srvUavHeap := 4096
          m_perInstanceConstantBuffers := [131072, 131328, 131584]
          m_rtStateObjectProps := enginePipeline
          sbtSections := engineTable 1 2 3 4 } = Except.ok e1 ∧
      e1.sbtSections.m_rayGen = [⟨ProgramName.RayGen, [4096]⟩] ∧
      e1.sbtSections.m_miss = [⟨ProgramName.Miss, []⟩] ∧
      e1.sbtSections.m_hitGroup =
        [⟨ProgramName.HitGroup, [131072]⟩, ⟨ProgramName.HitGroup, [131328]⟩,
         ⟨ProgramName.HitGroup, [131584]⟩, ⟨ProgramName.PlaneHitGroup, []⟩] ∧
      [131072, 131328, 131584].get? 0 = some 131072 ∧
      [131072, 131328, 131584].get? 1 = some 131328 ∧
      [131072, 131328, 131584].get? 2 = some 131584 :=
  CreateShaderBindingTable_sections samplePlatform
    { construct samplePlatform with
      m_srvUavHeap := 4096
      m_perInstanceConstantBuffers := [131072, 131328, 131584]
      m_rtStateObjectProps := enginePipeline
      sbtSections := engineTable 1 2 3 4 } 65536 131072 131328 131584 rfl rfl rfl

/-- Once an instance is stored, `Construct` returns it and changes nothing. -/
theorem Construct_of_stored (s : SingletonSlot) (pointer : Nat)
    (h : s.s_instance = some pointer) : Construct s = (pointer, s) := by
  simp [Construct, h]

/-- C26 (the code at `Construct`, `Destroy`, `Get`): `Construct` stores
instance 0 and a second `Construct` returns the same instance without
allocating another; after `Destroy` the instance is freed but `s_instance`
still holds it, so `Get` returns the freed instance where the described slot
is empty, a later `Construct` returns the freed instance and allocates
nothing, and a second `Destroy` deletes the same object again. -/
theorem Destroy_leaves_s_instance :
    Construct SingletonSlot.initial = (0, ⟨some 0, [0], 1⟩) ∧
      Construct ⟨some 0, [0], 1⟩ = (0, ⟨some 0, [0], 1⟩) ∧
      Destroy ⟨some 0, [0], 1⟩ = some ⟨some 0, [], 1⟩ ∧
      SingletonSlot.calls [SingletonCall.Construct, SingletonCall.Destroy] SingletonSlot.initial
        = some ⟨some 0, [], 1⟩ ∧
      constructedWithNoDestroyAfter [SingletonCall.Construct, SingletonCall.Destroy] = false ∧
      Get ⟨some 0, [], 1⟩ = some 0 ∧
      Construct ⟨some 0, [], 1⟩ = (0, ⟨some 0, [], 1⟩) ∧
      Destroy ⟨some 0, [], 1⟩ = none := by
  decide


theorem ResourceStates_run_append (a b : List Cmd) (t : ResourceStates) :
    ResourceStates.run (a ++ b) t = (ResourceStates.run a t).bind (ResourceStates.run b) := by
  induction a generalizing t with
  | nil => rfl
  | cons c rest ih =>
      simp only [List.cons_append, ResourceStates.run]
      cases t.step c with
      | none => rfl
      | some t1 => exact ih t1

theorem ResourceStates_run_draws (l : List Nat) (t : ResourceStates) :
    ResourceStates.run (l.map Cmd.DrawInstance) t = some t := by
  induction l with
  | nil => rfl
  | cons i rest ih => simpa [ResourceStates.run, ResourceStates.step] using ih

/-- One frame, on either path, passes every check and gives the states it
started from back. -/
theorem ResourceStates_run_frame (e : Engine) (t : ResourceStates)
    (hb : ∀ n, t.m_renderTargets n = ResourceState.PRESENT)
    (ho : t.m_outputResource = ResourceState.COPY_SOURCE) :
    ResourceStates.run (frameCommands e) t = some t := by
  obtain ⟨rt, out⟩ := t
  simp only at hb ho
  subst ho
  have hrt : rt = fun _ => ResourceState.PRESENT := funext hb
  subst hrt
  cases hr : e.m_isRasterizationActive
  · simp [frameCommands, hr, raytraceCommands, ResourceStates.run, ResourceStates.step,
      ResourceStates.get, ResourceStates.set]
    funext n
    split_ifs <;> rfl
  · simp [frameCommands, hr, rasterCommands, DrawScene, ResourceStates.run,
      ResourceStates.step, ResourceStates.get, ResourceStates.set,
      ResourceStates_run_append, ResourceStates_run_draws]
    funext n
    split_ifs <;> rfl

theorem ResourceStates_run_frames (frames : List Engine) (t : ResourceStates)
    (hb : ∀ n, t.m_renderTargets n = ResourceState.PRESENT)
    (ho : t.m_outputResource = ResourceState.COPY_SOURCE) :
    ResourceStates.run (frames.flatMap fun e => (PopulateCommandList e).commandList) t
      = some t := by
  induction frames with
  | nil => rfl
  | cons e rest ih =>
      rw [List.flatMap_cons, ResourceStates_run_append, PopulateCommandList_effect]
      simp only [ResourceStates_run_frame e t hb ho, Option.bind]
      exact ih

/-- C22: the output image is created in `COPY_SOURCE`; and from states in
which every back buffer is in `PRESENT` and the output image in
`COPY_SOURCE`, the commands `PopulateCommandList` records over any sequence
of frames, each with its own back-buffer index and on the raster or the
ray-traced path, pass every check of the tracker (each transition finds the
resource in its before-state, `DispatchRays` finds the output image in
`UNORDERED_ACCESS`, `CopyResource` finds the output image in `COPY_SOURCE`
and the back buffer in `COPY_DEST`) and end in the states they started from;
this holds for the frames up to any point of the sequence, so at the end of
every frame. -/
theorem recorded_frames_keep_resource_states (frames : List Engine) (t : ResourceStates)
    (hb : ∀ n, t.m_renderTargets n = ResourceState.PRESENT)
    (ho : t.m_outputResource = ResourceState.COPY_SOURCE) :
    (∀ e : Engine, (CreateRaytracingOutputBuffer e).m_outputResource.map OutputTexture.state
        = some ResourceState.COPY_SOURCE) ∧
      ∀ n, ResourceStates.run
        ((frames.take n).flatMap fun e => (PopulateCommandList e).commandList) t = some t :=
  ⟨fun _ => rfl, fun n => ResourceStates_run_frames (frames.take n) t hb ho⟩

/-- The tracker is not idle: a ray-traced frame recorded while the output
image is still in `UNORDERED_ACCESS` is rejected. -/
theorem ResourceStates_run_rejects :
    ResourceStates.run (frameCommands (construct samplePlatform))
      ⟨fun _ => ResourceState.PRESENT, ResourceState.UNORDERED_ACCESS⟩ = none := by
  simp [frameCommands, raytraceCommands, construct, samplePlatform, ResourceStates.run,
    ResourceStates.step, ResourceStates.get, ResourceStates.set]

/-- C22 (witness): a ray-traced frame on back buffer 0 followed by a raster
frame on back buffer 1, from the states after initialisation. -/
theorem recorded_frames_keep_resource_states_witness :
    (∀ n, (initialResourceStates ⟨800, 600, 1, ResourceState.COPY_SOURCE⟩).m_renderTargets n
        = ResourceState.PRESENT) ∧
      (initialResourceStates ⟨800, 600, 1, ResourceState.COPY_SOURCE⟩).m_outputResource
        = ResourceState.COPY_SOURCE ∧
      ((∀ e : Engine, (CreateRaytracingOutputBuffer e).m_outputResource.map OutputTexture.state
          = some ResourceState.COPY_SOURCE) ∧
        ∀ n, ResourceStates.run
          (([construct samplePlatform,
             { construct samplePlatform with
               m_isRasterizationActive := true, m_frameIndex := 1 }].take n).flatMap
            fun e => (PopulateCommandList e).commandList)
          (initialResourceStates ⟨800, 600, 1, ResourceState.COPY_SOURCE⟩)
          = some (initialResourceStates ⟨800, 600, 1, ResourceState.COPY_SOURCE⟩)) :=
  ⟨fun _ => rfl, rfl,
    recorded_frames_keep_resource_states
      [construct samplePlatform,
       { construct samplePlatform with m_isRasterizationActive := true, m_frameIndex := 1 }]
      (initialResourceStates ⟨800, 600, 1, ResourceState.COPY_SOURCE⟩) (fun _ => rfl) rfl⟩


/-- C27: `CreatePerInstanceConstantBuffers` leaves a list of exactly 3 buffers;
the colour table has 9 elements, no two equal; every copy reads inside the
table (none of the three is `none`) and buffer 0, 1, 2 receives the three
vectors at elements 0-2, 3-5, 6-8, so that the three buffers together are the
table, each element once; and the loop of `CreateShaderBindingTable` runs
over the indices 0, 1, 2, all below the length of the list, and does not
index outside it. -/
theorem perInstance_buffers_within_bounds (p : Platform) (e : Engine) :
    (CreatePerInstanceConstantBuffers p e).m_perInstanceConstantBuffers.length = 3 ∧
      bufferData.length = 9 ∧ bufferData.Nodup ∧
      (CreatePerInstanceConstantBuffers p e).perInstanceData =
        [some [⟨10, 0, 0, 10⟩, ⟨10, 4, 0, 10⟩, ⟨10, 7, 0, 10⟩],
         some [⟨0, 10, 0, 10⟩, ⟨0, 10, 4, 10⟩, ⟨0, 10, 7, 10⟩],
         some [⟨0, 0, 10, 10⟩, ⟨4, 0, 10, 10⟩, ⟨7, 0, 10, 10⟩]] ∧
      (CreatePerInstanceConstantBuffers p e).perInstanceData =
        [some ((bufferData.drop 0).take 3), some ((bufferData.drop 3).take 3),
         some ((bufferData.drop 6).take 3)] ∧
      ((CreatePerInstanceConstantBuffers p e).perInstanceData.filterMap id).flatten
        = bufferData ∧
      List.range 3 = [0, 1, 2] ∧
      ((List.range 3).all fun i =>
        decide (i < (CreatePerInstanceConstantBuffers p e).m_perInstanceConstantBuffers.length))
        = true ∧
      ∃ e1, addInstanceHitGroups (List.range 3)
          (CreateShaderResourceHeap p (CreateCameraBuffer (CreateRaytracingOutputBuffer
            (CreatePerInstanceConstantBuffers p e)))) = Except.ok e1 := by
  refine ⟨by simp [CreatePerInstanceConstantBuffers], by decide, by decide, by
    simp [CreatePerInstanceConstantBuffers]; decide, by
    simp [CreatePerInstanceConstantBuffers]; decide, by
    simp [CreatePerInstanceConstantBuffers]; decide, by decide, by
    simp [CreatePerInstanceConstantBuffers], ?_⟩
  simp [CreatePerInstanceConstantBuffers, CreateShaderResourceHeap, CreateCameraBuffer,
    CreateRaytracingOutputBuffer, Engine.writeView, Engine.log, addInstanceHitGroups,
    List.range, List.range.loop, Engine.sbtAddHitGroup]


/-- C23: `CreateShaderResourceHeap` makes a heap of exactly 3 descriptors and
writes exactly three views: the UAV of the output image at the start of the
heap, the SRV of the top-level acceleration structure one increment further,
the CBV of the camera buffer one more increment further; the ray-generation
signature declares one UAV at slot 0, one SRV at slot 1 and one CBV at slot
2; and for each declared range the slot lies inside the heap and the view
the heap holds there is of the declared kind. The increment is positive and
the three slots lie in the 64-bit address space. -/
theorem heap_matches_raygen_signature (p : Platform) (e : Engine)
    (hi : 0 < p.descriptorIncrement)
    (hfit : p.srvUavHeapCpuStart + 2 * p.descriptorIncrement < UINT64_RANGE) :
    (CreateShaderResourceHeap p e).srvUavHeapNumDescriptors = 3 ∧
      (CreateShaderResourceHeap p e).srvUavHeapViews =
        [(p.srvUavHeapCpuStart, DescriptorView.UnorderedAccessView e.m_outputResource),
         (p.srvUavHeapCpuStart + p.descriptorIncrement,
           DescriptorView.ShaderResourceView e.m_topLevelASBuffers),
         (p.srvUavHeapCpuStart + p.descriptorIncrement + p.descriptorIncrement,
           DescriptorView.ConstantBufferView Object.m_cameraBuffer e.m_cameraBufferSize)] ∧
      CreateRayGenSignature.map
          (fun r => (r.RangeType, r.NumDescriptors, r.OffsetInDescriptorsFromTableStart)) =
        [(DescriptorRangeType.UAV, 1, 0), (DescriptorRangeType.SRV, 1, 1),
         (DescriptorRangeType.CBV, 1, 2)] ∧
      ∀ r ∈ CreateRayGenSignature,
        r.OffsetInDescriptorsFromTableStart + r.NumDescriptors
            ≤ (CreateShaderResourceHeap p e).srvUavHeapNumDescriptors ∧
          ((CreateShaderResourceHeap p e).descriptorAt
            (p.srvUavHeapCpuStart + r.OffsetInDescriptorsFromTableStart * p.descriptorIncrement)).map
              DescriptorView.kind = some r.RangeType := by
  have h1 : (p.srvUavHeapCpuStart + p.descriptorIncrement) % UINT64_RANGE
      = p.srvUavHeapCpuStart + p.descriptorIncrement :=
    Nat.mod_eq_of_lt (by omega)
  have h2 : (p.srvUavHeapCpuStart + p.descriptorIncrement + p.descriptorIncrement) % UINT64_RANGE
      = p.srvUavHeapCpuStart + p.descriptorIncrement + p.descriptorIncrement :=
    Nat.mod_eq_of_lt (by omega)
  have hv : (CreateShaderResourceHeap p e).srvUavHeapViews =
        [(p.srvUavHeapCpuStart, DescriptorView.UnorderedAccessView e.m_outputResource),
         (p.srvUavHeapCpuStart + p.descriptorIncrement,
           DescriptorView.ShaderResourceView e.m_topLevelASBuffers),
         (p.srvUavHeapCpuStart + p.descriptorIncrement + p.descriptorIncrement,
           DescriptorView.ConstantBufferView Object.m_cameraBuffer e.m_cameraBufferSize)] := by
    simp [CreateShaderResourceHeap, Engine.writeView, Engine.log, h1, h2]
  refine ⟨rfl, hv, rfl, ?_⟩
  intro r hr
  simp only [CreateRayGenSignature, List.mem_cons, List.mem_singleton, List.not_mem_nil,
    or_false] at hr
  have hn : (CreateShaderResourceHeap p e).srvUavHeapNumDescriptors = 3 := rfl
  rcases hr with rfl | rfl | rfl
  · refine ⟨by rw [hn]; decide, ?_⟩
    rw [Engine.descriptorAt, hv]
    have n1 : (p.srvUavHeapCpuStart
        == p.srvUavHeapCpuStart + p.descriptorIncrement + p.descriptorIncrement) = false := by
      rw [beq_eq_false_iff_ne]; omega
    have n2 : (p.srvUavHeapCpuStart == p.srvUavHeapCpuStart + p.descriptorIncrement)
        = false := by
      rw [beq_eq_false_iff_ne]; omega
    simp [List.lookup, DescriptorView.kind, n1, n2]
  · refine ⟨by rw [hn]; decide, ?_⟩
    rw [Engine.descriptorAt, hv]
    have n1 : (p.srvUavHeapCpuStart + p.descriptorIncrement
        == p.srvUavHeapCpuStart + p.descriptorIncrement + p.descriptorIncrement) = false := by
      rw [beq_eq_false_iff_ne]; omega
    simp [List.lookup, DescriptorView.kind, n1]
  · refine ⟨by rw [hn]; decide, ?_⟩
    rw [Engine.descriptorAt, hv]
    have n1 : p.srvUavHeapCpuStart + 2 * p.descriptorIncrement
        = p.srvUavHeapCpuStart + p.descriptorIncrement + p.descriptorIncrement := by omega
    simp [List.lookup, DescriptorView.kind, n1]

/-- C23 (witness): on the sample machine, heap start 8192 and increment 32,
the three views are written at 8192, 8224 and 8256. -/
theorem heap_matches_raygen_signature_witness :
    0 < samplePlatform.descriptorIncrement ∧
      samplePlatform.srvUavHeapCpuStart + 2 * samplePlatform.descriptorIncrement
        < UINT64_RANGE ∧
      ((CreateShaderResourceHeap samplePlatform sampleHeapEngine).srvUavHeapNumDescriptors = 3 ∧
        (CreateShaderResourceHeap samplePlatform sampleHeapEngine).srvUavHeapViews =
          [(8192, DescriptorView.UnorderedAccessView
              (some ⟨800, 600, 1, ResourceState.COPY_SOURCE⟩)),
           (8224, DescriptorView.ShaderResourceView (some ⟨4096, 8192, 256⟩)),
           (8256, DescriptorView.ConstantBufferView Object.m_cameraBuffer 256)] ∧
        CreateRayGenSignature.map
            (fun r => (r.RangeType, r.NumDescriptors, r.OffsetInDescriptorsFromTableStart)) =
          [(DescriptorRangeType.UAV, 1, 0), (DescriptorRangeType.SRV, 1, 1),
           (DescriptorRangeType.CBV, 1, 2)] ∧
        ∀ r ∈ CreateRayGenSignature,
          r.OffsetInDescriptorsFromTableStart + r.NumDescriptors
              ≤ (CreateShaderResourceHeap samplePlatform sampleHeapEngine).srvUavHeapNumDescriptors ∧
            ((CreateShaderResourceHeap samplePlatform sampleHeapEngine).descriptorAt
              (samplePlatform.srvUavHeapCpuStart
                + r.OffsetInDescriptorsFromTableStart * samplePlatform.descriptorIncrement)).map
                DescriptorView.kind = some r.RangeType) :=
  ⟨by decide, by decide,
    heap_matches_raygen_signature samplePlatform sampleHeapEngine (by decide) (by decide)⟩


theorem created_append (a b : List Call) : created (a ++ b) = created a ++ created b := by
  induction a with
  | nil => rfl
  | cons c rest ih => cases c <;> simp [created, ih]

theorem OnInit_eq_runSteps (p : Platform) (k : Nat) (e : Engine) :
    OnInit p k e = runSteps p k initSteps e := by
  simp only [OnInit, initSteps, runSteps, runStep, bind, Except.bind, pure, Except.pure]
  cases LoadAssets k (LoadPipeline e) with
  | error f => rfl
  | ok e1 =>
    simp only []
    cases CheckRaytracingSupport p e1 with
    | error f => rfl
    | ok e2 =>
      simp only []
      cases CreateAccelerationStructures p e2 with
      | error f => rfl
      | ok e3 =>
        simp only []
        cases CreateShaderBindingTable p _ with
        | error f => rfl
        | ok e4 => rfl

theorem addInstanceHitGroups_trace (l : List Nat) (e e1 : Engine)
    (h : addInstanceHitGroups l e = Except.ok e1) : ∃ added, e1.trace = e.trace ++ added := by
  induction l generalizing e with
  | nil =>
      simp only [addInstanceHitGroups, Except.ok.injEq] at h
      exact ⟨[], by rw [h]; simp⟩
  | cons i rest ih =>
      simp only [addInstanceHitGroups] at h
      cases hg : e.m_perInstanceConstantBuffers.get? i with
      | none => rw [hg] at h; cases h
      | some address =>
          rw [hg] at h
          obtain ⟨added, ha⟩ := ih _ h
          exact ⟨Call.AddHitGroup ⟨ProgramName.HitGroup, [address]⟩ :: added, by
            rw [ha]; simp [Engine.sbtAddHitGroup, Engine.log]⟩

theorem CreateShaderBindingTable_trace (p : Platform) (e e1 : Engine)
    (h : CreateShaderBindingTable p e = Except.ok e1) : ∃ added, e1.trace = e.trace ++ added := by
  simp only [CreateShaderBindingTable, bind, Except.bind] at h
  cases ha : addInstanceHitGroups (List.range 3)
      (Engine.sbtAddMissProgram ProgramName.Miss []
        (Engine.sbtAddRayGenerationProgram ProgramName.RayGen [e.sbtReset.m_srvUavHeap]
          e.sbtReset)) with
  | error f => rw [ha] at h; cases h
  | ok e2 =>
      rw [ha] at h
      obtain ⟨added, hadd⟩ := addInstanceHitGroups_trace _ _ _ ha
      simp only at h
      cases hs : p.sbtStorage with
      | none => rw [hs] at h; cases h
      | some address =>
          rw [hs] at h
          simp only at h
          split at h
          · cases h
          · cases h
            exact ⟨_, by
              simp [Engine.log, Engine.sbtComputeSBTSize, Engine.sbtAddHitGroup, hadd,
                Engine.sbtAddMissProgram, Engine.sbtAddRayGenerationProgram, Engine.sbtReset]; rfl⟩

theorem created_waitCalls (value read : Nat) (event : EventHandle) :
    created (waitCalls value read event) = [] := by
  unfold waitCalls
  split <;> rfl

theorem created_map_record (l : List Cmd) : created (l.map Call.record) = [] := by
  induction l with
  | nil => rfl
  | cons c rest ih => simpa [created] using ih

/-- A step of `OnInit` only adds to the trace, and what it adds creates the
objects listed for it. -/
theorem runStep_created (p : Platform) (k : Nat) (s : InitStep) (e e1 : Engine)
    (h : runStep p k s e = Except.ok e1) :
    ∃ added, e1.trace = e.trace ++ added ∧ ∀ object ∈ stepCreates p s, object ∈ created added := by
  cases s with
  | LoadPipeline =>
      simp only [runStep, Except.ok.injEq] at h
      subst h
      exact ⟨_, LoadPipeline_trace e, by simp [stepCreates, created]⟩
  | LoadAssets =>
      simp only [runStep, LoadAssets, bind, Except.bind, pure, Except.pure] at h
      obtain ⟨g1, _, _, hw⟩ := WaitForPreviousFrame_effect k
        (Engine.log Call.CreateEvent
          { (Engine.log (Call.create Object.m_fence)
              { (Engine.log (Call.create Object.m_commandList)
                  { (Engine.log (Call.create Object.m_pipelineState)
                      (Engine.log (Call.create Object.m_rootSignature) e)) with
                    commandList := [], recording := true }) with
                gpu := { (Engine.log (Call.create Object.m_commandList)
                  { (Engine.log (Call.create Object.m_pipelineState)
                      (Engine.log (Call.create Object.m_rootSignature) e)) with
                    commandList := [], recording := true }).gpu with completed := 0 } }) with
            m_fenceValue := 1 })
      rw [hw] at h
      simp only [Except.ok.injEq] at h
      subst h
      refine ⟨_, by simp [Engine.log]; rfl, ?_⟩
      simp [stepCreates, created, created_append, created_waitCalls]
  | CheckRaytracingSupport =>
      simp only [runStep, CheckRaytracingSupport] at h
      split at h
      · cases h
      · split at h
        · cases h
        · cases h
          exact ⟨[Call.CheckFeatureSupport], rfl, by simp [stepCreates]⟩
  | CreateAccelerationStructures =>
      obtain ⟨g1, _, _, hc⟩ := CreateAccelerationStructures_effect p e
      simp only [runStep, hc, Except.ok.injEq] at h
      subst h
      refine ⟨_, by simp only [List.append_assoc]; rfl, ?_⟩
      simp [stepCreates, created, created_append, created_map_record]
  | CloseCommandList =>
      simp only [runStep, Except.ok.injEq] at h
      subst h
      exact ⟨[Call.ListClose], rfl, by simp [stepCreates]⟩
  | CreateRaytracingPipeline =>
      simp only [runStep, Except.ok.injEq] at h
      subst h
      exact ⟨_, by simp [CreateRaytracingPipeline, Engine.log]; rfl,
        by simp [stepCreates, created]⟩
  | CreatePerInstanceConstantBuffers =>
      simp only [runStep, Except.ok.injEq] at h
      subst h
      exact ⟨_, rfl, by simp [stepCreates, created, List.range, List.range.loop]⟩
  | CreateRaytracingOutputBuffer =>
      simp only [runStep, Except.ok.injEq] at h
      subst h
      exact ⟨_, rfl, by simp [stepCreates, created]⟩
  | CreateCameraBuffer =>
      simp only [runStep, Except.ok.injEq] at h
      subst h
      exact ⟨_, by simp [CreateCameraBuffer, Engine.log]; rfl, by simp [stepCreates, created]⟩
  | CreateShaderResourceHeap =>
      simp only [runStep, Except.ok.injEq] at h
      subst h
      exact ⟨_, rfl, by simp [stepCreates, created]⟩
  | CreateShaderBindingTable =>
      obtain ⟨added, ha⟩ := CreateShaderBindingTable_trace p e e1 h
      exact ⟨added, ha, by simp [stepCreates]⟩
  | CameraUpdate =>
      simp only [runStep, Except.ok.injEq] at h
      subst h
      exact ⟨[Call.CameraUpdate], rfl, by simp [stepCreates]⟩
  | UpdateCameraBuffer =>
      simp only [runStep, Except.ok.injEq] at h
      subst h
      exact ⟨[Call.MapCameraBuffer], rfl, by simp [stepCreates]⟩

theorem runSteps_created (p : Platform) (k : Nat) (steps : List InitStep) (e e1 : Engine)
    (h : runSteps p k steps e = Except.ok e1) :
    ∀ object ∈ created e.trace ++ steps.flatMap (stepCreates p), object ∈ created e1.trace := by
  induction steps generalizing e with
  | nil =>
      simp only [runSteps, Except.ok.injEq] at h
      subst h
      simp
  | cons s rest ih =>
      simp only [runSteps] at h
      cases hs : runStep p k s e with
      | error f => rw [hs] at h; cases h
      | ok e2 =>
          rw [hs] at h
          obtain ⟨added, ha, hc⟩ := runStep_created p k s e e2 hs
          intro object ho
          apply ih e2 h
          rw [ha, created_append]
          simp only [List.flatMap_cons, List.mem_append] at ho ⊢
          rcases ho with ho | ho | ho
          · exact Or.inl (Or.inl ho)
          · exact Or.inl (Or.inr (hc object ho))
          · exact Or.inr ho

theorem runSteps_prefix (p : Platform) (k : Nat) (before after : List InitStep) (e e2 : Engine)
    (h : runSteps p k (before ++ after) e = Except.ok e2) :
    ∃ e1, runSteps p k before e = Except.ok e1 := by
  induction before generalizing e with
  | nil => exact ⟨e, rfl⟩
  | cons s rest ih =>
      simp only [List.cons_append, runSteps] at h ⊢
      cases hs : runStep p k s e with
      | error f => rw [hs] at h; cases h
      | ok e3 =>
          rw [hs] at h
          exact ih e3 h

theorem dependenciesMet_split (p : Platform) (atHand : List Object)
    (before : List InitStep) (s : InitStep) (after : List InitStep)
    (h : dependenciesMet p atHand (before ++ s :: after) = true) :
    ∀ object ∈ stepReads p s, object ∈ atHand ++ before.flatMap (stepCreates p) := by
  induction before generalizing atHand with
  | nil =>
      simp only [List.nil_append, dependenciesMet, Bool.and_eq_true, List.all_eq_true,
        decide_eq_true_eq] at h
      simpa using h.1
  | cons s0 rest ih =>
      simp only [List.cons_append, dependenciesMet, Bool.and_eq_true] at h
      intro object ho
      have := ih _ h.2 object ho
      simpa [List.flatMap_cons, List.append_assoc] using this

theorem dependenciesMet_initSteps (p : Platform) : dependenciesMet p [] initSteps = true := by
  simp [dependenciesMet, initSteps, stepReads, stepCreates]

/-- The check is not idle: with `CreateShaderResourceHeap` moved in front of
`CreateCameraBuffer` the camera buffer is missing when the heap is filled. -/
theorem dependenciesMet_rejects (p : Platform) :
    dependenciesMet p []
      [InitStep.LoadPipeline, InitStep.LoadAssets, InitStep.CheckRaytracingSupport,
       InitStep.CreateAccelerationStructures, InitStep.CloseCommandList,
       InitStep.CreateRaytracingPipeline, InitStep.CreatePerInstanceConstantBuffers,
       InitStep.CreateRaytracingOutputBuffer, InitStep.CreateShaderResourceHeap,
       InitStep.CreateCameraBuffer] = false := by
  simp [dependenciesMet, stepReads, stepCreates]

/-- C24: on a machine with ray tracing and room for the binding table,
`OnInit` returns, it is its thirteen steps run in order, and at every step,
with the steps before it run from the constructed engine, every object the
step reads has been created by then; the objects read include the command
list and the fence for `CreateAccelerationStructures`, the output image, the
top-level result buffer and the camera buffer for `CreateShaderResourceHeap`,
the shader-visible heap, the three per-instance constant buffers and the
pipeline properties for `CreateShaderBindingTable`, and the camera buffer
for `UpdateCameraBuffer`. -/
theorem OnInit_steps_find_their_objects (p : Platform) (k a : Nat)
    (hq : p.featureQueryOk = true) (ht : D3D12_RAYTRACING_TIER_1_0 ≤ p.RaytracingTier)
    (hs : p.sbtStorage = some a) :
    ∃ e, OnInit p k (construct p) = Except.ok e ∧
      runSteps p k initSteps (construct p) = Except.ok e ∧
      (∀ before s after, initSteps = before ++ s :: after →
        ∃ e1, runSteps p k before (construct p) = Except.ok e1 ∧
          ∀ object ∈ stepReads p s, object ∈ created e1.trace) ∧
      [Object.m_commandList, Object.m_fence] ⊆ stepReads p InitStep.CreateAccelerationStructures ∧
      [Object.m_outputResource, Object.resultBuffer p.topLevelSizes.pResult,
        Object.m_cameraBuffer] ⊆ stepReads p InitStep.CreateShaderResourceHeap ∧
      [Object.m_srvUavHeap, Object.perInstanceConstantBuffer 0,
        Object.perInstanceConstantBuffer 1, Object.perInstanceConstantBuffer 2,
        Object.m_rtStateObjectProps] ⊆ stepReads p InitStep.CreateShaderBindingTable ∧
      [Object.m_cameraBuffer] ⊆ stepReads p InitStep.UpdateCameraBuffer := by
  obtain ⟨e, he, _⟩ := OnInit_effect p k a hq ht hs
  have hr : runSteps p k initSteps (construct p) = Except.ok e := by
    rw [← OnInit_eq_runSteps]; exact he
  refine ⟨e, he, hr, ?_, by simp [stepReads], by simp [stepReads], by simp [stepReads],
    by simp [stepReads]⟩
  intro before s after hsplit
  rw [hsplit] at hr
  obtain ⟨e1, h1⟩ := runSteps_prefix p k before (s :: after) (construct p) e hr
  refine ⟨e1, h1, ?_⟩
  intro object ho
  apply runSteps_created p k before (construct p) e1 h1
  have hd := dependenciesMet_initSteps p
  rw [hsplit] at hd
  simpa [construct, created] using dependenciesMet_split p [] before s after hd object ho

/-- C24 (witness): the sample machine. -/
theorem OnInit_steps_find_their_objects_witness :
    samplePlatform.featureQueryOk = true ∧
      D3D12_RAYTRACING_TIER_1_0 ≤ samplePlatform.RaytracingTier ∧
      samplePlatform.sbtStorage = some 65536 ∧
      ∃ e, OnInit samplePlatform 0 (construct samplePlatform) = Except.ok e ∧
        runSteps samplePlatform 0 initSteps (construct samplePlatform) = Except.ok e ∧
        (∀ before s after, initSteps = before ++ s :: after →
          ∃ e1, runSteps samplePlatform 0 before (construct samplePlatform) = Except.ok e1 ∧
            ∀ object ∈ stepReads samplePlatform s, object ∈ created e1.trace) ∧
        [Object.m_commandList, Object.m_fence]
          ⊆ stepReads samplePlatform InitStep.CreateAccelerationStructures ∧
        [Object.m_outputResource, Object.resultBuffer samplePlatform.topLevelSizes.pResult,
          Object.m_cameraBuffer] ⊆ stepReads samplePlatform InitStep.CreateShaderResourceHeap ∧
        [Object.m_srvUavHeap, Object.perInstanceConstantBuffer 0,
          Object.perInstanceConstantBuffer 1, Object.perInstanceConstantBuffer 2,
          Object.m_rtStateObjectProps]
          ⊆ stepReads samplePlatform InitStep.CreateShaderBindingTable ∧
        [Object.m_cameraBuffer] ⊆ stepReads samplePlatform InitStep.UpdateCameraBuffer :=
  ⟨rfl, by decide, rfl, OnInit_steps_find_their_objects samplePlatform 0 65536 rfl (by decide) rfl⟩


end RevEngine
